import Mathlib

/-!
# ristsender / rist2mpeg: a shallow embedding of the command-line tools

The definitions below follow `tools/ristsender.c` function by function.
Calls into the librist library, libc and the operating system are not part of
these sources: their return values are taken as parameters, and every call
the tool makes is recorded in a list, so that "is called" and "is never
called" are statements about that list.

Conventions:
* a C string is the list of its characters (without the terminating NUL);
  a character buffer that is modified in place is the list of all its
  cells, NUL cells included, and a pointer into it is an index;
* `int` values are integers; `uint16_t` values are `Fin 65536`;
* a pointer that may be NULL is an `Option`.
-/

set_option linter.unusedVariables false
set_option linter.unnecessarySeqFocus false

namespace Ristsender

/-! ## Constants and plain data -/

/-- The `MAX_INPUT_COUNT` define. -/
def MAX_INPUT_COUNT : Nat := 10

/-- The `MAX_OUTPUT_COUNT` define. -/
def MAX_OUTPUT_COUNT : Nat := 10

/-- Profile number of the simple profile; `help_str` documents
"0 = simple, 1 = main, 2 = advanced". -/
def RIST_PROFILE_SIMPLE : Int := 0

/-- Profile number of the main profile, the default of `main`. -/
def RIST_PROFILE_MAIN : Int := 1

/-- The C type `uint16_t`. -/
abbrev uint16_t := Fin 65536

/-- The NUL character that terminates a C string. -/
def NUL : Char := Char.ofNat 0

/-- A `struct rist_ctx *` that is not NULL. `main` creates at most one sender
context and one receiver context per slot of `callback_object`, so a context
is named by its kind and its slot. -/
inductive rist_ctx where
  | sender (i : Nat)
  | receiver (i : Nat)
  deriving DecidableEq

/-- The members of `struct rist_peer_config` that `setup_rist_peer` reads or
writes. The structure is declared in the librist headers; numeric members are
carried as integers, and the members `recovery_length_min` and
`recovery_length_max`, which are `uint32_t`, receive their value through
`to_uint32` where the tool assigns them. `secret` is the whole
`char secret[...]` array. -/
structure rist_peer_config where
  address : List Char
  secret : List Char
  key_size : Int
  virt_dst_port : Nat
  recovery_maxbitrate : Int
  recovery_length_min : Int
  recovery_length_max : Int
  recovery_reorder_buffer : Int
  recovery_rtt_min : Int
  recovery_rtt_max : Int
  congestion_control_mode : Int
  min_retries : Int
  max_retries : Int
  deriving DecidableEq

/-- The members of `struct rist_udp_config` that the tool reads. `pfx` is the
member the source calls `prefix`. The three rtp members are C truth values. -/
structure rist_udp_config where
  pfx : List Char
  address : List Char
  miface : List Char
  address_family : Int
  rtp : Int
  rtp_timestamp : Int
  rtp_sequence : Int
  stream_id : uint16_t
  deriving DecidableEq

/-- The record `struct rist_sender_args`. -/
structure rist_sender_args where
  ctx : rist_ctx
  token : Option (List Char)
  profile : Int
  loglevel : Int
  encryption_type : Int
  shared_secret : Option (List Char)
  buffer_size : Int
  statsinterval : Int
  stream_id : uint16_t
  deriving DecidableEq

/-- A `struct rist_peer *` that is not NULL: the peer that `rist_peer_create`
made on a context from a configuration. -/
structure rist_peer where
  ctx : rist_ctx
  config : rist_peer_config
  deriving DecidableEq

/-- The record `struct rist_oob_block` as `cb_auth_connect` fills it. -/
structure rist_oob_block where
  peer : Option rist_peer
  payload : List Char
  payload_len : Int
  deriving DecidableEq

/-- The members of `struct rist_data_block` that `input_udp_recv` fills.
`payload` is the distance of the payload pointer from `recv_buf`. -/
structure rist_data_block where
  payload : Nat
  payload_len : Int
  ts_ntp : Nat
  flags : Nat
  seq : Nat
  deriving DecidableEq

/-- The static callback functions of the tool. -/
inductive Callback where
  | cb_stats
  | cb_auth_connect
  | cb_auth_disconnect
  | cb_recv_oob
  | input_udp_recv
  | input_udp_sockerr
  | input_loop
  deriving DecidableEq

/-- Severity of a `rist_log` line. -/
inductive LogLevel where
  | ERROR
  | WARN
  | INFO
  deriving DecidableEq

/-- One call that leaves the tool: a library call with its arguments. -/
inductive LibCall where
  | stats_callback_set (ctx : rist_ctx) (interval : Int) (cb : Callback)
  | auth_handler_set (ctx : rist_ctx) (connect_cb disconnect_cb : Callback) (arg : rist_ctx)
  | oob_callback_set (ctx : rist_ctx) (cb : Callback) (arg : rist_ctx)
  | parse_address (token : Option (List Char))
  | peer_create (ctx : rist_ctx) (config : rist_peer_config)
  | free_config
  | oob_write (ctx : rist_ctx) (block : rist_oob_block)
  | sender_data_write (ctx : Option rist_ctx) (block : rist_data_block)
  | log (level : LogLevel)
  deriving DecidableEq

/-! ## `risttools_convertRTPtoNTP` and `input_udp_recv` -/

/-- The function `risttools_convertRTPtoNTP`, which the source keeps inside a
comment: the 32-bit RTP time shifted left by 32 within 64 bits and divided by
the 90000 Hz clock. -/
def risttools_convertRTPtoNTP (i_rtp : Nat) : Nat :=
  (((i_rtp % 2 ^ 32) * 2 ^ 32) % 2 ^ 64) / 90000

/-- The 32-bit RTP timestamp in bytes 4..7 of a datagram, big-endian, as the
commented-out line of `input_udp_recv` computes it. -/
def rtp_time (recv_buf : List Nat) : Nat :=
  (recv_buf.getD 4 0 * 2 ^ 24 + recv_buf.getD 5 0 * 2 ^ 16
    + recv_buf.getD 6 0 * 2 ^ 8 + recv_buf.getD 7 0) % 2 ^ 32

/-- The 16-bit RTP sequence number in bytes 2..3 of a datagram, big-endian, as
the commented-out line of `input_udp_recv` computes it. -/
def rtp_seq (recv_buf : List Nat) : Nat :=
  recv_buf.getD 2 0 * 2 ^ 8 + recv_buf.getD 3 0

/-- The function `input_udp_recv` after `udpsocket_recvfrom` has returned
`recv_bufsize` and left `recv_buf` in the receive buffer. `udp_config` and
`sender_ctx` are the members of the callback object; `would_block` says
whether `errno` is `EWOULDBLOCK`. The two blocks guarded by `rtp_timestamp`
and `rtp_sequence` have empty bodies in the source (their statements are
commented out), so they contribute nothing. -/
def input_udp_recv (udp_config : rist_udp_config) (sender_ctx : Option rist_ctx)
    (recv_buf : List Nat) (recv_bufsize : Int) (would_block : Bool) : List LibCall :=
  if recv_bufsize > 0 then
    let ts_ntp := 0
    let flags := 0
    let offset : Int := if udp_config.rtp ≠ 0 ∧ recv_bufsize > 12 then 12 else 0
    let data_block : rist_data_block :=
      { payload := offset.toNat
        payload_len := recv_bufsize - offset
        ts_ntp := ts_ntp
        flags := flags
        seq := 0 }
    [LibCall.sender_data_write sender_ctx data_block]
  else
    if would_block then [] else [LibCall.log LogLevel.ERROR]

/-- The bytes a data block designates inside the receive buffer: `payload_len`
bytes starting at `recv_buf + payload`. -/
def payload_bytes (recv_buf : List Nat) (b : rist_data_block) : List Nat :=
  (recv_buf.drop b.payload).take b.payload_len.toNat

/-! ## `cb_auth_connect` -/

/-- Decimal rendering of a port number, as `%d` prints it. -/
def fmt_d (n : Nat) : List Char := Nat.toDigits 10 n

/-- The text `snprintf` is asked to produce in `cb_auth_connect`:
"auth,%s:%d,%s:%d". -/
def auth_message (connecting_ip : List Char) (connecting_port : uint16_t)
    (local_ip : List Char) (local_port : uint16_t) : List Char :=
  "auth,".toList ++ connecting_ip ++ [':'] ++ fmt_d connecting_port.val ++ [',']
    ++ local_ip ++ [':'] ++ fmt_d local_port.val

/-- The function `cb_auth_connect`: `arg` is the context the handler was
registered with. `snprintf` stores at most 499 characters in `message` and
returns the length of the whole text. The result is the return value and the
calls made. -/
def cb_auth_connect (arg : rist_ctx) (connecting_ip : List Char) (connecting_port : uint16_t)
    (local_ip : List Char) (local_port : uint16_t) (peer : Option rist_peer) :
    Int × List LibCall :=
  let text := auth_message connecting_ip connecting_port local_ip local_port
  let message := text.take 499
  let ret : Int := text.length
  let oob_block : rist_oob_block := { peer := peer, payload := message, payload_len := ret }
  (0, [LibCall.log LogLevel.INFO, LibCall.oob_write arg oob_block])

/-! ## `setup_rist_peer` -/

/-- Return values of the library calls made during one run of
`setup_rist_peer`, in call order. -/
structure LibResults where
  stats_callback_set : Int
  auth_handler_set : Int
  oob_callback_set : Int
  stats_callback_set2 : Int
  peer_create : Int

/-- The C library function `strncpy dest src n` on a destination array: the
first `n` cells receive the characters of `src` up to its end, padded with
NUL; the cells from `n` on keep their contents. -/
def strncpy (dest : List Char) (src : List Char) (n : Nat) : List Char :=
  let s := (src.takeWhile (fun c => c != NUL)).take n
  s ++ List.replicate (n - s.length) NUL ++ dest.drop n

/-- First override of `setup_rist_peer`: the command-line secret and
encryption type, applied only when a command-line secret exists and the
secret of the URL is empty. `max_string_short` is `RIST_MAX_STRING_SHORT`. -/
def override_secret (max_string_short : Nat) (setup : rist_sender_args)
    (c : rist_peer_config) : rist_peer_config :=
  match setup.shared_secret with
  | some shared_secret =>
    if c.secret.getD 0 NUL = NUL then
      let c1 := { c with secret := strncpy c.secret shared_secret (max_string_short - 1) }
      if setup.encryption_type ≠ 0 then
        { c1 with key_size := setup.encryption_type }
      else if c1.key_size = 0 then
        { c1 with key_size := 128 }
      else c1
    else c
  | none => c

/-- Conversion of an `int` to `uint32_t`: the value modulo 2^32. -/
def to_uint32 (x : Int) : Int := x % 2 ^ 32

/-- Second override of `setup_rist_peer`: the command-line buffer size, an
`int`, is assigned to the two `uint32_t` members. -/
def override_buffer (setup : rist_sender_args) (c : rist_peer_config) : rist_peer_config :=
  if setup.buffer_size ≠ 0 then
    { c with recovery_length_min := to_uint32 setup.buffer_size
             recovery_length_max := to_uint32 setup.buffer_size }
  else c

/-- Third override of `setup_rist_peer`: the stream-id. `none` is the branch
that logs the error and returns NULL. -/
def override_stream_id (setup : rist_sender_args) (c : rist_peer_config) :
    Option rist_peer_config :=
  if setup.stream_id.val ≠ 0 then
    if setup.stream_id.val % 2 ≠ 0 then none
    else some { c with virt_dst_port := setup.stream_id.val }
  else some c

/-- What one run of `setup_rist_peer` returns and the calls it made. -/
structure SetupResult where
  peer : Option rist_peer
  calls : List LibCall

/-- The function `setup_rist_peer`. `rist_parse_address` is the library's URL
parser (`none` when it reports failure), `lib` holds the return values of the
other library calls. The build without `USE_MBEDTLS` is the one modelled. -/
def setup_rist_peer (max_string_short : Nat)
    (rist_parse_address : Option (List Char) → Option rist_peer_config)
    (lib : LibResults) (setup : rist_sender_args) : SetupResult :=
  let t1 := [LibCall.stats_callback_set setup.ctx setup.statsinterval Callback.cb_stats]
  if lib.stats_callback_set = -1 then
    { peer := none, calls := t1 ++ [LibCall.log LogLevel.ERROR] }
  else
  let t2 := t1 ++ [LibCall.auth_handler_set setup.ctx Callback.cb_auth_connect
    Callback.cb_auth_disconnect setup.ctx]
  if lib.auth_handler_set < 0 then
    { peer := none, calls := t2 ++ [LibCall.log LogLevel.ERROR] }
  else
  let t3 := if setup.profile ≠ RIST_PROFILE_SIMPLE then
      t2 ++ [LibCall.oob_callback_set setup.ctx Callback.cb_recv_oob setup.ctx]
    else t2
  if setup.profile ≠ RIST_PROFILE_SIMPLE ∧ lib.oob_callback_set = -1 then
    { peer := none, calls := t3 ++ [LibCall.log LogLevel.ERROR] }
  else
  let t4 := t3 ++ [LibCall.stats_callback_set setup.ctx setup.statsinterval Callback.cb_stats]
  if lib.stats_callback_set2 = -1 then
    { peer := none, calls := t4 ++ [LibCall.log LogLevel.ERROR] }
  else
  let t5 := t4 ++ [LibCall.parse_address setup.token]
  match rist_parse_address setup.token with
  | none => { peer := none, calls := t5 ++ [LibCall.log LogLevel.ERROR] }
  | some peer_config_link =>
    let c2 := override_buffer setup (override_secret max_string_short setup peer_config_link)
    match override_stream_id setup c2 with
    | none => { peer := none, calls := t5 ++ [LibCall.log LogLevel.ERROR] }
    | some c3 =>
      let t6 := t5 ++ [LibCall.log LogLevel.INFO, LibCall.peer_create setup.ctx c3]
      if lib.peer_create = -1 then
        { peer := none, calls := t6 ++ [LibCall.log LogLevel.ERROR, LibCall.free_config] }
      else
        { peer := some { ctx := setup.ctx, config := c3 }, calls := t6 ++ [LibCall.free_config] }

/-! ## `strtok_r` on a character buffer -/

/-- The C string that starts at index `p` of a buffer. -/
def c_str (buf : List Char) (p : Nat) : List Char :=
  (buf.drop p).takeWhile (fun c => c != NUL)

/-- The C library function `strspn` at index `p`: how many leading characters
are delimiters. -/
def strspn (buf : List Char) (p : Nat) (delim : List Char) : Nat :=
  ((buf.drop p).takeWhile (fun c => c != NUL && delim.contains c)).length

/-- The C library function `strcspn` at index `p`: how many leading
characters are not delimiters. -/
def strcspn (buf : List Char) (p : Nat) (delim : List Char) : Nat :=
  ((buf.drop p).takeWhile (fun c => c != NUL && !delim.contains c)).length

/-- What `strtok_r` leaves behind: the buffer (a delimiter may have been
overwritten with NUL), the returned token pointer and the saved pointer. -/
structure StrtokResult where
  buf : List Char
  token : Option Nat
  save_ptr : Nat

/-- The C library function `strtok_r s delim &save_ptr` on a buffer. `s` is
`none` for a NULL first argument, in which case scanning resumes at
`save_ptr`. A cell beyond the buffer reads as NUL. -/
def strtok_r (buf : List Char) (s : Option Nat) (delim : List Char) (save_ptr : Nat) :
    StrtokResult :=
  let s0 := s.getD save_ptr
  if buf.getD s0 NUL = NUL then { buf := buf, token := none, save_ptr := s0 }
  else
    let s1 := s0 + strspn buf s0 delim
    if buf.getD s1 NUL = NUL then { buf := buf, token := none, save_ptr := s1 }
    else
      let e := s1 + strcspn buf s1 delim
      if buf.getD e NUL = NUL then { buf := buf, token := some s1, save_ptr := e }
      else { buf := buf.set e NUL, token := some s1, save_ptr := e + 1 }

/-- The tokens that successive calls `strtok_r NULL "," &save_ptr` return,
read as C strings at the moment they are returned; at most `fuel` calls. -/
def strtok_rest : Nat → List Char → Nat → List (List Char)
  | 0, _, _ => []
  | fuel + 1, buf, save_ptr =>
    let r := strtok_r buf none [','] save_ptr
    match r.token with
    | none => []
    | some p => c_str r.buf p :: strtok_rest fuel r.buf r.save_ptr

/-- The values `inputtoken` takes in the input loop of `main`: the first is
`strtok_r inputurl "," &saveptrinput`, the following ones come from the call
at label `next`. The loop body never touches `inputurl`, so the tokens do not
depend on what the body does; the loop reads at most `MAX_INPUT_COUNT` of
them. -/
def input_tokens (inputurl : List Char) : List (List Char) :=
  let r := strtok_r inputurl (some 0) [','] 0
  match r.token with
  | none => []
  | some p => c_str r.buf p :: strtok_rest MAX_INPUT_COUNT r.buf r.save_ptr

/-! ## `main`: option parsing -/

/-- Log level `RIST_LOG_INFO`; `help_str` gives 6 as the default verbose
level and says that levels match syslog levels. -/
def RIST_LOG_INFO : Int := 6

/-- The members of `rist_tools_config_object` that `main` copies after
`parse_yaml`. -/
structure rist_tools_config_object where
  input_url : Option (List Char)
  output_url : Option (List Char)
  buffer : Int
  secret : Option (List Char)
  encryption_type : Int
  tunnel_interface : Option (List Char)
  profile : Int
  stats_interval : Int

/-- The local variables of `main` that option parsing sets, with the initial
values of their declarations. -/
structure Options where
  inputurl : Option (List Char) := none
  outputurl : Option (List Char) := none
  oobtun : Option (List Char) := none
  shared_secret : Option (List Char) := none
  buffer_size : Int := 0
  yamlfile : Option (List Char) := none
  encryption_type : Int := 0
  statsinterval : Int := 1000
  profile : Int := RIST_PROFILE_MAIN
  loglevel : Int := RIST_LOG_INFO
  npd : Bool := false

/-- Everything outside the tool that `main` depends on. Library calls that
happen once per input slot `i`, or once per input slot and output index `j`,
take these indices. `thread_garbage i` is what cell `i` of `thread_main_loop`
holds when nothing defined was stored in it: the array was never
initialised, or a failed `pthread_create` left the cell behind. `sigint` says
whether a SIGINT is delivered while `main` waits, in `pause` or in
`pthread_join`; its handler sets `signalReceived`. -/
structure Env where
  max_string_short : Nat
  atoi : List Char → Int
  parse_yaml : List Char → Option rist_tools_config_object
  rist_logging_set : Int → Int
  rist_parse_udp_address : List Char → Option rist_udp_config
  rist_parse_address : Option (List Char) → Option rist_peer_config
  rist_sender_create : Nat → Int
  rist_sender_npd_enable : Nat → Int
  sender_peer_lib : Nat → Nat → LibResults
  rist_receiver_create : Nat → Int
  receiver_peer_lib : Nat → LibResults
  udpsocket_parse_url : List Char → Option (List Char × uint16_t)
  udpsocket_open_bind : List Char → uint16_t → List Char → Int
  pthread_create : Nat → Int
  rist_start : rist_ctx → Int
  thread_garbage : Nat → Nat
  sigint : Bool

/-- One case of the `switch` inside the `getopt_long` loop: `c` is the option
character, `optarg` its argument. `Except.error code` stands for
`exit(code)`, which `usage` also ends in. Without `USE_MBEDTLS` there is no
case for the character F, so it takes the default branch. -/
def option_step (env : Env) (o : Options) (c : Char) (optarg : List Char) :
    Except Int Options :=
  match c with
  | 'f' =>
    match env.parse_yaml optarg with
    | none => Except.error 1
    | some y =>
      Except.ok { o with
        yamlfile := some optarg
        inputurl := y.input_url
        outputurl := y.output_url
        buffer_size := y.buffer
        shared_secret := y.secret
        encryption_type := y.encryption_type
        oobtun := y.tunnel_interface
        profile := y.profile
        statsinterval := y.stats_interval }
  | 'i' => Except.ok { o with inputurl := some optarg }
  | 'o' => Except.ok { o with outputurl := some optarg }
  | 'b' => Except.ok { o with buffer_size := env.atoi optarg }
  | 's' => Except.ok { o with shared_secret := some optarg }
  | 'e' => Except.ok { o with encryption_type := env.atoi optarg }
  | 't' => Except.ok { o with oobtun := some optarg }
  | 'p' => Except.ok { o with profile := env.atoi optarg }
  | 'S' => Except.ok { o with statsinterval := env.atoi optarg }
  | 'v' =>
    if env.rist_logging_set (env.atoi optarg) ≠ 0 then Except.error 1
    else Except.ok { o with loglevel := env.atoi optarg }
  | 'u' => Except.error 1
  | 'n' => Except.ok { o with npd := true }
  | _ => Except.error 1

/-- The `while` loop over `getopt_long`: `args` lists what the successive
calls return before -1. -/
def parse_options (env : Env) : List (Char × List Char) → Options → Except Int Options
  | [], o => Except.ok o
  | (c, optarg) :: rest, o =>
    match option_step env o c optarg with
    | Except.error code => Except.error code
    | Except.ok o1 => parse_options env rest o1

/-! ## `main`: the input loop -/

/-- The members of `struct rist_callback_object` that `main` sets. `evctx`
records whether the pointer is set. -/
structure rist_callback_object where
  sd : Int
  evctx : Bool
  receiver_ctx : Option rist_ctx
  sender_ctx : Option rist_ctx
  udp_config : Option rist_udp_config
  deriving DecidableEq

/-- A callback object as the initialiser of `callback_object` leaves it. -/
def rist_callback_object.zero : rist_callback_object :=
  { sd := 0, evctx := false, receiver_ctx := none, sender_ctx := none, udp_config := none }

/-- Where `main` stops doing work: the `goto shutdown` that was taken,
`pause_returned` for a start-up that went through to the call of `pause`
(whether `pause` returns is part of the outcome), or an `exit` during option
handling. -/
inductive Reason where
  | exit_called
  | dup_stream_id
  | peer_setup_failed
  | no_socket_opened
  | udp_thread_failed
  | sender_start_failed
  | receiver_start_failed
  | receiver_thread_failed
  | pause_returned
  deriving DecidableEq

/-- How one pass through the body of the input loop ends: at label `next`,
with a `break`, or with `goto shutdown`. -/
inductive Flow where
  | next
  | brk
  | shutdown (r : Reason)
  deriving DecidableEq

/-- Something `main` does that is visible outside it. For `evsocket_addevent`
and `pthread_create`, `arg` is the index of the callback object whose address
is passed. -/
inductive Event where
  | log (level : LogLevel)
  | parse_udp_address (token : List Char)
  | sender_create (i : Nat) (profile : Int)
  | sender_npd_enable (ctx : rist_ctx)
  | setup_rist_peer (args : rist_sender_args)
  | lib (c : LibCall)
  | receiver_create (i : Nat) (profile : Int)
  | evsocket_create
  | udpsocket_open_bind (hostname : List Char) (port : uint16_t) (miface : List Char)
  | udpsocket_set_nonblocking (sd : Int)
  | evsocket_addevent (i : Nat) (sd : Int) (read_cb err_cb : Callback) (arg : Nat)
  | pthread_create (slot : Nat) (start : Callback) (arg : Nat)
  | rist_start (ctx : rist_ctx)
  | pause
  deriving DecidableEq

/-- The local variables of `main` that the input loop changes. -/
structure MainState where
  callback_object : List rist_callback_object
  event : List Bool
  stream_id_check : List Int
  evctx : Bool
  atleast_one_socket_opened : Bool
  outputurl : List Char

/-- The inner loop "Check for duplicate stream-ids" over the cells of
`stream_id_check` from index `j` on: a cell holding -1 receives the
stream-id (cast to `int32_t`) and the loop ends; a cell whose value cast to
`uint16_t` equals the stream-id gives `none`, the `goto shutdown`; otherwise
the loop moves to the next cell, and it ends when the cells run out. -/
def check_stream_id (stream_id : uint16_t) : List Int → Option (List Int)
  | [] => some []
  | x :: rest =>
    if x = -1 then some ((stream_id.val : Int) :: rest)
    else if x % 65536 = (stream_id.val : Int) then none
    else (check_stream_id stream_id rest).map (fun r => x :: r)

/-- The loop `for j < MAX_OUTPUT_COUNT` around `setup_rist_peer` for input
slot `i`. `fuel` is the number of iterations left, `outputtoken` the current
token pointer into the buffer `outputurl`. The result says whether
`goto shutdown` was taken, and gives the buffer and the events. -/
def output_loop (env : Env) (peer_args : rist_sender_args) (i : Nat) :
    Nat → Nat → Option Nat → List Char → Nat → Bool × List Char × List Event
  | 0, _, _, outputurl, _ => (false, outputurl, [])
  | fuel + 1, j, outputtoken, outputurl, saveptroutput =>
    let args := { peer_args with token := outputtoken.map (c_str outputurl) }
    let r := setup_rist_peer env.max_string_short env.rist_parse_address
      (env.sender_peer_lib i j) args
    let ev := Event.setup_rist_peer args :: r.calls.map Event.lib
    match r.peer with
    | none => (true, outputurl, ev)
    | some _ =>
      let s := strtok_r outputurl none [','] saveptroutput
      match s.token with
      | none => (false, s.buf, ev)
      | some p =>
        let rest := output_loop env peer_args i fuel (j + 1) (some p) s.buf s.save_ptr
        (rest.1, rest.2.1, ev ++ rest.2.2)

/-- The arguments `main` stores in `peer_args` before the input loop; `ctx`,
`token` and `stream_id` are filled in before each call. -/
def base_peer_args (o : Options) (ctx : rist_ctx) (stream_id : uint16_t) : rist_sender_args :=
  { ctx := ctx
    token := none
    profile := o.profile
    loglevel := o.loglevel
    encryption_type := o.encryption_type
    shared_secret := o.shared_secret
    buffer_size := o.buffer_size
    statsinterval := o.statsinterval
    stream_id := stream_id }

/-- Replace slot `i` of the callback objects. -/
def set_cb (cbs : List rist_callback_object) (i : Nat)
    (f : rist_callback_object → rist_callback_object) : List rist_callback_object :=
  cbs.set i (f (cbs.getD i rist_callback_object.zero))

/-- The part of the input loop body for an input whose prefix is "rist". -/
def rist_input (env : Env) (o : Options) (i : Nat) (inputtoken : List Char)
    (udp_config : rist_udp_config) (st : MainState) : Flow × MainState × List Event :=
  if env.rist_receiver_create i ≠ 0 then
    (Flow.next, st, [Event.receiver_create i o.profile, Event.log LogLevel.ERROR])
  else
    let cbs := set_cb st.callback_object i
      (fun c => { c with receiver_ctx := some (rist_ctx.receiver i) })
    let st1 := { st with callback_object := cbs }
    let args := { base_peer_args o (rist_ctx.receiver i) udp_config.stream_id with
      token := some inputtoken }
    let r := setup_rist_peer env.max_string_short env.rist_parse_address
      (env.receiver_peer_lib i) args
    let ev := [Event.receiver_create i o.profile, Event.setup_rist_peer args]
      ++ r.calls.map Event.lib
    match r.peer with
    | none => (Flow.next, { st1 with atleast_one_socket_opened := true }, ev)
    | some _ => (Flow.next, st1, ev)

/-- The part of the input loop body for a udp or rtp input. -/
def udp_input (env : Env) (i : Nat) (udp_config : rist_udp_config) (st : MainState) :
    Flow × MainState × List Event :=
  let ev0 := if st.evctx then [] else [Event.evsocket_create]
  let st1 := { st with evctx := true }
  match env.udpsocket_parse_url udp_config.address with
  | none => (Flow.next, st1, ev0 ++ [Event.log LogLevel.ERROR])
  | some (hostname, inputport) =>
    if inputport.val = 0 ∨ hostname.length = 0 then
      (Flow.next, st1, ev0 ++ [Event.log LogLevel.ERROR])
    else
      let sd := env.udpsocket_open_bind hostname inputport udp_config.miface
      let ev1 := ev0 ++ [Event.log LogLevel.INFO,
        Event.udpsocket_open_bind hostname inputport udp_config.miface]
      if sd ≤ 0 then
        let cbs := set_cb st1.callback_object i (fun c => { c with sd := sd })
        (Flow.next, { st1 with callback_object := cbs }, ev1 ++ [Event.log LogLevel.ERROR])
      else
        let cbs := set_cb st1.callback_object i
          (fun c => { c with sd := sd, udp_config := some udp_config, evctx := true })
        (Flow.next,
          { st1 with atleast_one_socket_opened := true, callback_object := cbs,
                     event := st1.event.set i true },
          ev1 ++ [Event.udpsocket_set_nonblocking sd, Event.log LogLevel.INFO,
            Event.evsocket_addevent i sd Callback.input_udp_recv Callback.input_udp_sockerr i])

/-- The body of the input loop of `main` for slot `i` and the token
`inputtoken`. -/
def input_body (env : Env) (o : Options) (i : Nat) (inputtoken : List Char) (st : MainState) :
    Flow × MainState × List Event :=
  match env.rist_parse_udp_address inputtoken with
  | none => (Flow.next, st, [Event.parse_udp_address inputtoken, Event.log LogLevel.ERROR])
  | some udp_config =>
    match check_stream_id udp_config.stream_id st.stream_id_check with
    | none =>
      (Flow.shutdown Reason.dup_stream_id, st,
        [Event.parse_udp_address inputtoken, Event.log LogLevel.ERROR])
    | some chk =>
      let ev0 := [Event.parse_udp_address inputtoken, Event.log LogLevel.INFO,
        Event.sender_create i o.profile]
      let s := strtok_r st.outputurl (some 0) [','] 0
      let st1 := { st with stream_id_check := chk, outputurl := s.buf }
      if env.rist_sender_create i ≠ 0 then
        (Flow.brk, st1, ev0 ++ [Event.log LogLevel.ERROR])
      else
        let cbs := set_cb st1.callback_object i
          (fun c => { c with sender_ctx := some (rist_ctx.sender i) })
        let st2 := { st1 with callback_object := cbs }
        let ev1 := ev0 ++ (if o.npd then
          [Event.log LogLevel.INFO, Event.sender_npd_enable (rist_ctx.sender i)]
            ++ (if env.rist_sender_npd_enable i ≠ 0 then [Event.log LogLevel.ERROR] else [])
          else [])
        let out := output_loop env (base_peer_args o (rist_ctx.sender i) udp_config.stream_id) i
          MAX_OUTPUT_COUNT 0 s.token s.buf s.save_ptr
        let st3 := { st2 with outputurl := out.2.1 }
        if out.1 then
          (Flow.shutdown Reason.peer_setup_failed, st3, ev1 ++ out.2.2)
        else
          let r := if udp_config.pfx = "rist".toList then
              rist_input env o i inputtoken udp_config st3
            else udp_input env i udp_config st3
          (r.1, r.2.1, ev1 ++ out.2.2 ++ r.2.2)

/-- The input loop of `main` from slot `i` on, over the remaining values of
`inputtoken`. The result says how the loop ended: `Flow.shutdown` when a
`goto shutdown` was taken, otherwise the loop ran to its end or broke out. -/
def main_input_loop (env : Env) (o : Options) :
    Nat → List (List Char) → MainState → Flow × MainState × List Event
  | _, [], st => (Flow.next, st, [])
  | i, inputtoken :: rest, st =>
    if i < MAX_INPUT_COUNT then
      let b := input_body env o i inputtoken st
      match b.1 with
      | Flow.next =>
        let r := main_input_loop env o (i + 1) rest b.2.1
        (r.1, r.2.1, b.2.2 ++ r.2.2)
      | f => (f, b.2.1, b.2.2)
    else (Flow.next, st, [])

/-! ## `main`: starting the contexts, and the whole function -/

/-- The loop of `main` that starts the contexts of slots `i`, `i + 1`, ...:
`none` when it runs to the end, otherwise the `goto shutdown` taken. -/
def start_loop (env : Env) : Nat → List rist_callback_object → Option Reason × List Event
  | _, [] => (none, [])
  | i, cb :: rest =>
    let e1 := match cb.sender_ctx with
      | some c => [Event.rist_start c]
      | none => []
    if cb.sender_ctx.any (fun c => env.rist_start c = -1) then
      (some Reason.sender_start_failed, e1 ++ [Event.log LogLevel.ERROR])
    else
      let e2 := match cb.receiver_ctx with
        | some c => e1 ++ [Event.rist_start c]
        | none => e1
      if cb.receiver_ctx.any (fun c => env.rist_start c = -1) then
        (some Reason.receiver_start_failed, e2 ++ [Event.log LogLevel.ERROR])
      else
        let e3 := match cb.receiver_ctx with
          | some _ => e2 ++ [Event.pthread_create (i + 1) Callback.input_loop 0]
          | none => e2
        if cb.receiver_ctx.isSome ∧ env.pthread_create (i + 1) ≠ 0 then
          (some Reason.receiver_thread_failed, e3)
        else
          let r := start_loop env (i + 1) rest
          (r.1, e3 ++ r.2)

/-- The state of the local variables of `main` when the input loop starts. -/
def init_state (outputurl : List Char) : MainState :=
  { callback_object := List.replicate MAX_INPUT_COUNT rist_callback_object.zero
    event := List.replicate MAX_INPUT_COUNT false
    stream_id_check := List.replicate MAX_INPUT_COUNT (-1)
    evctx := false
    atleast_one_socket_opened := false
    outputurl := outputurl }

/-! ## `main`: the clean-up after label `shutdown` -/

/-- What a cell of `thread_main_loop` holds: the 0 of the initialiser, the
handle a successful `pthread_create` stored for the slot, or a value that
nothing defined (the initialiser was jumped over, or `pthread_create`
failed). -/
inductive thread_cell where
  | zero
  | handle (slot : Nat)
  | indeterminate (value : Nat)
  deriving DecidableEq

/-- How a run of `main` ends: `exit(code)`, `return code`, a call of
`pthread_join` on a value that is not a thread handle (whose behaviour is
undefined), or waiting without end for a signal. -/
inductive Outcome where
  | exited (code : Int)
  | returned (code : Int)
  | join_invalid
  | blocked
  deriving DecidableEq

/-- A call made after label `shutdown`. -/
inductive CleanupCall where
  | evsocket_delevent (i : Nat)
  | free_udp_config (i : Nat)
  | rist_destroy (ctx : rist_ctx)
  | pthread_join (cell : thread_cell)
  | free_inputurl
  | free_outputurl
  | free_oobtun
  | free_shared_secret
  | free_logging_settings
  | free_yaml_config
  deriving DecidableEq

/-- The first loop after label `shutdown`, from slot `i` on: `events` are the
cells of `event` and the list of callback objects those of
`callback_object`. -/
def cleanup_slots : Nat → List Bool → List rist_callback_object → List CleanupCall
  | _, _, [] => []
  | i, events, cb :: rest =>
    (if events.headD false then [CleanupCall.evsocket_delevent i] else [])
      ++ (if cb.udp_config.isSome then [CleanupCall.free_udp_config i] else [])
      ++ (match cb.receiver_ctx with
          | some c => [CleanupCall.rist_destroy c]
          | none => [])
      ++ (match cb.sender_ctx with
          | some c => [CleanupCall.rist_destroy c]
          | none => [])
      ++ cleanup_slots (i + 1) events.tail rest

/-- The loop over `thread_main_loop` that joins the threads. A cell holding 0
is skipped. A thread runs `input_loop`, which ends only once `signalReceived`
is set, so joining a handle returns when the signal has been received and
waits otherwise. Joining a non-zero value that is not a handle ends the
model: `none` means that the loop ran to its end. -/
def join_loop (signal_received : Bool) : List thread_cell → Option Outcome × List CleanupCall
  | [] => (none, [])
  | thread_cell.zero :: rest => join_loop signal_received rest
  | thread_cell.handle slot :: rest =>
    if signal_received then
      let r := join_loop signal_received rest
      (r.1, CleanupCall.pthread_join (thread_cell.handle slot) :: r.2)
    else (some Outcome.blocked, [CleanupCall.pthread_join (thread_cell.handle slot)])
  | thread_cell.indeterminate value :: rest =>
    if value = 0 then join_loop signal_received rest
    else
      (some Outcome.join_invalid,
        [CleanupCall.pthread_join (thread_cell.indeterminate value)])

/-- The code of `main` from label `shutdown` to `return 0`, for the given
contents of `thread_main_loop`. -/
def shutdown (o : Options) (st : MainState) (thread_main_loop : List thread_cell)
    (signal_received : Bool) : Outcome × List CleanupCall :=
  let c1 := cleanup_slots 0 st.event st.callback_object
  let j := join_loop signal_received thread_main_loop
  match j.1 with
  | some out => (out, c1 ++ j.2)
  | none =>
    (Outcome.returned 0,
      c1 ++ j.2 ++ [CleanupCall.free_inputurl, CleanupCall.free_outputurl]
        ++ (if o.oobtun.isSome then [CleanupCall.free_oobtun] else [])
        ++ (if o.shared_secret.isSome then [CleanupCall.free_shared_secret] else [])
        ++ [CleanupCall.free_logging_settings, CleanupCall.free_yaml_config])

/-- The contents of `thread_main_loop` at label `shutdown` when the `goto`
was taken before the declaration of the array, so that its initialiser did
not run. -/
def thread_cells_skipped (env : Env) : List thread_cell :=
  (List.range (MAX_INPUT_COUNT + 1)).map (fun i => thread_cell.indeterminate (env.thread_garbage i))

/-- Cell `slot` of `thread_main_loop` after the initialiser and the
`pthread_create` calls recorded in `trace`: the handle if the call for the
slot succeeded, an undefined value if it failed, and 0 without a call. -/
def thread_cell_of (env : Env) (trace : List Event) (slot : Nat) : thread_cell :=
  if trace.any (fun e =>
      match e with
      | Event.pthread_create s _ _ => s == slot
      | _ => false) then
    if env.pthread_create slot ≠ 0 then thread_cell.indeterminate (env.thread_garbage slot)
    else thread_cell.handle slot
  else thread_cell.zero

/-- The contents of `thread_main_loop` at label `shutdown` when the
initialiser has run. -/
def thread_cells_after (env : Env) (trace : List Event) : List thread_cell :=
  (List.range (MAX_INPUT_COUNT + 1)).map (thread_cell_of env trace)

/-- What a run of `main` amounts to: how it ends, the stage at which the work
stopped, the events up to label `shutdown`, the calls made after the label,
and the final contents of `stream_id_check`. -/
structure MainResult where
  outcome : Outcome
  reason : Reason
  trace : List Event
  cleanup : List CleanupCall
  stream_id_check : List Int

/-- The code of `main` from the set-up of `stream_id_check` to the end, for
the input tokens `tokens` and the buffer `outputurl`. Every path leads to
label `shutdown`. The three `goto`s before the declaration of
`thread_main_loop` (duplicate stream-id, failed peer set-up, no socket
opened) jump over its initialiser. `pause` returns when the handler of a
signal has run, which sets `signalReceived`. -/
def run (env : Env) (o : Options) (tokens : List (List Char)) (outputurl : List Char) :
    MainResult :=
  let l := main_input_loop env o 0 tokens (init_state outputurl)
  let st := l.2.1
  match l.1 with
  | Flow.shutdown r =>
    let s := shutdown o st (thread_cells_skipped env) env.sigint
    { outcome := s.1, reason := r, trace := l.2.2, cleanup := s.2,
      stream_id_check := st.stream_id_check }
  | _ =>
    if ¬ st.atleast_one_socket_opened then
      let s := shutdown o st (thread_cells_skipped env) env.sigint
      { outcome := s.1, reason := Reason.no_socket_opened, trace := l.2.2, cleanup := s.2,
        stream_id_check := st.stream_id_check }
    else
      let e1 := if st.evctx then [Event.pthread_create 0 Callback.input_loop 0] else []
      if st.evctx ∧ env.pthread_create 0 ≠ 0 then
        let s := shutdown o st (thread_cells_after env (l.2.2 ++ e1)) env.sigint
        { outcome := s.1, reason := Reason.udp_thread_failed, trace := l.2.2 ++ e1,
          cleanup := s.2, stream_id_check := st.stream_id_check }
      else
        let t := start_loop env 0 st.callback_object
        match t.1 with
        | some r =>
          let s := shutdown o st (thread_cells_after env (l.2.2 ++ e1 ++ t.2)) env.sigint
          { outcome := s.1, reason := r, trace := l.2.2 ++ e1 ++ t.2, cleanup := s.2,
            stream_id_check := st.stream_id_check }
        | none =>
          if env.sigint then
            let s := shutdown o st
              (thread_cells_after env (l.2.2 ++ e1 ++ t.2 ++ [Event.pause])) true
            { outcome := s.1, reason := Reason.pause_returned,
              trace := l.2.2 ++ e1 ++ t.2 ++ [Event.pause], cleanup := s.2,
              stream_id_check := st.stream_id_check }
          else
            { outcome := Outcome.blocked, reason := Reason.pause_returned,
              trace := l.2.2 ++ e1 ++ t.2 ++ [Event.pause], cleanup := [],
              stream_id_check := st.stream_id_check }

/-- A run that ends in `exit(code)` before the input loop. -/
def exit_result (code : Int) : MainResult :=
  { outcome := Outcome.exited code, reason := Reason.exit_called, trace := [], cleanup := [],
    stream_id_check := [] }

/-- The function `main`: `argc` is the argument count and `args` what the
successive `getopt_long` calls return. `inputurl` and `outputurl` are heap
copies of the option arguments, so each buffer is the text followed by
NUL. -/
def main (env : Env) (argc : Int) (args : List (Char × List Char)) : MainResult :=
  if env.rist_logging_set RIST_LOG_INFO ≠ 0 then exit_result 1
  else
    match parse_options env args {} with
    | Except.error code => exit_result code
    | Except.ok o =>
      match o.inputurl, o.outputurl with
      | some inputurl, some outputurl =>
        if argc < 2 then exit_result 1
        else run env o (input_tokens (inputurl ++ [NUL])) (outputurl ++ [NUL])
      | _, _ => exit_result 1

/-! ## Reading lists of calls -/

/-- The configurations handed to `rist_peer_create` in a list of calls, in
call order. -/
def created_configs (calls : List LibCall) : List rist_peer_config :=
  calls.filterMap (fun c =>
    match c with
    | LibCall.peer_create _ config => some config
    | _ => none)

/-- The contexts on which `rist_oob_callback_set` is called in a list of
calls. -/
def oob_registrations (calls : List LibCall) : List rist_ctx :=
  calls.filterMap (fun c =>
    match c with
    | LibCall.oob_callback_set ctx _ _ => some ctx
    | _ => none)

/-- The contexts on which `rist_oob_write` is called in a list of calls. -/
def oob_writes (calls : List LibCall) : List rist_ctx :=
  calls.filterMap (fun c =>
    match c with
    | LibCall.oob_write ctx _ => some ctx
    | _ => none)

/-- Every library call that `setup_rist_peer` makes before
`rist_parse_address` reports success, so that the URL gets parsed. -/
def registrations_ok (lib : LibResults) (setup : rist_sender_args) : Prop :=
  lib.stats_callback_set ≠ -1 ∧ ¬ lib.auth_handler_set < 0
    ∧ ¬ (setup.profile ≠ RIST_PROFILE_SIMPLE ∧ lib.oob_callback_set = -1)
    ∧ lib.stats_callback_set2 ≠ -1

instance (lib : LibResults) (setup : rist_sender_args) : Decidable (registrations_ok lib setup) := by
  unfold registrations_ok
  infer_instance

/-- The three overrides of `setup_rist_peer` in sequence. -/
def process_overrides (max_string_short : Nat) (setup : rist_sender_args)
    (c : rist_peer_config) : Option rist_peer_config :=
  override_stream_id setup (override_buffer setup (override_secret max_string_short setup c))

/-! ## Sample values -/

/-- A peer configuration as parsed from a URL that sets neither secret nor
stream-id: an all-NUL secret array of 128 cells and key size 0. -/
def sample_config : rist_peer_config :=
  { address := "rist://192.168.1.2:1968".toList
    secret := List.replicate 128 NUL
    key_size := 0
    virt_dst_port := 1968
    recovery_maxbitrate := 100000
    recovery_length_min := 1000
    recovery_length_max := 1000
    recovery_reorder_buffer := 25
    recovery_rtt_min := 50
    recovery_rtt_max := 500
    congestion_control_mode := 1
    min_retries := 6
    max_retries := 20 }

/-- A peer configuration parsed from a URL that carries its own secret and
key size. -/
def sample_config_secret : rist_peer_config :=
  { sample_config with
    address := "rist://192.168.1.3:1968".toList
    secret := "urlpass".toList ++ List.replicate 121 NUL
    key_size := 256 }

/-- A URL parser that knows two output URLs. -/
def sample_parse_address (token : Option (List Char)) : Option rist_peer_config :=
  if token = some "rist://192.168.1.2:1968".toList then some sample_config
  else if token = some "rist://192.168.1.3:1968?secret=urlpass&aes-type=256".toList then
    some sample_config_secret
  else none

/-- Library results of a run of `setup_rist_peer` in which every call
succeeds. -/
def lib_ok : LibResults :=
  { stats_callback_set := 0, auth_handler_set := 0, oob_callback_set := 0,
    stats_callback_set2 := 0, peer_create := 0 }

/-- Arguments for the first sample URL: main profile, command-line secret
"clipass", encryption type 128, buffer 2000, stream-id 4. -/
def sample_args : rist_sender_args :=
  { ctx := rist_ctx.sender 0
    token := some "rist://192.168.1.2:1968".toList
    profile := RIST_PROFILE_MAIN
    loglevel := RIST_LOG_INFO
    encryption_type := 128
    shared_secret := some "clipass".toList
    buffer_size := 2000
    statsinterval := 1000
    stream_id := 4 }

/-- Arguments for the second sample URL, the one with its own secret. -/
def sample_args_secret : rist_sender_args :=
  { sample_args with
    token := some "rist://192.168.1.3:1968?secret=urlpass&aes-type=256".toList }

/-- An rtp input with both `rtp_timestamp` and `rtp_sequence` set. -/
def sample_udp_config : rist_udp_config :=
  { pfx := "rtp".toList
    address := "rtp://127.0.0.1:5000".toList
    miface := []
    address_family := 2
    rtp := 1
    rtp_timestamp := 1
    rtp_sequence := 1
    stream_id := 0 }

/-- A datagram of 13 bytes: an RTP header with sequence number 0x0102 in
bytes 2..3 and timestamp 90000 (0x00015F90) in bytes 4..7, followed by one
payload byte. -/
def sample_datagram : List Nat := [128, 33, 1, 2, 0, 1, 95, 144, 0, 0, 0, 1, 71]

/-- Arguments that configure the context of slot 0 with the simple
profile. -/
def sample_args_simple : rist_sender_args :=
  { sample_args with profile := RIST_PROFILE_SIMPLE }

/-- The sample arguments with the buffer size that `-b -1` gives. -/
def sample_args_negative_buffer : rist_sender_args :=
  { sample_args with buffer_size := -1 }

/-! ## Reading the events of `main` -/

/-- The contexts on which `rist_start` is called in a list of events. -/
def started (trace : List Event) : List rist_ctx :=
  trace.filterMap (fun e =>
    match e with
    | Event.rist_start ctx => some ctx
    | _ => none)

/-- The stream-ids of the input tokens that `rist_parse_udp_address`
accepts, in input order. -/
def parsed_stream_ids (env : Env) (tokens : List (List Char)) : List uint16_t :=
  tokens.filterMap (fun t => (env.rist_parse_udp_address t).map (fun c => c.stream_id))

/-- Contents of `stream_id_check` that hold the stream-ids `seen` in order,
followed by `k` cells that still hold -1. -/
def check_cells (seen : List uint16_t) (k : Nat) : List Int :=
  seen.map (fun s => (s.val : Int)) ++ List.replicate k (-1)

/-! ## A sample environment -/

/-- A udp input configuration with the given stream-id. -/
def sample_udp (stream_id : uint16_t) : rist_udp_config :=
  { pfx := "udp".toList
    address := "127.0.0.1:5000".toList
    miface := []
    address_family := 2
    rtp := 0
    rtp_timestamp := 0
    rtp_sequence := 0
    stream_id := stream_id }

/-- An input URL parser that knows five URLs: two without stream-id (which
parse with stream-id 0) and three with stream-ids 2, 4 and 3. -/
def sample_parse_udp_address (t : List Char) : Option rist_udp_config :=
  if t = "udp://127.0.0.1:5000".toList then some (sample_udp 0)
  else if t = "udp://127.0.0.1:5001".toList then some (sample_udp 0)
  else if t = "udp://127.0.0.1:5002?stream-id=2".toList then some (sample_udp 2)
  else if t = "udp://127.0.0.1:5004?stream-id=4".toList then some (sample_udp 4)
  else if t = "udp://127.0.0.1:5003?stream-id=3".toList then some (sample_udp 3)
  else none

/-- An environment in which every library and system call succeeds. -/
def sample_env : Env :=
  { max_string_short := 128
    atoi := fun _ => 0
    parse_yaml := fun _ => none
    rist_logging_set := fun _ => 0
    rist_parse_udp_address := sample_parse_udp_address
    rist_parse_address := sample_parse_address
    rist_sender_create := fun _ => 0
    rist_sender_npd_enable := fun _ => 0
    sender_peer_lib := fun _ _ => lib_ok
    rist_receiver_create := fun _ => 0
    receiver_peer_lib := fun _ => lib_ok
    udpsocket_parse_url := fun _ => some ("127.0.0.1".toList, 5000)
    udpsocket_open_bind := fun _ _ _ => 3
    pthread_create := fun _ => 0
    rist_start := fun _ => 0
    thread_garbage := fun _ => 0
    sigint := true }

/-- The output buffer for the first sample output URL. -/
def sample_outputurl : List Char := "rist://192.168.1.2:1968".toList ++ [NUL]

/-- The sample environment, except that `rist_start` fails on every
context. -/
def sample_env_start_fails : Env :=
  { sample_env with rist_start := fun _ => -1 }

/-- The sample environment, except that no thread can be created. -/
def sample_env_thread_fails : Env :=
  { sample_env with pthread_create := fun _ => 11 }

/-- The sample environment, except that the stack cells that
`thread_main_loop` occupies hold non-zero values before the initialiser. -/
def sample_env_garbage : Env :=
  { sample_env with thread_garbage := fun i => 140737350000000 + i }

/-- The sample environment with a failing `rist_start` and without a
SIGINT. -/
def sample_env_start_fails_quiet : Env :=
  { sample_env with rist_start := fun _ => -1, sigint := false }

/-- The sample environment, except that `rist_sender_create` fails for
slot 1. -/
def sample_env_create_fails : Env :=
  { sample_env with rist_sender_create := fun i => if i = 1 then -1 else 0 }

/-- The sample environment, except that `rist_parse_address` accepts every
token. -/
def sample_env_any_output : Env :=
  { sample_env with rist_parse_address := fun _ => some sample_config }

/-- Every library call of one run of `setup_rist_peer` reports success. -/
def lib_succeeds (lib : LibResults) : Prop :=
  lib.stats_callback_set ≠ -1 ∧ ¬ lib.auth_handler_set < 0 ∧ lib.oob_callback_set ≠ -1
    ∧ lib.stats_callback_set2 ≠ -1 ∧ lib.peer_create ≠ -1

/-- Command lines for the sample environment, as `getopt_long` reports them:
one `-i` and one `-o` option. -/
def sample_command_line (inputurl outputurl : List Char) : List (Char × List Char) :=
  [('i', inputurl), ('o', outputurl)]

/-! ## The thread function `input_loop` -/

/-- What one call of `rist_receiver_data_read` hands back: the return value
`queue_size` and the block pointer `b`. The outer `none` is a NULL block, the
inner `none` a block whose `payload` is NULL. -/
structure read_result where
  queue_size : Int
  b : Option (Option (List Nat))

/-- A call that the thread function `input_loop` makes. -/
inductive LoopCall where
  | receiver_data_read (ctx : rist_ctx)
  | sender_data_write (ctx : Option rist_ctx) (payload : List Nat)
  | evsocket_loop_single
  | log (level : LogLevel)
  deriving DecidableEq

/-- One pass through the `while` loop of `input_loop` on the callback object
it was given: `r` is what `rist_receiver_data_read` returns in this pass (it
is not consulted for a callback object without receiver context). -/
def input_loop_pass (callback_object : rist_callback_object) (r : read_result) :
    List LoopCall :=
  match callback_object.receiver_ctx with
  | some receiver_ctx =>
    let e0 := [LoopCall.receiver_data_read receiver_ctx]
    if r.queue_size > 0 then
      let e1 := if r.queue_size % 10 = 0 ∨ r.queue_size > 50 then
          e0 ++ [LoopCall.log LogLevel.WARN]
        else e0
      match r.b with
      | some (some payload) =>
        e1 ++ [LoopCall.sender_data_write callback_object.sender_ctx payload]
      | _ => e1
    else e0
  | none => [LoopCall.evsocket_loop_single]

/-- The function `input_loop` on the callback object passed as `arg`: the
loop makes one pass per element of `reads` and then finds `signalReceived`
set. -/
def input_loop (callback_object : rist_callback_object) : List read_result → List LoopCall
  | [] => []
  | r :: rest => input_loop_pass callback_object r ++ input_loop callback_object rest

/-! ## More readers and sample values for `main` -/

/-- The tokens with which `setup_rist_peer` is called on context `ctx` in a
list of events, in call order. -/
def peer_tokens (trace : List Event) (ctx : rist_ctx) : List (Option (List Char)) :=
  trace.filterMap (fun e =>
    match e with
    | Event.setup_rist_peer args => if args.ctx = ctx then some args.token else none
    | _ => none)

/-- The threads created in a list of events: the slot of `thread_main_loop`,
the start function, and the index of the callback object passed to it. -/
def created_threads (trace : List Event) : List (Nat × Callback × Nat) :=
  trace.filterMap (fun e =>
    match e with
    | Event.pthread_create slot start arg => some (slot, start, arg)
    | _ => none)

/-- The array `callback_object` when the input loop of `main` has ended. -/
def final_callback_objects (env : Env) (o : Options) (tokens : List (List Char))
    (outputurl : List Char) : List rist_callback_object :=
  (main_input_loop env o 0 tokens (init_state outputurl)).2.1.callback_object

/-- A rist input (listener) configuration with stream-id 6. -/
def sample_rist_input : rist_udp_config :=
  { pfx := "rist".toList
    address := "rist://@127.0.0.1:6000".toList
    miface := []
    address_family := 2
    rtp := 0
    rtp_timestamp := 0
    rtp_sequence := 0
    stream_id := 6 }

/-- The sample environment, which in addition knows one rist input URL, both
as an input and as the address of the listening peer. -/
def sample_env_rist : Env :=
  { sample_env with
    rist_parse_udp_address := fun t =>
      if t = "rist://@127.0.0.1:6000?stream-id=6".toList then some sample_rist_input
      else sample_parse_udp_address t
    rist_parse_address := fun token =>
      if token = some "rist://@127.0.0.1:6000?stream-id=6".toList then some sample_config
      else sample_parse_address token }

/-- A block of two payload bytes read with queue size 1. -/
def sample_read : read_result :=
  { queue_size := 1, b := some (some [71, 0]) }

end Ristsender

/-! # rist2mpeg

The definitions of this part follow `src/rist2mpeg.c`. As before, library and
system calls are parameters and the calls made are recorded. The `char c`
that receives the result of `getopt_long` is taken to be a signed character,
so that the comparison with -1 ends the loop. -/

namespace Rist2mpeg

/-- The `INPUT_COUNT` define: the number of output URLs of the tool. -/
def INPUT_COUNT : Nat := 2

/-- The `OUTPUT_COUNT` define: the number of server addresses. -/
def OUTPUT_COUNT : Nat := 4

/-- The table `long_options`: name, whether an argument is required, and the
value `getopt_long` returns for the option. -/
def long_options : List (String × Bool × Char) :=
  [("url", true, 'u'), ("miface", true, 'f'), ("url2", true, 'x'), ("miface2", true, 'q'),
   ("server", true, 's'), ("server2", true, 'b'), ("server3", true, 'c'),
   ("server4", true, 'd'), ("recovery-type", true, 'T'), ("min-buf", true, 'm'),
   ("max-buf", true, 'M'), ("reorder-buf", true, 'o'), ("min-rtt", true, 'r'),
   ("max-rtt", true, 'R'), ("bloat-mode", true, 'B'), ("bloat-limit", true, 'l'),
   ("bloat-hardlimit", true, 'L'), ("max-bitrate", true, 'W'),
   ("encryption-password", true, 'e'), ("encryption-type", true, 't'),
   ("profile", true, 'p'), ("gre-src-port", true, 'n'), ("verbose-level", true, 'v'),
   ("help", false, 'h')]

/-- The short option string that `main` passes to `getopt_long`. -/
def optstring : String := "u:x:q:v:f:n:e:s:h:b:c:d:m:M:o:r:R:B:l:L:W:t:p:n"

/-- The value `getopt_long` returns for the long option called `name`, if
the table has it. -/
def long_option_val (name : String) : Option Char :=
  (long_options.find? (fun e => e.1 == name)).map (fun e => e.2.2)

/-- Whether the short option string lists the letter `c`; for a letter it
does not list, `getopt_long` returns the question mark. -/
def short_option_known (c : Char) : Bool :=
  c != ':' && optstring.toList.contains c

/-- The recovery types that `help_str` lists for `--recovery-type`: off,
bytes, time. The source only names `RIST_RECOVERY_MODE_TIME`. -/
inductive rist_recovery_mode where
  | OFF
  | BYTES
  | TIME
  deriving DecidableEq

/-- The enumeration `rist_buffer_bloat_mode`. -/
inductive rist_buffer_bloat_mode where
  | OFF
  | NORMAL
  | AGGRESSIVE
  deriving DecidableEq

/-- Profile number of `RIST_MAIN`; `help_str` documents "0 = simple,
1 = main". -/
def RIST_MAIN : Int := 1

/-- Log level `RIST_LOG_WARN`; `help_str` documents WARN=2, the default. -/
def RIST_LOG_WARN : Int := 2

/-- Conversion of an `int` to `uint32_t`. -/
def to_uint32 (x : Int) : Nat := (x % 2 ^ 32).toNat

/-- Conversion of an `int` to `uint16_t`. -/
def to_uint16 (x : Int) : Nat := (x % 2 ^ 16).toNat

/-- Conversion of an `int` to `uint8_t`. -/
def to_uint8 (x : Int) : Nat := (x % 2 ^ 8).toNat

/-- The local variables of `main` that option parsing sets, with the initial
values `main` gives them. The arrays `url`, `miface` and `addr` are functions
of the index; `src_port` and `dst_port` are the members of `port_filter`. -/
structure Options where
  url : Nat → Option (List Char) := fun _ => none
  miface : Nat → Option (List Char) := fun _ => none
  addr : Nat → Option (List Char) := fun _ => none
  shared_secret : Option (List Char) := none
  profile : Int := RIST_MAIN
  loglevel : Int := RIST_LOG_WARN
  encryption_type : Nat := 1
  recovery_mode : rist_recovery_mode := rist_recovery_mode.TIME
  recovery_maxbitrate : Nat := 100
  recovery_maxbitrate_return : Nat := 0
  recovery_length_min : Nat := 1000
  recovery_length_max : Nat := 1000
  recover_reorder_buffer : Nat := 25
  recovery_rtt_min : Nat := 50
  recovery_rtt_max : Nat := 500
  buffer_bloat_mode : rist_buffer_bloat_mode := rist_buffer_bloat_mode.OFF
  buffer_bloat_limit : Nat := 6
  buffer_bloat_hard_limit : Nat := 20
  src_port : Nat := 1971
  dst_port : Nat := 1968

/-- The record `struct rist_peer_config` as `main` initialises it. -/
structure rist_peer_config where
  address : Option (List Char)
  recovery_mode : rist_recovery_mode
  recovery_maxbitrate : Nat
  recovery_maxbitrate_return : Nat
  recovery_length_min : Nat
  recovery_length_max : Nat
  recover_reorder_buffer : Nat
  recovery_rtt_min : Nat
  recovery_rtt_max : Nat
  weight : Nat
  bufferbloat_mode : rist_buffer_bloat_mode
  bufferbloat_limit : Nat
  bufferbloat_hard_limit : Nat
  deriving DecidableEq

/-- Everything outside the tool that `main` depends on: `atoi` and the
return values of the library and socket calls (per index where the call sits
in a loop). -/
structure Env where
  atoi : List Char → Int
  rist_server_create : Int
  rist_server_init : Int
  rist_server_encrypt_enable : Int
  rist_server_add_peer : Nat → Int
  parse_url : Nat → Int
  udp_Connect_Simple : Nat → Int
  rist_server_start : Int

/-- A call that `main` makes after argument validation. -/
inductive Event where
  | server_create (profile : Int)
  | server_init (config : rist_peer_config) (loglevel : Int)
  | server_encrypt_enable (secret : List Char) (keysize : Int)
  | server_add_peer (i : Nat) (address : List Char)
  | parse_url (i : Nat) (url : List Char)
  | udp_Connect_Simple (i : Nat) (miface : Option (List Char))
  | server_start (src_port dst_port : Nat)
  | pause
  deriving DecidableEq

/-- One case of the `switch` inside the `getopt_long` loop: `c` is the value
`getopt_long` returned, `optarg` the option argument. `Except.error 1` stands
for `usage`, which ends in `exit(1)`. There is no case for the letter T. -/
def option_step (env : Env) (o : Options) (c : Char) (optarg : List Char) :
    Except Int Options :=
  match c with
  | 'u' => Except.ok { o with url := Function.update o.url 0 (some optarg) }
  | 'x' => Except.ok { o with url := Function.update o.url 1 (some optarg) }
  | 'f' => Except.ok { o with miface := Function.update o.miface 0 (some optarg) }
  | 'q' => Except.ok { o with miface := Function.update o.miface 1 (some optarg) }
  | 's' => Except.ok { o with addr := Function.update o.addr 0 (some optarg) }
  | 'b' => Except.ok { o with addr := Function.update o.addr 1 (some optarg) }
  | 'c' => Except.ok { o with addr := Function.update o.addr 2 (some optarg) }
  | 'd' => Except.ok { o with addr := Function.update o.addr 3 (some optarg) }
  | 'm' => Except.ok { o with recovery_length_min := to_uint32 (env.atoi optarg) }
  | 'M' => Except.ok { o with recovery_length_max := to_uint32 (env.atoi optarg) }
  | 'o' => Except.ok { o with recover_reorder_buffer := to_uint32 (env.atoi optarg) }
  | 'r' => Except.ok { o with recovery_rtt_min := to_uint32 (env.atoi optarg) }
  | 'R' => Except.ok { o with recovery_rtt_max := to_uint32 (env.atoi optarg) }
  | 'B' =>
    if optarg = "off".toList then
      Except.ok { o with buffer_bloat_mode := rist_buffer_bloat_mode.OFF }
    else if optarg = "normal".toList then
      Except.ok { o with buffer_bloat_mode := rist_buffer_bloat_mode.NORMAL }
    else if optarg = "aggressive".toList then
      Except.ok { o with buffer_bloat_mode := rist_buffer_bloat_mode.AGGRESSIVE }
    else Except.error 1
  | 'l' => Except.ok { o with buffer_bloat_limit := to_uint32 (env.atoi optarg) }
  | 'L' => Except.ok { o with buffer_bloat_hard_limit := to_uint32 (env.atoi optarg) }
  | 'W' => Except.ok { o with recovery_maxbitrate := to_uint32 (env.atoi optarg) }
  | 't' => Except.ok { o with encryption_type := to_uint8 (env.atoi optarg) }
  | 'p' => Except.ok { o with profile := env.atoi optarg }
  | 'n' => Except.ok { o with src_port := to_uint16 (env.atoi optarg) }
  | 'e' => Except.ok { o with shared_secret := some optarg }
  | 'v' => Except.ok { o with loglevel := env.atoi optarg }
  | _ => Except.error 1

/-- The `while` loop over `getopt_long`: `args` lists what the successive
calls return before -1. -/
def parse_options (env : Env) : List (Char × List Char) → Options → Except Int Options
  | [], o => Except.ok o
  | (c, optarg) :: rest, o =>
    match option_step env o c optarg with
    | Except.error code => Except.error code
    | Except.ok o1 => parse_options env rest o1

/-- The loop that computes `all_url_null`. -/
def all_url_null (url : Nat → Option (List Char)) : Bool :=
  (List.range INPUT_COUNT).all (fun i => (url i).isNone)

/-- The constant `default_peer_config` that `main` builds. -/
def default_peer_config (o : Options) : rist_peer_config :=
  { address := o.addr 0
    recovery_mode := o.recovery_mode
    recovery_maxbitrate := o.recovery_maxbitrate
    recovery_maxbitrate_return := o.recovery_maxbitrate_return
    recovery_length_min := o.recovery_length_min
    recovery_length_max := o.recovery_length_max
    recover_reorder_buffer := o.recover_reorder_buffer
    recovery_rtt_min := o.recovery_rtt_min
    recovery_rtt_max := o.recovery_rtt_max
    weight := 5
    bufferbloat_mode := o.buffer_bloat_mode
    bufferbloat_limit := o.buffer_bloat_limit
    bufferbloat_hard_limit := o.buffer_bloat_hard_limit }

/-- The loop over `addr[1]` .. `addr[OUTPUT_COUNT - 1]` that adds the further
peers, for the indices in the list. The flag says whether `exit(1)` was
taken. -/
def add_peer_loop (env : Env) (addr : Nat → Option (List Char)) :
    List Nat → Bool × List Event
  | [] => (false, [])
  | i :: rest =>
    match addr i with
    | none => add_peer_loop env addr rest
    | some a =>
      if env.rist_server_add_peer i = -1 then (true, [Event.server_add_peer i a])
      else
        let r := add_peer_loop env addr rest
        (r.1, Event.server_add_peer i a :: r.2)

/-- The loop of the "Mpeg side" over the indices in the list. The result is
`atleast_one_socket_opened` and the calls. The test `mpeg <= 0` of the source
compares the array itself, not `mpeg[i]`, with 0; an array is never NULL, so
its branch is not taken. -/
def mpeg_loop (env : Env) (o : Options) : List Nat → Bool × List Event
  | [] => (false, [])
  | i :: rest =>
    match o.url i with
    | none => mpeg_loop env o rest
    | some u =>
      if env.parse_url i ≠ 0 then
        let r := mpeg_loop env o rest
        (r.1, Event.parse_url i u :: r.2)
      else
        let r := mpeg_loop env o rest
        (true, Event.parse_url i u :: Event.udp_Connect_Simple i (o.miface i) :: r.2)

/-- What a run of `main` amounts to: the exit status and the calls made. -/
structure MainResult where
  exit_code : Int
  trace : List Event

/-- The key size `main` computes from `encryption_type`. -/
def keysize (encryption_type : Nat) : Int :=
  if encryption_type = 1 then 128 else 256

/-- The code of `main` from "rist side" on, that is after argument
validation: it creates and initialises the server context, enables
encryption, adds the peers, opens the sockets and starts the server. -/
def rist_side (env : Env) (o : Options) : MainResult :=
  let t1 := [Event.server_create o.profile]
  if env.rist_server_create ≠ 0 then { exit_code := 1, trace := t1 }
  else
    let t2 := t1 ++ [Event.server_init (default_peer_config o) o.loglevel]
    if env.rist_server_init = -1 then { exit_code := 1, trace := t2 }
    else
      let t3 := match o.shared_secret with
        | some shared_secret =>
          t2 ++ [Event.server_encrypt_enable shared_secret (keysize o.encryption_type)]
        | none => t2
      if o.shared_secret.isSome ∧ env.rist_server_encrypt_enable = -1 then
        { exit_code := 1, trace := t3 }
      else
        let a := add_peer_loop env o.addr ((List.range OUTPUT_COUNT).drop 1)
        let t4 := t3 ++ a.2
        if a.1 then { exit_code := 1, trace := t4 }
        else
          let m := mpeg_loop env o (List.range INPUT_COUNT)
          let t5 := t4 ++ m.2
          if ¬ m.1 then { exit_code := 1, trace := t5 }
          else
            let t6 := t5 ++ [Event.server_start o.src_port o.dst_port]
            if env.rist_server_start ≠ 0 then { exit_code := 1, trace := t6 }
            else { exit_code := 0, trace := t6 ++ [Event.pause] }

/-- The function `main`: `argc` is the argument count and `args` what the
successive `getopt_long` calls return. -/
def main (env : Env) (argc : Int) (args : List (Char × List Char)) : MainResult :=
  match parse_options env args {} with
  | Except.error code => { exit_code := code, trace := [] }
  | Except.ok o =>
    if all_url_null o.url then { exit_code := 1, trace := [] }
    else if (o.addr 0).isNone then { exit_code := 1, trace := [] }
    else if argc < 3 then { exit_code := 1, trace := [] }
    else rist_side env o

/-! ## Readers and sample values for rist2mpeg -/

/-- The profiles with which `rist_server_create` is called in a list of
calls. -/
def server_creates (trace : List Event) : List Int :=
  trace.filterMap (fun e =>
    match e with
    | Event.server_create profile => some profile
    | _ => none)

/-- The default peer configurations with which `rist_server_init` is called
in a list of calls. -/
def server_inits (trace : List Event) : List rist_peer_config :=
  trace.filterMap (fun e =>
    match e with
    | Event.server_init config _ => some config
    | _ => none)

/-- The secrets and key sizes with which `rist_server_encrypt_enable` is
called in a list of calls. -/
def encrypt_enables (trace : List Event) : List (List Char × Int) :=
  trace.filterMap (fun e =>
    match e with
    | Event.server_encrypt_enable secret k => some (secret, k)
    | _ => none)

/-- An environment in which every call succeeds; `atoi` reads the strings
"1" and "2". -/
def sample_env : Env :=
  { atoi := fun s => if s = "1".toList then 1 else if s = "2".toList then 2 else 0
    rist_server_create := 0
    rist_server_init := 0
    rist_server_encrypt_enable := 0
    rist_server_add_peer := fun _ => 0
    parse_url := fun _ => 0
    udp_Connect_Simple := fun _ => 3
    rist_server_start := 0 }

/-- The options `--url` and `--server` of a complete command line, as
`getopt_long` reports them. -/
def sample_args : List (Char × List Char) :=
  [('u', "127.0.0.1:5000".toList), ('s', "rist://@127.0.0.1:1968".toList)]

end Rist2mpeg

namespace Ristsender

/-! ## Lemmas on `setup_rist_peer` -/

theorem created_configs_setup (mss : Nat)
    (parse : Option (List Char) → Option rist_peer_config)
    (lib : LibResults) (setup : rist_sender_args) :
    created_configs (setup_rist_peer mss parse lib setup).calls =
      if registrations_ok lib setup then
        match parse setup.token with
        | none => []
        | some c0 => (process_overrides mss setup c0).toList
      else [] := by
  unfold setup_rist_peer registrations_ok process_overrides
  by_cases h1 : lib.stats_callback_set = -1
  · simp [h1, created_configs]
  by_cases h2 : lib.auth_handler_set < 0
  · simp [h1, h2, created_configs]
  by_cases h4 : lib.stats_callback_set2 = -1
  · by_cases hp : setup.profile = RIST_PROFILE_SIMPLE <;>
      by_cases ho : lib.oob_callback_set = -1 <;>
      simp [h1, h2, h4, hp, ho, created_configs]
  by_cases hp : setup.profile = RIST_PROFILE_SIMPLE <;>
    by_cases ho : lib.oob_callback_set = -1 <;>
    cases hparse : parse setup.token <;>
    simp [h1, h2, h4, hp, ho, created_configs] <;>
    (rename_i c0
     cases hov : override_stream_id setup (override_buffer setup (override_secret mss setup c0)) <;>
     simp <;>
     by_cases h5 : lib.peer_create = -1 <;> simp [h5])

theorem mem_created_configs_setup (mss : Nat)
    (parse : Option (List Char) → Option rist_peer_config)
    (lib : LibResults) (setup : rist_sender_args) (c : rist_peer_config)
    (h : c ∈ created_configs (setup_rist_peer mss parse lib setup).calls) :
    ∃ c0, parse setup.token = some c0 ∧ process_overrides mss setup c0 = some c := by
  rw [created_configs_setup] at h
  by_cases hr : registrations_ok lib setup
  · rw [if_pos hr] at h
    cases hp : parse setup.token with
    | none => simp [hp] at h
    | some c0 =>
      refine ⟨c0, rfl, ?_⟩
      simp only [hp] at h
      cases ho : process_overrides mss setup c0 with
      | none => simp [ho] at h
      | some c1 =>
        simp [ho] at h
        rw [h]
  · rw [if_neg hr] at h
    simp at h

theorem setup_peer_config (mss : Nat)
    (parse : Option (List Char) → Option rist_peer_config)
    (lib : LibResults) (setup : rist_sender_args) (p : rist_peer)
    (h : (setup_rist_peer mss parse lib setup).peer = some p) :
    p.ctx = setup.ctx ∧ p.config ∈ created_configs (setup_rist_peer mss parse lib setup).calls := by
  unfold setup_rist_peer at h ⊢
  by_cases h1 : lib.stats_callback_set = -1
  · simp [h1] at h
  by_cases h2 : lib.auth_handler_set < 0
  · simp [h1, h2] at h
  by_cases h4 : lib.stats_callback_set2 = -1
  · by_cases hp : setup.profile = RIST_PROFILE_SIMPLE <;>
      by_cases ho : lib.oob_callback_set = -1 <;>
      simp [h1, h2, h4, hp, ho] at h
  by_cases hp : setup.profile = RIST_PROFILE_SIMPLE <;>
    by_cases ho : lib.oob_callback_set = -1 <;>
    cases hparse : parse setup.token <;>
    simp [h1, h2, h4, hp, ho, hparse] at h ⊢ <;>
    (rename_i c0
     cases hov : override_stream_id setup (override_buffer setup (override_secret mss setup c0)) <;>
     simp [hov] at h ⊢ <;>
     by_cases h5 : lib.peer_create = -1 <;> simp [h5] at h ⊢ <;>
     subst h <;> simp [created_configs])

theorem process_overrides_fields (mss : Nat) (setup : rist_sender_args)
    (c0 c : rist_peer_config) (h : process_overrides mss setup c0 = some c) :
    c.secret = (override_secret mss setup c0).secret
    ∧ c.key_size = (override_secret mss setup c0).key_size
    ∧ c.recovery_length_min = (override_buffer setup c0).recovery_length_min
    ∧ c.recovery_length_max = (override_buffer setup c0).recovery_length_max
    ∧ c.recovery_reorder_buffer = c0.recovery_reorder_buffer
    ∧ c.recovery_rtt_min = c0.recovery_rtt_min
    ∧ c.recovery_rtt_max = c0.recovery_rtt_max
    ∧ c.recovery_maxbitrate = c0.recovery_maxbitrate
    ∧ c.virt_dst_port = (if setup.stream_id.val ≠ 0 then setup.stream_id.val
        else c0.virt_dst_port)
    ∧ (setup.stream_id.val = 0 ∨ setup.stream_id.val % 2 = 0) := by
  unfold process_overrides override_stream_id at h
  unfold override_buffer override_secret at h ⊢
  by_cases hs : setup.stream_id.val = 0
  · simp only [hs, ne_eq, not_true_eq_false, if_false, Option.some.injEq] at h
    subst h
    simp only [hs, ne_eq, not_true_eq_false, if_false, true_or, and_true]
    cases setup.shared_secret <;> (repeat' split) <;> simp
  · by_cases hodd : setup.stream_id.val % 2 = 0
    · simp only [hs, hodd, ne_eq, not_false_eq_true, if_true, not_true_eq_false, if_false,
        Option.some.injEq] at h
      subst h
      simp only [hs, hodd, ne_eq, not_false_eq_true, if_true, or_true, and_true]
      cases setup.shared_secret <;> (repeat' split) <;> simp
    · simp [hs, hodd] at h

/-! ## Claims on `setup_rist_peer` -/

/-- C2: in `setup_rist_peer`, a non-zero odd stream-id makes the function
return NULL without any call of `rist_peer_create`; a non-zero even stream-id
is stored in `virt_dst_port` of the configuration handed to
`rist_peer_create`; with stream-id 0 the `virt_dst_port` parsed from the URL
is kept. In the last two cases the configuration does reach
`rist_peer_create` once the registrations succeed and the URL parses. -/
theorem setup_rist_peer_stream_id (mss : Nat)
    (parse : Option (List Char) → Option rist_peer_config)
    (lib : LibResults) (setup : rist_sender_args) :
    (setup.stream_id.val ≠ 0 → setup.stream_id.val % 2 = 1 →
      (setup_rist_peer mss parse lib setup).peer = none
      ∧ created_configs (setup_rist_peer mss parse lib setup).calls = [])
    ∧ (setup.stream_id.val ≠ 0 → setup.stream_id.val % 2 = 0 →
      (∀ c ∈ created_configs (setup_rist_peer mss parse lib setup).calls,
        c.virt_dst_port = setup.stream_id.val)
      ∧ (∀ p, (setup_rist_peer mss parse lib setup).peer = some p →
        p.config.virt_dst_port = setup.stream_id.val)
      ∧ (registrations_ok lib setup → ∀ c0, parse setup.token = some c0 →
        ∃ c, created_configs (setup_rist_peer mss parse lib setup).calls = [c]))
    ∧ (setup.stream_id.val = 0 → ∀ c0, parse setup.token = some c0 →
      (∀ c ∈ created_configs (setup_rist_peer mss parse lib setup).calls,
        c.virt_dst_port = c0.virt_dst_port)
      ∧ (registrations_ok lib setup →
        ∃ c, created_configs (setup_rist_peer mss parse lib setup).calls = [c])) := by
  have key : ∀ c ∈ created_configs (setup_rist_peer mss parse lib setup).calls,
      ∃ c0, parse setup.token = some c0
        ∧ c.virt_dst_port = (if setup.stream_id.val ≠ 0 then setup.stream_id.val
            else c0.virt_dst_port)
        ∧ (setup.stream_id.val = 0 ∨ setup.stream_id.val % 2 = 0) := by
    intro c hc
    obtain ⟨c0, hp, ho⟩ := mem_created_configs_setup mss parse lib setup c hc
    have hf := process_overrides_fields mss setup c0 c ho
    exact ⟨c0, hp, hf.2.2.2.2.2.2.2.2.1, hf.2.2.2.2.2.2.2.2.2⟩
  have reach : ∀ c0, parse setup.token = some c0 → registrations_ok lib setup →
      (setup.stream_id.val = 0 ∨ setup.stream_id.val % 2 = 0) →
      ∃ c, created_configs (setup_rist_peer mss parse lib setup).calls = [c] := by
    intro c0 hp hr hs
    rw [created_configs_setup, if_pos hr]
    simp only [hp]
    unfold process_overrides override_stream_id
    rcases hs with hs | hs
    · simp [hs]
    · by_cases h0 : setup.stream_id.val = 0 <;> simp [hs, h0]
  refine ⟨?_, ?_, ?_⟩
  · intro h0 hodd
    have hnil : created_configs (setup_rist_peer mss parse lib setup).calls = [] := by
      cases hl : created_configs (setup_rist_peer mss parse lib setup).calls with
      | nil => rfl
      | cons c rest =>
        obtain ⟨c0, _, _, hs⟩ := key c (by rw [hl]; exact List.mem_cons_self c rest)
        omega
    refine ⟨?_, hnil⟩
    cases hpeer : (setup_rist_peer mss parse lib setup).peer with
    | none => rfl
    | some p =>
      have hm := (setup_peer_config mss parse lib setup p hpeer).2
      rw [hnil] at hm
      simp at hm
  · intro h0 heven
    refine ⟨?_, ?_, ?_⟩
    · intro c hc
      obtain ⟨c0, _, hv, _⟩ := key c hc
      rw [hv, if_pos h0]
    · intro p hpeer
      obtain ⟨c0, _, hv, _⟩ := key p.config (setup_peer_config mss parse lib setup p hpeer).2
      rw [hv, if_pos h0]
    · intro hr c0 hp
      exact reach c0 hp hr (Or.inr heven)
  · intro h0 c0 hp
    refine ⟨?_, ?_⟩
    · intro c hc
      obtain ⟨c1, hp1, hv, _⟩ := key c hc
      rw [hp] at hp1
      cases hp1
      rw [hv]
      simp [h0]
    · intro hr
      exact reach c0 hp hr (Or.inl h0)

/-- C7: in `setup_rist_peer`, when the secret parsed from the URL is not empty
(`secret[0] != 0`), or when no command-line secret is given, the secret and
the key size of the configuration are left as parsed, whatever the
command-line secret and encryption type are: the first override returns the
configuration unchanged, and both the configuration handed to
`rist_peer_create` and the one of the returned peer carry the parsed secret
and key size. -/
theorem setup_rist_peer_secret_default (mss : Nat)
    (parse : Option (List Char) → Option rist_peer_config)
    (lib : LibResults) (setup : rist_sender_args) (c0 : rist_peer_config)
    (hparse : parse setup.token = some c0)
    (h : c0.secret.getD 0 NUL ≠ NUL ∨ setup.shared_secret = none) :
    override_secret mss setup c0 = c0
    ∧ (∀ c ∈ created_configs (setup_rist_peer mss parse lib setup).calls,
        c.secret = c0.secret ∧ c.key_size = c0.key_size)
    ∧ (∀ p, (setup_rist_peer mss parse lib setup).peer = some p →
        p.config.secret = c0.secret ∧ p.config.key_size = c0.key_size) := by
  have h1 : override_secret mss setup c0 = c0 := by
    unfold override_secret
    split
    · rename_i s hs
      rcases h with h | h
      · exact if_neg h
      · rw [h] at hs
        cases hs
    · rfl
  have h2 : ∀ c ∈ created_configs (setup_rist_peer mss parse lib setup).calls,
      c.secret = c0.secret ∧ c.key_size = c0.key_size := by
    intro c hc
    obtain ⟨c1, hp1, ho⟩ := mem_created_configs_setup mss parse lib setup c hc
    rw [hparse] at hp1
    cases hp1
    have hf := process_overrides_fields mss setup c0 c ho
    rw [h1] at hf
    exact ⟨hf.1, hf.2.1⟩
  exact ⟨h1, h2, fun p hp => h2 p.config (setup_peer_config mss parse lib setup p hp).2⟩

/-- Witness for C7: the second sample URL carries its own secret, the command
line gives another secret and encryption type 128, and the peer is created
with the secret and key size of the URL. -/
theorem setup_rist_peer_secret_default_witness :
    (sample_config_secret.secret.getD 0 NUL ≠ NUL ∨ sample_args_secret.shared_secret = none)
    ∧ override_secret 128 sample_args_secret sample_config_secret = sample_config_secret
    ∧ (∃ p, (setup_rist_peer 128 sample_parse_address lib_ok sample_args_secret).peer = some p
        ∧ p.config.key_size = 256) :=
  ⟨Or.inl (by decide),
    (setup_rist_peer_secret_default 128 sample_parse_address lib_ok sample_args_secret
      sample_config_secret (by decide) (Or.inl (by decide))).1,
    by decide⟩

/-- C8: in `setup_rist_peer`, when a command-line secret is given and the
secret of the URL is empty, the key size becomes the command-line encryption
type `e` if `e` is not 0, otherwise the key size `k` of the URL if `k` is not
0, otherwise 128; this is the key size handed to `rist_peer_create`. For `e`
and `k` among 0, 128, 256 the result is 128 or 256. -/
theorem setup_rist_peer_key_size (mss : Nat)
    (parse : Option (List Char) → Option rist_peer_config)
    (lib : LibResults) (setup : rist_sender_args) (c0 : rist_peer_config)
    (shared_secret : List Char)
    (hparse : parse setup.token = some c0)
    (hsecret : setup.shared_secret = some shared_secret)
    (hempty : c0.secret.getD 0 NUL = NUL) :
    (override_secret mss setup c0).key_size =
        (if setup.encryption_type ≠ 0 then setup.encryption_type
          else if c0.key_size ≠ 0 then c0.key_size else 128)
    ∧ (∀ c ∈ created_configs (setup_rist_peer mss parse lib setup).calls,
        c.key_size = (if setup.encryption_type ≠ 0 then setup.encryption_type
          else if c0.key_size ≠ 0 then c0.key_size else 128))
    ∧ ((setup.encryption_type = 0 ∨ setup.encryption_type = 128
          ∨ setup.encryption_type = 256) →
        (c0.key_size = 0 ∨ c0.key_size = 128 ∨ c0.key_size = 256) →
        (override_secret mss setup c0).key_size = 128
          ∨ (override_secret mss setup c0).key_size = 256) := by
  have h1 : (override_secret mss setup c0).key_size =
      (if setup.encryption_type ≠ 0 then setup.encryption_type
        else if c0.key_size ≠ 0 then c0.key_size else 128) := by
    unfold override_secret
    simp only [hsecret, hempty, if_true]
    by_cases he : setup.encryption_type = 0
    · by_cases hk : c0.key_size = 0 <;> simp [he, hk]
    · simp [he]
  refine ⟨h1, ?_, ?_⟩
  · intro c hc
    obtain ⟨c1, hp1, ho⟩ := mem_created_configs_setup mss parse lib setup c hc
    rw [hparse] at hp1
    cases hp1
    rw [(process_overrides_fields mss setup c0 c ho).2.1, h1]
  · intro he hk
    rw [h1]
    rcases he with he | he | he <;> rcases hk with hk | hk | hk <;> simp [he, hk]

/-- Witness for C8: the first sample URL has no secret and key size 0, the
command line gives a secret and encryption type 128, and the peer is created
with key size 128. -/
theorem setup_rist_peer_key_size_witness :
    sample_args.shared_secret = some "clipass".toList
    ∧ sample_config.secret.getD 0 NUL = NUL
    ∧ (override_secret 128 sample_args sample_config).key_size = 128
    ∧ (created_configs (setup_rist_peer 128 sample_parse_address lib_ok sample_args).calls).map
        (fun c => c.key_size) = [128] :=
  ⟨rfl, by decide,
    (setup_rist_peer_key_size 128 sample_parse_address lib_ok sample_args sample_config
      "clipass".toList (by decide) rfl (by decide)).1,
    by decide⟩

/-- C9 as stated fails: with the buffer size -1 (the option `-b -1`), the
configuration handed to `rist_peer_create` for the first sample URL has
`recovery_length_min = recovery_length_max = 4294967295`, not -1: the members
are `uint32_t`. -/
theorem setup_rist_peer_buffer_counterexample :
    sample_args_negative_buffer.buffer_size = -1
    ∧ sample_parse_address sample_args_negative_buffer.token = some sample_config
    ∧ (created_configs (setup_rist_peer 128 sample_parse_address lib_ok
        sample_args_negative_buffer).calls).map
        (fun c => (c.recovery_length_min, c.recovery_length_max)) = [(4294967295, 4294967295)]
    ∧ ¬ (∀ c ∈ created_configs (setup_rist_peer 128 sample_parse_address lib_ok
        sample_args_negative_buffer).calls,
        c.recovery_length_min = sample_args_negative_buffer.buffer_size
        ∧ c.recovery_length_max = sample_args_negative_buffer.buffer_size) := by
  refine ⟨rfl, by decide, by decide, by decide⟩

/-- C9 amended: in `setup_rist_peer`, a non-zero command-line buffer size `b`
makes `recovery_length_min` and `recovery_length_max` of the configuration
equal to `b` converted to `uint32_t`, whatever the URL gave: that is `b`
itself for `0 < b < 2^32` and `b + 2^32` for `-2^32 <= b < 0`. With `b = 0`
both keep the values parsed from the URL. The buffer override changes no
other member, and the reorder buffer, the rtt bounds and the maximum bitrate
reach `rist_peer_create` as parsed. -/
theorem setup_rist_peer_buffer (mss : Nat)
    (parse : Option (List Char) → Option rist_peer_config)
    (lib : LibResults) (setup : rist_sender_args) (c0 : rist_peer_config)
    (hparse : parse setup.token = some c0) :
    (setup.buffer_size ≠ 0 →
      ∀ c ∈ created_configs (setup_rist_peer mss parse lib setup).calls,
        c.recovery_length_min = setup.buffer_size % 2 ^ 32
        ∧ c.recovery_length_max = setup.buffer_size % 2 ^ 32)
    ∧ (0 < setup.buffer_size → setup.buffer_size < 2 ^ 32 →
      ∀ c ∈ created_configs (setup_rist_peer mss parse lib setup).calls,
        c.recovery_length_min = setup.buffer_size ∧ c.recovery_length_max = setup.buffer_size)
    ∧ (setup.buffer_size < 0 → - 2 ^ 32 ≤ setup.buffer_size →
      ∀ c ∈ created_configs (setup_rist_peer mss parse lib setup).calls,
        c.recovery_length_min = setup.buffer_size + 2 ^ 32
        ∧ c.recovery_length_max = setup.buffer_size + 2 ^ 32)
    ∧ (setup.buffer_size = 0 →
      ∀ c ∈ created_configs (setup_rist_peer mss parse lib setup).calls,
        c.recovery_length_min = c0.recovery_length_min
          ∧ c.recovery_length_max = c0.recovery_length_max)
    ∧ (∀ c ∈ created_configs (setup_rist_peer mss parse lib setup).calls,
        c.recovery_reorder_buffer = c0.recovery_reorder_buffer
          ∧ c.recovery_rtt_min = c0.recovery_rtt_min
          ∧ c.recovery_rtt_max = c0.recovery_rtt_max
          ∧ c.recovery_maxbitrate = c0.recovery_maxbitrate)
    ∧ (∀ c : rist_peer_config, override_buffer setup c =
        if setup.buffer_size ≠ 0 then
          { c with recovery_length_min := setup.buffer_size % 2 ^ 32
                   recovery_length_max := setup.buffer_size % 2 ^ 32 }
        else c) := by
  have key : ∀ c ∈ created_configs (setup_rist_peer mss parse lib setup).calls,
      process_overrides mss setup c0 = some c := by
    intro c hc
    obtain ⟨c1, hp1, ho⟩ := mem_created_configs_setup mss parse lib setup c hc
    rw [hparse] at hp1
    cases hp1
    exact ho
  have hmod : setup.buffer_size ≠ 0 →
      ∀ c ∈ created_configs (setup_rist_peer mss parse lib setup).calls,
        c.recovery_length_min = setup.buffer_size % 2 ^ 32
        ∧ c.recovery_length_max = setup.buffer_size % 2 ^ 32 := by
    intro hb c hc
    have hf := process_overrides_fields mss setup c0 c (key c hc)
    rw [hf.2.2.1, hf.2.2.2.1]
    unfold override_buffer to_uint32
    simp [hb]
  refine ⟨hmod, ?_, ?_, ?_, ?_, ?_⟩
  · intro hpos hlt c hc
    have h := hmod (by omega) c hc
    have hm : setup.buffer_size % 2 ^ 32 = setup.buffer_size :=
      Int.emod_eq_of_lt (by omega) hlt
    rw [hm] at h
    exact h
  · intro hneg hge c hc
    have h := hmod (by omega) c hc
    have hm : setup.buffer_size % 2 ^ 32 = setup.buffer_size + 2 ^ 32 := by
      omega
    rw [hm] at h
    exact h
  · intro hb c hc
    have hf := process_overrides_fields mss setup c0 c (key c hc)
    rw [hf.2.2.1, hf.2.2.2.1]
    unfold override_buffer
    simp [hb]
  · intro c hc
    have hf := process_overrides_fields mss setup c0 c (key c hc)
    exact ⟨hf.2.2.2.2.1, hf.2.2.2.2.2.1, hf.2.2.2.2.2.2.1, hf.2.2.2.2.2.2.2.1⟩
  · intro c
    rfl

/-- Witness for the amended C9: the first sample URL parses with buffer
1000/1000, the command line gives buffer 2000, and the peer is created with
2000/2000. -/
theorem setup_rist_peer_buffer_witness :
    sample_parse_address sample_args.token = some sample_config
    ∧ (created_configs (setup_rist_peer 128 sample_parse_address lib_ok sample_args).calls).map
        (fun c => (c.recovery_length_min, c.recovery_length_max, c.recovery_reorder_buffer))
        = [(2000, 2000, 25)]
    ∧ (∀ c ∈ created_configs (setup_rist_peer 128 sample_parse_address lib_ok sample_args).calls,
        c.recovery_length_min = 2000 ∧ c.recovery_length_max = 2000) :=
  ⟨by decide, by decide,
    (setup_rist_peer_buffer 128 sample_parse_address lib_ok sample_args sample_config
      (by decide)).2.1 (by decide) (by decide)⟩

/-! ## Claims on `input_udp_recv` -/

/-- C3: in `input_udp_recv`, a received datagram of length `n > 0` leads to
exactly one call of `rist_sender_data_write`; its block has payload
`recv_buf + 12` and length `n - 12` when the `rtp` option is set and
`n > 12`, and payload `recv_buf` and length `n` otherwise. So offset plus
length is `n`, the length is at least 1, and the payload bytes are the
datagram without its first `offset` bytes, a suffix of the datagram. -/
theorem input_udp_recv_payload (udp_config : rist_udp_config) (sender_ctx : Option rist_ctx)
    (recv_buf : List Nat) (n : Int) (would_block : Bool) (hn : n > 0) :
    ∃ b, input_udp_recv udp_config sender_ctx recv_buf n would_block
        = [LibCall.sender_data_write sender_ctx b]
      ∧ (udp_config.rtp ≠ 0 ∧ n > 12 → b.payload = 12 ∧ b.payload_len = n - 12)
      ∧ (¬ (udp_config.rtp ≠ 0 ∧ n > 12) → b.payload = 0 ∧ b.payload_len = n)
      ∧ (b.payload : Int) + b.payload_len = n
      ∧ b.payload_len ≥ 1
      ∧ payload_bytes recv_buf b = (recv_buf.take n.toNat).drop b.payload
      ∧ payload_bytes recv_buf b <:+ recv_buf.take n.toNat := by
  by_cases hr : udp_config.rtp ≠ 0 ∧ n > 12
  · have hv : input_udp_recv udp_config sender_ctx recv_buf n would_block
        = [LibCall.sender_data_write sender_ctx
            { payload := 12, payload_len := n - 12, ts_ntp := 0, flags := 0, seq := 0 }] := by
      unfold input_udp_recv
      rw [if_pos hn]
      simp only [if_pos hr]
      rfl
    have h12 : (n - 12).toNat = n.toNat - 12 := by omega
    have hb : payload_bytes recv_buf
        { payload := 12, payload_len := n - 12, ts_ntp := 0, flags := 0, seq := 0 }
        = (recv_buf.take n.toNat).drop 12 := by
      simp only [payload_bytes, h12, List.drop_take]
    refine ⟨_, hv, fun _ => ⟨rfl, rfl⟩, fun h => absurd hr h, ?_, ?_, hb, ?_⟩
    · show ((12 : Nat) : Int) + (n - 12) = n
      omega
    · show n - 12 ≥ 1
      omega
    · rw [hb]
      exact List.drop_suffix _ _
  · have hv : input_udp_recv udp_config sender_ctx recv_buf n would_block
        = [LibCall.sender_data_write sender_ctx
            { payload := 0, payload_len := n, ts_ntp := 0, flags := 0, seq := 0 }] := by
      unfold input_udp_recv
      rw [if_pos hn]
      simp only [if_neg hr]
      simp
    have hb : payload_bytes recv_buf
        { payload := 0, payload_len := n, ts_ntp := 0, flags := 0, seq := 0 }
        = (recv_buf.take n.toNat).drop 0 := by
      simp [payload_bytes]
    refine ⟨_, hv, fun h => absurd h hr, fun _ => ⟨rfl, rfl⟩, ?_, ?_, hb, ?_⟩
    · show ((0 : Nat) : Int) + n = n
      omega
    · show n ≥ 1
      omega
    · rw [hb]
      exact List.drop_suffix _ _

/-- Witness for C3: the sample datagram of 13 bytes on an rtp input is written
as the one byte that follows the 12-byte header. -/
theorem input_udp_recv_payload_witness :
    (13 : Int) > 0
    ∧ ∃ b, input_udp_recv sample_udp_config (some (rist_ctx.sender 0)) sample_datagram 13 false
        = [LibCall.sender_data_write (some (rist_ctx.sender 0)) b]
      ∧ b.payload = 12 ∧ b.payload_len = 1 ∧ payload_bytes sample_datagram b = [71] := by
  obtain ⟨b, h1, h2, -, -, -, -, -⟩ := input_udp_recv_payload sample_udp_config
    (some (rist_ctx.sender 0)) sample_datagram 13 false (by decide)
  have h3 := h2 ⟨by decide, by decide⟩
  refine ⟨by decide, b, h1, h3.1, h3.2, ?_⟩
  have hb : b = { payload := 12, payload_len := 1, ts_ntp := 0, flags := 0, seq := 0 } := by
    have h4 : input_udp_recv sample_udp_config (some (rist_ctx.sender 0)) sample_datagram 13 false
        = [LibCall.sender_data_write (some (rist_ctx.sender 0))
            { payload := 12, payload_len := 1, ts_ntp := 0, flags := 0, seq := 0 }] := by
      decide
    rw [h4] at h1
    simp only [List.cons.injEq, LibCall.sender_data_write.injEq, true_and, and_true] at h1
    exact h1.symm
  rw [hb]
  decide

/-- C6 as stated fails: on the sample datagram (13 bytes, timestamp 90000,
sequence number 258) with `rtp_timestamp` and `rtp_sequence` set, the block
that is written has `ts_ntp = 0`, not the NTP conversion of the timestamp
(which is 2^32), and `seq = 0` with no flag set. -/
theorem input_udp_recv_rtp_fields_counterexample :
    sample_udp_config.rtp_timestamp ≠ 0 ∧ sample_udp_config.rtp_sequence ≠ 0
    ∧ sample_datagram.length = 13
    ∧ risttools_convertRTPtoNTP (rtp_time sample_datagram) = 2 ^ 32
    ∧ rtp_seq sample_datagram = 258
    ∧ ∃ b, input_udp_recv sample_udp_config (some (rist_ctx.sender 0)) sample_datagram 13 false
        = [LibCall.sender_data_write (some (rist_ctx.sender 0)) b]
      ∧ b.ts_ntp ≠ risttools_convertRTPtoNTP (rtp_time sample_datagram)
      ∧ b.seq ≠ rtp_seq sample_datagram
      ∧ b.flags = 0 := by
  refine ⟨by decide, by decide, rfl, by decide, by decide,
    { payload := 12, payload_len := 1, ts_ntp := 0, flags := 0, seq := 0 }, by decide,
    by decide, by decide, rfl⟩

/-- C6 amended: in `input_udp_recv`, every received datagram (length
`n > 0`) is written with `ts_ntp = 0`, which leaves the time stamp to the
library, with `flags = 0` and with `seq = 0`, whatever `rtp_timestamp` and
`rtp_sequence` are and whatever the bytes of the datagram are. -/
theorem input_udp_recv_rtp_fields (udp_config : rist_udp_config)
    (sender_ctx : Option rist_ctx) (recv_buf : List Nat) (n : Int) (would_block : Bool)
    (hn : n > 0) :
    ∃ b, input_udp_recv udp_config sender_ctx recv_buf n would_block
        = [LibCall.sender_data_write sender_ctx b]
      ∧ b.ts_ntp = 0 ∧ b.flags = 0 ∧ b.seq = 0 := by
  unfold input_udp_recv
  rw [if_pos hn]
  exact ⟨_, rfl, rfl, rfl, rfl⟩

/-- Witness for the amended C6 on the sample datagram. -/
theorem input_udp_recv_rtp_fields_witness :
    (13 : Int) > 0
    ∧ ∃ b, input_udp_recv sample_udp_config none sample_datagram 13 true
        = [LibCall.sender_data_write none b]
      ∧ b.ts_ntp = 0 ∧ b.flags = 0 ∧ b.seq = 0 :=
  ⟨by decide, input_udp_recv_rtp_fields sample_udp_config none sample_datagram 13 true
    (by decide)⟩

/-! ## Out-of-band data -/

theorem oob_registrations_setup (mss : Nat)
    (parse : Option (List Char) → Option rist_peer_config)
    (lib : LibResults) (setup : rist_sender_args) :
    oob_registrations (setup_rist_peer mss parse lib setup).calls =
      if lib.stats_callback_set ≠ -1 ∧ ¬ lib.auth_handler_set < 0
          ∧ setup.profile ≠ RIST_PROFILE_SIMPLE then [setup.ctx]
      else [] := by
  unfold setup_rist_peer
  by_cases h1 : lib.stats_callback_set = -1
  · simp [h1, oob_registrations]
  by_cases h2 : lib.auth_handler_set < 0
  · simp [h1, h2, oob_registrations]
  by_cases h4 : lib.stats_callback_set2 = -1
  · by_cases hp : setup.profile = RIST_PROFILE_SIMPLE <;>
      by_cases ho : lib.oob_callback_set = -1 <;>
      simp [h1, h2, h4, hp, ho, oob_registrations]
  by_cases hp : setup.profile = RIST_PROFILE_SIMPLE <;>
    by_cases ho : lib.oob_callback_set = -1 <;>
    cases hparse : parse setup.token <;>
    simp [h1, h2, h4, hp, ho, oob_registrations] <;>
    (rename_i c0
     cases hov : override_stream_id setup (override_buffer setup (override_secret mss setup c0)) <;>
     simp <;>
     by_cases h5 : lib.peer_create = -1 <;> simp [h5])

theorem auth_handler_set_setup (mss : Nat)
    (parse : Option (List Char) → Option rist_peer_config)
    (lib : LibResults) (setup : rist_sender_args) (h1 : lib.stats_callback_set ≠ -1) :
    LibCall.auth_handler_set setup.ctx Callback.cb_auth_connect Callback.cb_auth_disconnect
      setup.ctx ∈ (setup_rist_peer mss parse lib setup).calls := by
  unfold setup_rist_peer
  by_cases h2 : lib.auth_handler_set < 0
  · simp [h1, h2]
  by_cases h4 : lib.stats_callback_set2 = -1
  · by_cases hp : setup.profile = RIST_PROFILE_SIMPLE <;>
      by_cases ho : lib.oob_callback_set = -1 <;>
      simp [h1, h2, h4, hp, ho]
  by_cases hp : setup.profile = RIST_PROFILE_SIMPLE <;>
    by_cases ho : lib.oob_callback_set = -1 <;>
    cases hparse : parse setup.token <;>
    simp [h1, h2, h4, hp, ho] <;>
    (rename_i c0
     cases hov : override_stream_id setup (override_buffer setup (override_secret mss setup c0)) <;>
     simp <;>
     by_cases h5 : lib.peer_create = -1 <;> simp [h5])

/-- C10 as stated fails: for the context of slot 0 configured with the simple
profile, `setup_rist_peer` registers `cb_auth_connect` with that context as
its argument, and `cb_auth_connect` called with that argument issues
`rist_oob_write` on the context. (No out-of-band callback is registered on
it.) -/
theorem oob_simple_profile_counterexample :
    sample_args_simple.profile = RIST_PROFILE_SIMPLE
    ∧ LibCall.auth_handler_set (rist_ctx.sender 0) Callback.cb_auth_connect
        Callback.cb_auth_disconnect (rist_ctx.sender 0)
      ∈ (setup_rist_peer 128 sample_parse_address lib_ok sample_args_simple).calls
    ∧ oob_registrations (setup_rist_peer 128 sample_parse_address lib_ok sample_args_simple).calls
      = []
    ∧ oob_writes (cb_auth_connect (rist_ctx.sender 0) "10.0.0.1".toList 1968
        "10.0.0.2".toList 1968 none).2 = [rist_ctx.sender 0] := by
  refine ⟨rfl, by decide, by decide, by decide⟩

/-- C10 amended: `setup_rist_peer` registers no out-of-band receive callback
on a context configured with the simple profile; for every other profile it
registers `cb_recv_oob` on the context as soon as the two registrations before
it succeed. The authentication handler `cb_auth_connect` is registered for
every profile, and each call of it issues exactly one `rist_oob_write` on the
context it was registered with, whatever the profile. -/
theorem oob_use_by_profile (mss : Nat)
    (parse : Option (List Char) → Option rist_peer_config)
    (lib : LibResults) (setup : rist_sender_args) :
    (setup.profile = RIST_PROFILE_SIMPLE →
      oob_registrations (setup_rist_peer mss parse lib setup).calls = [])
    ∧ (setup.profile ≠ RIST_PROFILE_SIMPLE → lib.stats_callback_set ≠ -1 →
        ¬ lib.auth_handler_set < 0 →
        oob_registrations (setup_rist_peer mss parse lib setup).calls = [setup.ctx]
        ∧ LibCall.oob_callback_set setup.ctx Callback.cb_recv_oob setup.ctx
          ∈ (setup_rist_peer mss parse lib setup).calls)
    ∧ (lib.stats_callback_set ≠ -1 →
        LibCall.auth_handler_set setup.ctx Callback.cb_auth_connect
          Callback.cb_auth_disconnect setup.ctx
          ∈ (setup_rist_peer mss parse lib setup).calls)
    ∧ (∀ (connecting_ip local_ip : List Char) (connecting_port local_port : uint16_t)
        (peer : Option rist_peer),
        oob_writes (cb_auth_connect setup.ctx connecting_ip connecting_port local_ip
          local_port peer).2 = [setup.ctx]) := by
  refine ⟨?_, ?_, auth_handler_set_setup mss parse lib setup, ?_⟩
  · intro hp
    rw [oob_registrations_setup]
    simp [hp]
  · intro hp h1 h2
    have hreg : oob_registrations (setup_rist_peer mss parse lib setup).calls = [setup.ctx] := by
      rw [oob_registrations_setup]
      simp [hp, h1, h2]
    refine ⟨hreg, ?_⟩
    unfold setup_rist_peer
    by_cases h4 : lib.stats_callback_set2 = -1
    · by_cases ho : lib.oob_callback_set = -1 <;> simp [h1, h2, h4, hp, ho]
    by_cases ho : lib.oob_callback_set = -1 <;>
      cases hparse : parse setup.token <;>
      simp [h1, h2, h4, hp, ho] <;>
      (rename_i c0
       cases hov : override_stream_id setup (override_buffer setup (override_secret mss setup c0)) <;>
       simp <;>
       by_cases h5 : lib.peer_create = -1 <;> simp [h5])
  · intro connecting_ip local_ip connecting_port local_port peer
    simp [cb_auth_connect, oob_writes]

/-! ## The input loop of `main` -/

theorem started_append (a b : List Event) : started (a ++ b) = started a ++ started b := by
  simp [started, List.filterMap_append]

theorem started_lib (l : List LibCall) : started (l.map Event.lib) = [] := by
  induction l with
  | nil => rfl
  | cons c rest ih =>
    simp only [started, List.map_cons, List.filterMap_cons] at ih ⊢
    exact ih

theorem started_output_loop (env : Env) (peer_args : rist_sender_args) (i : Nat) :
    ∀ (fuel j : Nat) (outputtoken : Option Nat) (outputurl : List Char) (saveptroutput : Nat),
      started (output_loop env peer_args i fuel j outputtoken outputurl saveptroutput).2.2
        = [] := by
  intro fuel
  induction fuel with
  | zero => intro j t b sp; rfl
  | succ fuel ih =>
    intro j t b sp
    unfold output_loop
    dsimp only
    split
    · show started (_ :: List.map Event.lib _) = []
      simp only [started, List.filterMap_cons]
      exact started_lib _
    · split
      · show started (_ :: List.map Event.lib _) = []
        simp only [started, List.filterMap_cons]
        exact started_lib _
      · show started ((_ :: List.map Event.lib _) ++ _) = []
        rw [started_append, ih]
        simp only [started, List.filterMap_cons, List.append_nil]
        exact started_lib _

theorem rist_input_spec (env : Env) (o : Options) (i : Nat) (inputtoken : List Char)
    (udp_config : rist_udp_config) (st : MainState) :
    (rist_input env o i inputtoken udp_config st).1 = Flow.next
    ∧ (rist_input env o i inputtoken udp_config st).2.1.stream_id_check = st.stream_id_check
    ∧ started (rist_input env o i inputtoken udp_config st).2.2 = [] := by
  unfold rist_input
  dsimp only
  split
  · exact ⟨rfl, rfl, rfl⟩
  · split
    · refine ⟨rfl, rfl, ?_⟩
      rw [started_append, started_lib]
      rfl
    · refine ⟨rfl, rfl, ?_⟩
      rw [started_append, started_lib]
      rfl

theorem udp_input_spec (env : Env) (i : Nat) (udp_config : rist_udp_config) (st : MainState) :
    (udp_input env i udp_config st).1 = Flow.next
    ∧ (udp_input env i udp_config st).2.1.stream_id_check = st.stream_id_check
    ∧ started (udp_input env i udp_config st).2.2 = [] := by
  unfold udp_input
  dsimp only
  split
  · refine ⟨rfl, rfl, ?_⟩
    split <;> rfl
  · split
    · refine ⟨rfl, rfl, ?_⟩
      split <;> rfl
    · split
      · refine ⟨rfl, rfl, ?_⟩
        split <;> rfl
      · refine ⟨rfl, rfl, ?_⟩
        split <;> rfl

theorem input_body_spec (env : Env) (o : Options) (i : Nat) (t : List Char) (st : MainState)
    (hc : env.rist_sender_create i = 0) :
    started (input_body env o i t st).2.2 = []
    ∧ (env.rist_parse_udp_address t = none →
        (input_body env o i t st).1 = Flow.next
        ∧ (input_body env o i t st).2.1.stream_id_check = st.stream_id_check)
    ∧ (∀ cfg, env.rist_parse_udp_address t = some cfg →
        (check_stream_id cfg.stream_id st.stream_id_check = none →
          (input_body env o i t st).1 = Flow.shutdown Reason.dup_stream_id)
        ∧ (∀ chk, check_stream_id cfg.stream_id st.stream_id_check = some chk →
          (input_body env o i t st).2.1.stream_id_check = chk
          ∧ ((input_body env o i t st).1 = Flow.next
            ∨ (input_body env o i t st).1 = Flow.shutdown Reason.peer_setup_failed))) := by
  cases hp : env.rist_parse_udp_address t with
  | none =>
    have hv : input_body env o i t st
        = (Flow.next, st, [Event.parse_udp_address t, Event.log LogLevel.ERROR]) := by
      unfold input_body
      simp only [hp]
    rw [hv]
    exact ⟨rfl, fun _ => ⟨rfl, rfl⟩, fun cfg h => by cases h⟩
  | some cfg =>
    cases hk : check_stream_id cfg.stream_id st.stream_id_check with
    | none =>
      have hv : input_body env o i t st
          = (Flow.shutdown Reason.dup_stream_id, st,
              [Event.parse_udp_address t, Event.log LogLevel.ERROR]) := by
        unfold input_body
        simp only [hp, hk]
      rw [hv]
      refine ⟨rfl, (fun h => by cases h), ?_⟩
      intro cfg1 h1
      cases h1
      exact ⟨fun _ => rfl, fun chk h => by rw [hk] at h; cases h⟩
    | some chk =>
      have hmain : started (input_body env o i t st).2.2 = []
          ∧ (input_body env o i t st).2.1.stream_id_check = chk
          ∧ ((input_body env o i t st).1 = Flow.next
            ∨ (input_body env o i t st).1 = Flow.shutdown Reason.peer_setup_failed) := by
        unfold input_body
        simp only [hp, hk, hc, ne_eq, not_true_eq_false, if_false]
        have hnpd : started (if o.npd = true then
            [Event.log LogLevel.INFO, Event.sender_npd_enable (rist_ctx.sender i)]
              ++ (if ¬ env.rist_sender_npd_enable i = 0 then [Event.log LogLevel.ERROR] else [])
            else []) = [] := by
          split
          · split <;> rfl
          · rfl
        split
        · refine ⟨?_, rfl, Or.inr rfl⟩
          simp only [started_append, started_output_loop, hnpd, List.append_nil]
          rfl
        · split
          · refine ⟨?_, (rist_input_spec _ _ _ _ _ _).2.1, Or.inl (rist_input_spec _ _ _ _ _ _).1⟩
            simp only [started_append, started_output_loop, hnpd, List.append_nil,
              (rist_input_spec _ _ _ _ _ _).2.2]
            rfl
          · refine ⟨?_, (udp_input_spec _ _ _ _).2.1, Or.inl (udp_input_spec _ _ _ _).1⟩
            simp only [started_append, started_output_loop, hnpd, List.append_nil,
              (udp_input_spec _ _ _ _).2.2]
            rfl
      refine ⟨hmain.1, (fun h => by cases h), ?_⟩
      intro cfg1 h1
      cases h1
      refine ⟨(fun h => by rw [hk] at h; cases h), ?_⟩
      intro chk1 h1
      rw [hk] at h1
      cases h1
      exact hmain.2

theorem check_stream_id_cells (s : uint16_t) (seen : List uint16_t) (k : Nat) :
    check_stream_id s (check_cells seen k) =
      if s ∈ seen then none
      else if k = 0 then some (check_cells seen 0)
      else some (check_cells (seen ++ [s]) (k - 1)) := by
  induction seen with
  | nil =>
    cases k with
    | zero => rfl
    | succ k =>
      simp [check_cells, check_stream_id, List.replicate_succ]
  | cons t seen ih =>
    have hcons : ∀ (l : List uint16_t) (m : Nat),
        check_cells (t :: l) m = (t.val : Int) :: check_cells l m := fun _ _ => rfl
    rw [hcons]
    unfold check_stream_id
    have h1 : ¬ ((t.val : Int) = -1) := by omega
    have h2 : (t.val : Int) % 65536 = (t.val : Int) := by
      have := t.isLt
      omega
    rw [if_neg h1, h2]
    by_cases hts : t = s
    · subst hts
      simp
    · have h3 : ¬ ((t.val : Int) = (s.val : Int)) := by
        intro h
        apply hts
        apply Fin.ext
        exact_mod_cast h
      have h4 : ¬ (s = t) := fun h => hts h.symm
      rw [if_neg h3, ih]
      by_cases hs : s ∈ seen
      · simp [hs]
      · by_cases hk0 : k = 0
        · simp [hs, h4, hk0, hcons]
        · simp [hs, h4, hk0, hcons]

theorem input_loop_cons_next (env : Env) (o : Options) (i : Nat) (t : List Char)
    (rest : List (List Char)) (st : MainState) (hi : i < MAX_INPUT_COUNT)
    (hb : (input_body env o i t st).1 = Flow.next) :
    main_input_loop env o i (t :: rest) st =
      ((main_input_loop env o (i + 1) rest (input_body env o i t st).2.1).1,
        (main_input_loop env o (i + 1) rest (input_body env o i t st).2.1).2.1,
        (input_body env o i t st).2.2
          ++ (main_input_loop env o (i + 1) rest (input_body env o i t st).2.1).2.2) := by
  rw [main_input_loop]
  simp only [if_pos hi, hb]

theorem input_loop_cons_stop (env : Env) (o : Options) (i : Nat) (t : List Char)
    (rest : List (List Char)) (st : MainState) (r : Reason) (hi : i < MAX_INPUT_COUNT)
    (hb : (input_body env o i t st).1 = Flow.shutdown r) :
    main_input_loop env o i (t :: rest) st =
      (Flow.shutdown r, (input_body env o i t st).2.1, (input_body env o i t st).2.2) := by
  rw [main_input_loop]
  simp only [if_pos hi, hb]

theorem input_loop_spec (env : Env) (o : Options) (hc : ∀ i, env.rist_sender_create i = 0) :
    ∀ (tokens : List (List Char)) (i : Nat) (st : MainState) (seen : List uint16_t) (k : Nat),
      st.stream_id_check = check_cells seen k → seen.Nodup → tokens.length ≤ k →
      i + tokens.length ≤ MAX_INPUT_COUNT →
      started (main_input_loop env o i tokens st).2.2 = []
      ∧ ((main_input_loop env o i tokens st).1 = Flow.next
        ∨ (main_input_loop env o i tokens st).1 = Flow.shutdown Reason.dup_stream_id
        ∨ (main_input_loop env o i tokens st).1 = Flow.shutdown Reason.peer_setup_failed)
      ∧ ((main_input_loop env o i tokens st).1 = Flow.shutdown Reason.dup_stream_id →
        ¬ (seen ++ parsed_stream_ids env tokens).Nodup)
      ∧ (¬ (seen ++ parsed_stream_ids env tokens).Nodup →
        (main_input_loop env o i tokens st).1 = Flow.shutdown Reason.dup_stream_id
        ∨ (main_input_loop env o i tokens st).1 = Flow.shutdown Reason.peer_setup_failed)
      ∧ ((seen ++ parsed_stream_ids env tokens).Nodup →
        (main_input_loop env o i tokens st).1 = Flow.next →
        (main_input_loop env o i tokens st).2.1.stream_id_check
          = check_cells (seen ++ parsed_stream_ids env tokens)
              (k - (parsed_stream_ids env tokens).length)) := by
  intro tokens
  induction tokens with
  | nil =>
    intro i st seen k hst hnd _ _
    have hv : main_input_loop env o i [] st = (Flow.next, st, []) := by
      rw [main_input_loop]
    have hs : parsed_stream_ids env [] = [] := rfl
    rw [hv, hs]
    refine ⟨rfl, Or.inl rfl, (fun h => by cases h), (fun h => absurd ?_ h), (fun _ _ => ?_)⟩
    · rw [List.append_nil]
      exact hnd
    · rw [List.append_nil]
      exact hst
  | cons t rest ih =>
    intro i st seen k hst hnd hk hi
    simp only [List.length_cons] at hk hi
    have hi1 : i < MAX_INPUT_COUNT := by omega
    obtain ⟨hstart, hnone, hsome⟩ := input_body_spec env o i t st (hc i)
    cases hp : env.rist_parse_udp_address t with
    | none =>
      obtain ⟨hb1, hb2⟩ := hnone hp
      have hs : parsed_stream_ids env (t :: rest) = parsed_stream_ids env rest := by
        simp [parsed_stream_ids, hp]
      rw [input_loop_cons_next env o i t rest st hi1 hb1, hs]
      have := ih (i + 1) (input_body env o i t st).2.1 seen k (by rw [hb2, hst]) hnd
        (by omega) (by omega)
      obtain ⟨a1, a2, a3, a4, a5⟩ := this
      refine ⟨?_, a2, a3, a4, a5⟩
      rw [started_append, hstart, a1]
      rfl
    | some cfg =>
      obtain ⟨hdup, hok⟩ := hsome cfg hp
      have hs : parsed_stream_ids env (t :: rest)
          = cfg.stream_id :: parsed_stream_ids env rest := by
        simp [parsed_stream_ids, hp]
      have hcells := check_stream_id_cells cfg.stream_id seen k
      rw [← hst] at hcells
      by_cases hmem : cfg.stream_id ∈ seen
      · rw [if_pos hmem] at hcells
        have hb := hdup hcells
        rw [input_loop_cons_stop env o i t rest st _ hi1 hb, hs]
        have hnn : ¬ (seen ++ cfg.stream_id :: parsed_stream_ids env rest).Nodup := by
          intro h
          rw [List.nodup_append] at h
          exact h.2.2 hmem (List.mem_cons_self _ _)
        exact ⟨hstart, Or.inr (Or.inl rfl), fun _ => hnn, fun _ => Or.inl rfl,
          fun h => absurd h hnn⟩
      · have hk0 : ¬ (k = 0) := by omega
        rw [if_neg hmem, if_neg hk0] at hcells
        obtain ⟨hb2, hb1⟩ := hok _ hcells
        rcases hb1 with hb1 | hb1
        · have hnd1 : (seen ++ [cfg.stream_id]).Nodup := by
            rw [List.nodup_append]
            refine ⟨hnd, List.nodup_singleton _, ?_⟩
            intro a ha hb
            rw [List.mem_singleton] at hb
            subst hb
            exact hmem ha
          have := ih (i + 1) (input_body env o i t st).2.1 (seen ++ [cfg.stream_id]) (k - 1)
            hb2 hnd1 (by omega) (by omega)
          rw [List.append_assoc, List.singleton_append] at this
          obtain ⟨a1, a2, a3, a4, a5⟩ := this
          rw [input_loop_cons_next env o i t rest st hi1 hb1, hs]
          refine ⟨?_, a2, a3, a4, ?_⟩
          · rw [started_append, hstart, a1]
            rfl
          · intro h1 h2
            rw [a5 h1 h2]
            congr 1
            simp only [List.length_cons]
            omega
        · rw [input_loop_cons_stop env o i t rest st _ hi1 hb1, hs]
          refine ⟨hstart, Or.inr (Or.inr rfl), (fun h => by cases h), fun _ => Or.inr rfl,
            (fun _ h => by cases h)⟩

/-! ## The whole of `main` -/

theorem start_loop_reason (env : Env) :
    ∀ (cbs : List rist_callback_object) (i : Nat) (r : Reason),
      (start_loop env i cbs).1 = some r →
      r = Reason.sender_start_failed ∨ r = Reason.receiver_start_failed
        ∨ r = Reason.receiver_thread_failed := by
  intro cbs
  induction cbs with
  | nil =>
    intro i r h
    rw [start_loop] at h
    cases h
  | cons cb rest ih =>
    intro i r h
    rw [start_loop] at h
    dsimp only at h
    split at h
    · cases h
      exact Or.inl rfl
    · split at h
      · cases h
        exact Or.inr (Or.inl rfl)
      · split at h
        · cases h
          exact Or.inr (Or.inr rfl)
        · exact ih (i + 1) r h

theorem run_of_shutdown (env : Env) (o : Options) (tokens : List (List Char))
    (outputurl : List Char) (r : Reason)
    (h : (main_input_loop env o 0 tokens (init_state outputurl)).1 = Flow.shutdown r) :
    (run env o tokens outputurl).reason = r
    ∧ (run env o tokens outputurl).trace
      = (main_input_loop env o 0 tokens (init_state outputurl)).2.2
    ∧ (run env o tokens outputurl).stream_id_check
      = (main_input_loop env o 0 tokens (init_state outputurl)).2.1.stream_id_check
    ∧ (run env o tokens outputurl).outcome
      = (shutdown o (main_input_loop env o 0 tokens (init_state outputurl)).2.1
          (thread_cells_skipped env) env.sigint).1 := by
  unfold run
  simp [h]

theorem run_of_next (env : Env) (o : Options) (tokens : List (List Char))
    (outputurl : List Char)
    (h : (main_input_loop env o 0 tokens (init_state outputurl)).1 = Flow.next
      ∨ (main_input_loop env o 0 tokens (init_state outputurl)).1 = Flow.brk) :
    (run env o tokens outputurl).reason ≠ Reason.exit_called
    ∧ (run env o tokens outputurl).reason ≠ Reason.dup_stream_id
    ∧ (run env o tokens outputurl).reason ≠ Reason.peer_setup_failed
    ∧ (run env o tokens outputurl).stream_id_check
      = (main_input_loop env o 0 tokens (init_state outputurl)).2.1.stream_id_check := by
  unfold run
  rcases h with h | h <;>
  · simp only [h]
    split
    · refine ⟨?_, ?_, ?_, rfl⟩ <;> intro hh <;> cases hh
    · split
      · refine ⟨?_, ?_, ?_, rfl⟩ <;> intro hh <;> cases hh
      · split
        · rename_i r hr
          have := start_loop_reason env _ _ r hr
          refine ⟨?_, ?_, ?_, rfl⟩ <;> intro hh <;> dsimp only at hh <;> subst hh <;>
            simp at this
        · split
          · refine ⟨?_, ?_, ?_, rfl⟩ <;> intro hh <;> cases hh
          · refine ⟨?_, ?_, ?_, rfl⟩ <;> intro hh <;> cases hh

/-! ## Exit status -/

theorem option_step_error (env : Env) (o : Options) (c : Char) (optarg : List Char)
    (code : Int) (h : option_step env o c optarg = Except.error code) : code = 1 := by
  unfold option_step at h
  split at h
  · split at h <;> cases h
    rfl
  all_goals first
    | (cases h; done)
    | (cases h; rfl)
    | (split at h <;> cases h; rfl)

theorem parse_options_error (env : Env) :
    ∀ (args : List (Char × List Char)) (o : Options) (code : Int),
      parse_options env args o = Except.error code → code = 1 := by
  intro args
  induction args with
  | nil =>
    intro o code h
    rw [parse_options] at h
    cases h
  | cons a rest ih =>
    intro o code h
    obtain ⟨c, optarg⟩ := a
    rw [parse_options] at h
    cases hs : option_step env o c optarg with
    | error e =>
      rw [hs] at h
      cases h
      exact option_step_error env o c optarg _ hs
    | ok o1 =>
      rw [hs] at h
      exact ih o1 code h

theorem input_body_flow (env : Env) (o : Options) (i : Nat) (t : List Char) (st : MainState) :
    (input_body env o i t st).1 = Flow.next ∨ (input_body env o i t st).1 = Flow.brk
    ∨ (input_body env o i t st).1 = Flow.shutdown Reason.dup_stream_id
    ∨ (input_body env o i t st).1 = Flow.shutdown Reason.peer_setup_failed := by
  unfold input_body
  split
  · exact Or.inl rfl
  · split
    · exact Or.inr (Or.inr (Or.inl rfl))
    · dsimp only
      split
      · exact Or.inr (Or.inl rfl)
      · split
        · exact Or.inr (Or.inr (Or.inr rfl))
        · split
          · exact Or.inl (rist_input_spec _ _ _ _ _ _).1
          · exact Or.inl (udp_input_spec _ _ _ _).1

theorem input_loop_flow (env : Env) (o : Options) :
    ∀ (tokens : List (List Char)) (i : Nat) (st : MainState),
      (main_input_loop env o i tokens st).1 = Flow.next ∨ (main_input_loop env o i tokens st).1 = Flow.brk
      ∨ (main_input_loop env o i tokens st).1 = Flow.shutdown Reason.dup_stream_id
      ∨ (main_input_loop env o i tokens st).1 = Flow.shutdown Reason.peer_setup_failed := by
  intro tokens
  induction tokens with
  | nil =>
    intro i st
    rw [main_input_loop]
    exact Or.inl rfl
  | cons t rest ih =>
    intro i st
    rw [main_input_loop]
    split
    · dsimp only
      split
      · exact ih _ _
      · rename_i f hf
        rcases input_body_flow env o i t st with h | h | h | h
        · exact absurd h hf
        · exact Or.inr (Or.inl h)
        · exact Or.inr (Or.inr (Or.inl h))
        · exact Or.inr (Or.inr (Or.inr h))
    · exact Or.inl rfl

theorem setup_peer_none (mss : Nat)
    (parse : Option (List Char) → Option rist_peer_config)
    (lib : LibResults) (setup : rist_sender_args)
    (h : setup.stream_id.val % 2 = 1 ∨ parse setup.token = none) :
    (setup_rist_peer mss parse lib setup).peer = none := by
  cases hpeer : (setup_rist_peer mss parse lib setup).peer with
  | none => rfl
  | some p =>
    obtain ⟨c0, hp, ho⟩ := mem_created_configs_setup mss parse lib setup p.config
      (setup_peer_config mss parse lib setup p hpeer).2
    have hf := (process_overrides_fields mss setup c0 p.config ho).2.2.2.2.2.2.2.2.2
    rcases h with h | h
    · omega
    · rw [hp] at h
      cases h

theorem input_body_peer_fail (env : Env) (o : Options) (i : Nat) (t : List Char)
    (st : MainState) (cfg : rist_udp_config)
    (hp : env.rist_parse_udp_address t = some cfg)
    (hc : env.rist_sender_create i = 0)
    (h : cfg.stream_id.val % 2 = 1
      ∨ env.rist_parse_address ((strtok_r st.outputurl (some 0) [','] 0).token.map
          (c_str (strtok_r st.outputurl (some 0) [','] 0).buf)) = none) :
    (input_body env o i t st).1 = Flow.shutdown Reason.dup_stream_id
    ∨ (input_body env o i t st).1 = Flow.shutdown Reason.peer_setup_failed := by
  cases hk : check_stream_id cfg.stream_id st.stream_id_check with
  | none =>
    exact Or.inl (((input_body_spec env o i t st hc).2.2 cfg hp).1 hk)
  | some chk =>
    right
    have hout : (output_loop env (base_peer_args o (rist_ctx.sender i) cfg.stream_id) i
        MAX_OUTPUT_COUNT 0 (strtok_r st.outputurl (some 0) [','] 0).token
        (strtok_r st.outputurl (some 0) [','] 0).buf
        (strtok_r st.outputurl (some 0) [','] 0).save_ptr).1 = true := by
      show (output_loop env (base_peer_args o (rist_ctx.sender i) cfg.stream_id) i
        (9 + 1) 0 _ _ _).1 = true
      rw [output_loop]
      dsimp only
      rw [setup_peer_none]
      exact h
    unfold input_body
    simp only [hp, hk, hc, ne_eq, not_true_eq_false, if_false, hout, if_true]

theorem setup_peer_some (mss : Nat)
    (parse : Option (List Char) → Option rist_peer_config)
    (lib : LibResults) (setup : rist_sender_args) (c0 : rist_peer_config)
    (hlib : lib_succeeds lib) (hparse : parse setup.token = some c0)
    (heven : setup.stream_id.val % 2 = 0) :
    ∃ p, (setup_rist_peer mss parse lib setup).peer = some p := by
  obtain ⟨h1, h2, h3, h4, h5⟩ := hlib
  have hov : ∃ c, override_stream_id setup
      (override_buffer setup (override_secret mss setup c0)) = some c := by
    unfold override_stream_id
    by_cases h0 : setup.stream_id.val = 0
    · rw [if_neg (fun h => h h0)]
      exact ⟨_, rfl⟩
    · rw [if_pos h0, if_neg (fun h => h heven)]
      exact ⟨_, rfl⟩
  obtain ⟨c, hc⟩ := hov
  unfold setup_rist_peer
  simp [h1, h2, h3, h4, h5, hparse, hc]

theorem output_loop_ok (env : Env) (peer_args : rist_sender_args) (i : Nat)
    (hlib : ∀ j, lib_succeeds (env.sender_peer_lib i j))
    (hparse : ∀ token, env.rist_parse_address token ≠ none)
    (heven : peer_args.stream_id.val % 2 = 0) :
    ∀ (fuel j : Nat) (outputtoken : Option Nat) (outputurl : List Char) (saveptroutput : Nat),
      (output_loop env peer_args i fuel j outputtoken outputurl saveptroutput).1 = false := by
  intro fuel
  induction fuel with
  | zero =>
    intro j tok buf save
    rfl
  | succ fuel ih =>
    intro j tok buf save
    rw [output_loop]
    dsimp only
    cases hp : env.rist_parse_address (tok.map (c_str buf)) with
    | none => exact absurd hp (hparse _)
    | some c0 =>
      obtain ⟨p, hpeer⟩ := setup_peer_some env.max_string_short env.rist_parse_address
        (env.sender_peer_lib i j) { peer_args with token := tok.map (c_str buf) } c0
        (hlib j) hp heven
      simp only [hpeer]
      split
      · rfl
      · exact ih _ _ _ _

theorem input_body_no_peer_fail (env : Env) (o : Options) (i : Nat) (t : List Char)
    (st : MainState)
    (hlib : ∀ j, lib_succeeds (env.sender_peer_lib i j))
    (hparse : ∀ token, env.rist_parse_address token ≠ none)
    (heven : ∀ cfg, env.rist_parse_udp_address t = some cfg → cfg.stream_id.val % 2 = 0) :
    (input_body env o i t st).1 ≠ Flow.shutdown Reason.peer_setup_failed := by
  unfold input_body
  split
  · intro h
    cases h
  · rename_i cfg hcfg
    split
    · intro h
      cases h
    · dsimp only
      split
      · intro h
        cases h
      · have hout := output_loop_ok env (base_peer_args o (rist_ctx.sender i) cfg.stream_id) i
          hlib hparse (heven cfg hcfg) MAX_OUTPUT_COUNT 0
          (strtok_r st.outputurl (some 0) [','] 0).token
          (strtok_r st.outputurl (some 0) [','] 0).buf
          (strtok_r st.outputurl (some 0) [','] 0).save_ptr
        split
        · rename_i hb
          rw [hout] at hb
          cases hb
        · split
          · rw [(rist_input_spec _ _ _ _ _ _).1]
            intro h
            cases h
          · rw [(udp_input_spec _ _ _ _).1]
            intro h
            cases h

theorem parsed_stream_ids_cons (env : Env) (t : List Char) (rest : List (List Char)) :
    (∀ s ∈ parsed_stream_ids env rest, s ∈ parsed_stream_ids env (t :: rest))
    ∧ (∀ cfg, env.rist_parse_udp_address t = some cfg →
        cfg.stream_id ∈ parsed_stream_ids env (t :: rest)) := by
  constructor
  · intro s hs
    cases hp : env.rist_parse_udp_address t <;> simp [parsed_stream_ids, hp] at hs ⊢
    · exact hs
    · exact Or.inr hs
  · intro cfg hp
    simp [parsed_stream_ids, hp]

theorem input_loop_no_peer_fail (env : Env) (o : Options)
    (hlib : ∀ i j, lib_succeeds (env.sender_peer_lib i j))
    (hparse : ∀ token, env.rist_parse_address token ≠ none) :
    ∀ (tokens : List (List Char)) (i : Nat) (st : MainState),
      (∀ s ∈ parsed_stream_ids env tokens, s.val % 2 = 0) →
      (main_input_loop env o i tokens st).1 ≠ Flow.shutdown Reason.peer_setup_failed := by
  intro tokens
  induction tokens with
  | nil =>
    intro i st _
    rw [main_input_loop]
    intro h
    cases h
  | cons t rest ih =>
    intro i st heven
    have hbody := input_body_no_peer_fail env o i t st (hlib i) hparse
      (fun cfg hcfg => heven _ ((parsed_stream_ids_cons env t rest).2 cfg hcfg))
    have hrest : ∀ s ∈ parsed_stream_ids env rest, s.val % 2 = 0 :=
      fun s hs => heven s ((parsed_stream_ids_cons env t rest).1 s hs)
    rw [main_input_loop]
    split
    · dsimp only
      split
      · exact ih _ _ hrest
      · exact hbody
    · intro h
      cases h

/-! ## The duplicate stream-id check -/

/-- C1 as stated fails in both directions. In the sample environment the
single input with stream-id 3 has no repeated stream-id, and yet the
configuration is rejected: the peer set-up fails on the odd stream-id,
control goes to label `shutdown` and `rist_start` is never called. And when
`rist_sender_create` fails for slot 1, the inputs with stream-ids 2, 4, 2
contain a repeat, and yet the input loop breaks off before the repeat is
looked at and `rist_start` is called on the sender context of slot 0. -/
theorem duplicate_stream_id_counterexample :
    (parsed_stream_ids sample_env ["udp://127.0.0.1:5003?stream-id=3".toList] = [3]
      ∧ (parsed_stream_ids sample_env ["udp://127.0.0.1:5003?stream-id=3".toList]).Nodup
      ∧ (run sample_env {} ["udp://127.0.0.1:5003?stream-id=3".toList] sample_outputurl).reason
        = Reason.peer_setup_failed
      ∧ started (run sample_env {} ["udp://127.0.0.1:5003?stream-id=3".toList]
          sample_outputurl).trace = [])
    ∧ (parsed_stream_ids sample_env_create_fails
          ["udp://127.0.0.1:5002?stream-id=2".toList, "udp://127.0.0.1:5004?stream-id=4".toList,
           "udp://127.0.0.1:5002?stream-id=2".toList] = [2, 4, 2]
      ∧ ¬ (parsed_stream_ids sample_env_create_fails
          ["udp://127.0.0.1:5002?stream-id=2".toList, "udp://127.0.0.1:5004?stream-id=4".toList,
           "udp://127.0.0.1:5002?stream-id=2".toList]).Nodup
      ∧ (run sample_env_create_fails {}
          ["udp://127.0.0.1:5002?stream-id=2".toList, "udp://127.0.0.1:5004?stream-id=4".toList,
           "udp://127.0.0.1:5002?stream-id=2".toList] sample_outputurl).reason
        = Reason.pause_returned
      ∧ started (run sample_env_create_fails {}
          ["udp://127.0.0.1:5002?stream-id=2".toList, "udp://127.0.0.1:5004?stream-id=4".toList,
           "udp://127.0.0.1:5002?stream-id=2".toList] sample_outputurl).trace
        = [rist_ctx.sender 0]) := by
  refine ⟨⟨by decide, by decide, by decide, by decide⟩,
    ⟨by decide, by decide, by decide, by decide⟩⟩

/-- C1 amended: in `main` of ristsender, for at most `MAX_INPUT_COUNT` input
tokens, with the stream-ids of the successfully parsed inputs taken in input
order, and provided `rist_sender_create` succeeds for every slot:
* if some stream-id repeats an earlier one, the configuration is rejected:
  the input loop ends in a `goto shutdown` and `rist_start` is never called;
* the `goto shutdown` of the duplicate check is taken only if some stream-id
  repeats an earlier one;
* if moreover every peer set-up succeeds (all stream-ids are even, the
  library calls of `setup_rist_peer` on the sender contexts succeed and
  `rist_parse_address` rejects no token), the duplicate check rejects the
  configuration exactly when some stream-id repeats an earlier one, and when
  all are distinct the input loop runs through all inputs and
  `stream_id_check` holds the stream-ids in input order, followed by -1. -/
theorem duplicate_stream_id_rejected (env : Env) (o : Options) (tokens : List (List Char))
    (outputurl : List Char)
    (hlen : tokens.length ≤ MAX_INPUT_COUNT)
    (hcreate : ∀ i, env.rist_sender_create i = 0) :
    (¬ (parsed_stream_ids env tokens).Nodup →
      started (run env o tokens outputurl).trace = []
      ∧ ∃ r, (main_input_loop env o 0 tokens (init_state outputurl)).1 = Flow.shutdown r)
    ∧ ((run env o tokens outputurl).reason = Reason.dup_stream_id →
      ¬ (parsed_stream_ids env tokens).Nodup)
    ∧ ((∀ s ∈ parsed_stream_ids env tokens, s.val % 2 = 0) →
      (∀ i j, lib_succeeds (env.sender_peer_lib i j)) →
      (∀ token, env.rist_parse_address token ≠ none) →
      ((run env o tokens outputurl).reason = Reason.dup_stream_id
        ↔ ¬ (parsed_stream_ids env tokens).Nodup)
      ∧ (¬ (parsed_stream_ids env tokens).Nodup →
        started (run env o tokens outputurl).trace = [])
      ∧ ((parsed_stream_ids env tokens).Nodup →
        (main_input_loop env o 0 tokens (init_state outputurl)).1 = Flow.next
        ∧ (run env o tokens outputurl).stream_id_check
          = check_cells (parsed_stream_ids env tokens)
              (MAX_INPUT_COUNT - (parsed_stream_ids env tokens).length))) := by
  have hinit : (init_state outputurl).stream_id_check = check_cells [] MAX_INPUT_COUNT := rfl
  obtain ⟨a1, a2, a3, a4, a5⟩ := input_loop_spec env o hcreate tokens 0 (init_state outputurl)
    [] MAX_INPUT_COUNT hinit List.nodup_nil hlen (by omega)
  rw [List.nil_append] at a3 a4 a5
  have hcase : ∀ r, (main_input_loop env o 0 tokens (init_state outputurl)).1 = Flow.shutdown r →
      (run env o tokens outputurl).reason = r
      ∧ started (run env o tokens outputurl).trace = [] := by
    intro r hr
    obtain ⟨h1, h2, _, _⟩ := run_of_shutdown env o tokens outputurl r hr
    rw [h1, h2]
    exact ⟨rfl, a1⟩
  have hdup : (run env o tokens outputurl).reason = Reason.dup_stream_id →
      (main_input_loop env o 0 tokens (init_state outputurl)).1
        = Flow.shutdown Reason.dup_stream_id := by
    intro h
    rcases a2 with h2 | h2 | h2
    · exact absurd h (run_of_next env o tokens outputurl (Or.inl h2)).2.1
    · exact h2
    · rw [(hcase _ h2).1] at h
      cases h
  have hfwd : ¬ (parsed_stream_ids env tokens).Nodup →
      started (run env o tokens outputurl).trace = []
      ∧ ∃ r, (main_input_loop env o 0 tokens (init_state outputurl)).1 = Flow.shutdown r := by
    intro hn
    rcases a4 hn with h | h
    · exact ⟨(hcase _ h).2, _, h⟩
    · exact ⟨(hcase _ h).2, _, h⟩
  refine ⟨hfwd, fun h => a3 (hdup h), ?_⟩
  intro heven hlib hparse
  have hnp := input_loop_no_peer_fail env o hlib hparse tokens 0 (init_state outputurl) heven
  refine ⟨⟨fun h => a3 (hdup h), ?_⟩, fun hn => (hfwd hn).1, ?_⟩
  · intro hn
    rcases a4 hn with h | h
    · exact (hcase _ h).1
    · exact absurd h hnp
  · intro hnd
    rcases a2 with h2 | h2 | h2
    · exact ⟨h2, by
        rw [(run_of_next env o tokens outputurl (Or.inl h2)).2.2.2]
        exact a5 hnd h2⟩
    · exact absurd hnd (a3 h2)
    · exact absurd h2 hnp

/-- Witness for the amended C1, in the sample environment whose
`rist_parse_address` accepts every token: two inputs that both parse with
stream-id 0 are rejected by the duplicate check and nothing is started; the
inputs with stream-ids 2 and 4 pass it and leave 2, 4 and eight times -1 in
`stream_id_check`. -/
theorem duplicate_stream_id_rejected_witness :
    (["udp://127.0.0.1:5000".toList, "udp://127.0.0.1:5001".toList] : List (List Char)).length
      ≤ MAX_INPUT_COUNT
    ∧ (∀ i, sample_env_any_output.rist_sender_create i = 0)
    ∧ parsed_stream_ids sample_env_any_output
        ["udp://127.0.0.1:5000".toList, "udp://127.0.0.1:5001".toList] = [0, 0]
    ∧ (run sample_env_any_output {} ["udp://127.0.0.1:5000".toList, "udp://127.0.0.1:5001".toList]
        sample_outputurl).reason = Reason.dup_stream_id
    ∧ started (run sample_env_any_output {}
        ["udp://127.0.0.1:5000".toList, "udp://127.0.0.1:5001".toList]
        sample_outputurl).trace = []
    ∧ (run sample_env_any_output {} ["udp://127.0.0.1:5002?stream-id=2".toList,
        "udp://127.0.0.1:5004?stream-id=4".toList] sample_outputurl).stream_id_check
      = [2, 4, -1, -1, -1, -1, -1, -1, -1, -1] := by
  have hids : parsed_stream_ids sample_env_any_output
      ["udp://127.0.0.1:5000".toList, "udp://127.0.0.1:5001".toList] = [0, 0] := by decide
  have hids2 : parsed_stream_ids sample_env_any_output
      ["udp://127.0.0.1:5002?stream-id=2".toList, "udp://127.0.0.1:5004?stream-id=4".toList]
      = [2, 4] := by decide
  have hlib : ∀ i j : Nat, lib_succeeds (sample_env_any_output.sender_peer_lib i j) := by
    intro i j
    show lib_succeeds lib_ok
    unfold lib_succeeds
    decide
  have hn : ¬ (parsed_stream_ids sample_env_any_output
      ["udp://127.0.0.1:5000".toList, "udp://127.0.0.1:5001".toList]).Nodup := by decide
  have h := (duplicate_stream_id_rejected sample_env_any_output {}
    ["udp://127.0.0.1:5000".toList, "udp://127.0.0.1:5001".toList] sample_outputurl
    (by decide) (fun _ => rfl)).2.2
    (by
      intro s hs
      rw [hids] at hs
      simp only [List.mem_cons, List.mem_singleton, List.mem_nil_iff, or_false, or_self] at hs
      subst hs
      rfl)
    hlib (fun _ h => by cases h)
  have h2 := (duplicate_stream_id_rejected sample_env_any_output {}
    ["udp://127.0.0.1:5002?stream-id=2".toList, "udp://127.0.0.1:5004?stream-id=4".toList]
    sample_outputurl (by decide) (fun _ => rfl)).2.2
    (by
      intro s hs
      rw [hids2] at hs
      simp only [List.mem_cons, List.mem_singleton, List.mem_nil_iff, or_false] at hs
      rcases hs with rfl | rfl <;> rfl)
    hlib (fun _ h => by cases h)
  refine ⟨by decide, fun _ => rfl, hids, h.1.mpr hn, h.2.1 hn, ?_⟩
  rw [(h2.2.2 (by decide)).2]
  decide

/-! ## The clean-up after label `shutdown` and the way `main` ends -/

theorem join_loop_cases (sig : Bool) :
    ∀ cells : List thread_cell,
      (join_loop sig cells).1 = none ∨ (join_loop sig cells).1 = some Outcome.blocked
        ∨ (join_loop sig cells).1 = some Outcome.join_invalid := by
  intro cells
  induction cells with
  | nil => exact Or.inl rfl
  | cons c rest ih =>
    cases c with
    | zero =>
      rw [join_loop]
      exact ih
    | handle slot =>
      rw [join_loop]
      split
      · exact ih
      · exact Or.inr (Or.inl rfl)
    | indeterminate value =>
      rw [join_loop]
      split
      · exact ih
      · exact Or.inr (Or.inr rfl)

/-- The join loop runs to its end when every cell that does not hold a handle
holds 0 and, unless the signal has been received, no cell holds a handle. -/
theorem join_loop_none (sig : Bool) :
    ∀ cells : List thread_cell,
      (sig = true ∨ ∀ s, thread_cell.handle s ∉ cells) →
      (∀ v, thread_cell.indeterminate v ∈ cells → v = 0) →
      (join_loop sig cells).1 = none := by
  intro cells
  induction cells with
  | nil =>
    intro _ _
    rfl
  | cons c rest ih =>
    intro hs hv
    have hs2 : sig = true ∨ ∀ s, thread_cell.handle s ∉ rest := by
      rcases hs with hs | hs
      · exact Or.inl hs
      · exact Or.inr (fun s hm => hs s (List.mem_cons_of_mem _ hm))
    have hv2 : ∀ v, thread_cell.indeterminate v ∈ rest → v = 0 :=
      fun v hm => hv v (List.mem_cons_of_mem _ hm)
    cases c with
    | zero =>
      rw [join_loop]
      exact ih hs2 hv2
    | handle slot =>
      rw [join_loop]
      rcases hs with hs | hs
      · rw [if_pos hs]
        exact ih hs2 hv2
      · exact absurd (List.mem_cons_self _ _) (hs slot)
    | indeterminate value =>
      rw [join_loop, if_pos (hv value (List.mem_cons_self _ _))]
      exact ih hs2 hv2

/-- The join loop calls `pthread_join` on a value that is not a handle when no
cell holds a handle and some cell holds a non-zero value. -/
theorem join_loop_garbage (sig : Bool) :
    ∀ cells : List thread_cell,
      (∀ s, thread_cell.handle s ∉ cells) →
      (∃ v, thread_cell.indeterminate v ∈ cells ∧ v ≠ 0) →
      (join_loop sig cells).1 = some Outcome.join_invalid := by
  intro cells
  induction cells with
  | nil =>
    intro _ h
    obtain ⟨v, hm, _⟩ := h
    cases hm
  | cons c rest ih =>
    intro hs hv
    have hs2 : ∀ s, thread_cell.handle s ∉ rest :=
      fun s hm => hs s (List.mem_cons_of_mem _ hm)
    obtain ⟨v, hm, hne⟩ := hv
    cases c with
    | zero =>
      rw [join_loop]
      rcases List.mem_cons.mp hm with h | h
      · cases h
      · exact ih hs2 ⟨v, h, hne⟩
    | handle slot => exact absurd (List.mem_cons_self _ _) (hs slot)
    | indeterminate value =>
      rw [join_loop]
      by_cases h0 : value = 0
      · rw [if_pos h0]
        rcases List.mem_cons.mp hm with h | h
        · cases h
          exact absurd h0 hne
        · exact ih hs2 ⟨v, h, hne⟩
      · rw [if_neg h0]

/-- Without a signal the join loop does not run to its end when some cell
holds a handle. -/
theorem join_loop_handle :
    ∀ cells : List thread_cell,
      (∃ s, thread_cell.handle s ∈ cells) → (join_loop false cells).1 ≠ none := by
  intro cells
  induction cells with
  | nil =>
    intro h
    obtain ⟨s, hm⟩ := h
    cases hm
  | cons c rest ih =>
    intro h
    obtain ⟨s, hm⟩ := h
    cases c with
    | zero =>
      rw [join_loop]
      rcases List.mem_cons.mp hm with h | h
      · cases h
      · exact ih ⟨s, h⟩
    | handle slot =>
      rw [join_loop]
      simp
    | indeterminate value =>
      rw [join_loop]
      by_cases h0 : value = 0
      · rw [if_pos h0]
        rcases List.mem_cons.mp hm with h | h
        · cases h
        · exact ih ⟨s, h⟩
      · rw [if_neg h0]
        simp

theorem shutdown_fst (o : Options) (st : MainState) (cells : List thread_cell) (sig : Bool) :
    (shutdown o st cells sig).1 = ((join_loop sig cells).1).getD (Outcome.returned 0) := by
  unfold shutdown
  cases h : (join_loop sig cells).1 <;> simp [h]

theorem mem_thread_cells_skipped (env : Env) (c : thread_cell) :
    c ∈ thread_cells_skipped env ↔
      ∃ i, i < MAX_INPUT_COUNT + 1 ∧ c = thread_cell.indeterminate (env.thread_garbage i) := by
  unfold thread_cells_skipped
  rw [List.mem_map]
  constructor
  · rintro ⟨i, hi, rfl⟩
    exact ⟨i, List.mem_range.mp hi, rfl⟩
  · rintro ⟨i, hi, rfl⟩
    exact ⟨i, List.mem_range.mpr hi, rfl⟩

/-- The join loop on the array whose initialiser was jumped over: it runs to
its end when all cells happen to hold 0, and calls `pthread_join` on a value
that is not a handle otherwise. -/
theorem join_loop_skipped (env : Env) (sig : Bool) :
    ((∀ i, i ≤ MAX_INPUT_COUNT → env.thread_garbage i = 0) →
      (join_loop sig (thread_cells_skipped env)).1 = none)
    ∧ ((∃ i, i ≤ MAX_INPUT_COUNT ∧ env.thread_garbage i ≠ 0) →
      (join_loop sig (thread_cells_skipped env)).1 = some Outcome.join_invalid) := by
  have hno : ∀ s, thread_cell.handle s ∉ thread_cells_skipped env := by
    intro s hm
    obtain ⟨i, _, h⟩ := (mem_thread_cells_skipped env _).mp hm
    cases h
  constructor
  · intro h0
    apply join_loop_none sig _ (Or.inr hno)
    intro v hm
    obtain ⟨i, hi, h⟩ := (mem_thread_cells_skipped env _).mp hm
    cases h
    exact h0 i (Nat.le_of_lt_succ hi)
  · rintro ⟨i, hi, hne⟩
    exact join_loop_garbage sig _ hno
      ⟨_, (mem_thread_cells_skipped env _).mpr ⟨i, Nat.lt_succ_of_le hi, rfl⟩, hne⟩

theorem mem_thread_cells_after (env : Env) (trace : List Event) (c : thread_cell) :
    c ∈ thread_cells_after env trace ↔
      ∃ i, i < MAX_INPUT_COUNT + 1 ∧ c = thread_cell_of env trace i := by
  unfold thread_cells_after
  rw [List.mem_map]
  constructor
  · rintro ⟨i, hi, rfl⟩
    exact ⟨i, List.mem_range.mp hi, rfl⟩
  · rintro ⟨i, hi, rfl⟩
    exact ⟨i, List.mem_range.mpr hi, rfl⟩

/-- A thread that was created in a slot of `thread_main_loop` leaves its
handle in the array. -/
theorem handle_mem_thread_cells_after (env : Env) (trace : List Event) (slot : Nat)
    (start : Callback) (arg : Nat) (hslot : slot ≤ MAX_INPUT_COUNT)
    (hev : Event.pthread_create slot start arg ∈ trace)
    (hok : env.pthread_create slot = 0) :
    thread_cell.handle slot ∈ thread_cells_after env trace := by
  rw [mem_thread_cells_after]
  refine ⟨slot, Nat.lt_succ_of_le hslot, ?_⟩
  unfold thread_cell_of
  have hany : trace.any (fun e =>
      match e with
      | Event.pthread_create s _ _ => s == slot
      | _ => false) = true := by
    rw [List.any_eq_true]
    exact ⟨_, hev, by simp⟩
  rw [if_pos hany, if_neg (fun h => h hok)]

/-- With all undefined values equal to 0, the array holds handles and
zeros. -/
theorem indeterminate_mem_thread_cells_after (env : Env) (trace : List Event) (v : Nat)
    (h0 : ∀ i, i ≤ MAX_INPUT_COUNT → env.thread_garbage i = 0)
    (hm : thread_cell.indeterminate v ∈ thread_cells_after env trace) : v = 0 := by
  obtain ⟨i, hi, h⟩ := (mem_thread_cells_after env trace _).mp hm
  unfold thread_cell_of at h
  split at h
  · split at h
    · cases h
      exact h0 i (Nat.le_of_lt_succ hi)
    · cases h
  · cases h

/-- The ways a run of `main` past option handling ends, by the stage at which
it stops doing work. -/
theorem run_cases (env : Env) (o : Options) (tokens : List (List Char))
    (outputurl : List Char) :
    (((run env o tokens outputurl).reason = Reason.dup_stream_id
        ∨ (run env o tokens outputurl).reason = Reason.peer_setup_failed
        ∨ (run env o tokens outputurl).reason = Reason.no_socket_opened)
      ∧ (run env o tokens outputurl).outcome
        = ((join_loop env.sigint (thread_cells_skipped env)).1).getD (Outcome.returned 0))
    ∨ (((run env o tokens outputurl).reason = Reason.udp_thread_failed
        ∨ (run env o tokens outputurl).reason = Reason.sender_start_failed
        ∨ (run env o tokens outputurl).reason = Reason.receiver_start_failed
        ∨ (run env o tokens outputurl).reason = Reason.receiver_thread_failed)
      ∧ (run env o tokens outputurl).outcome
        = ((join_loop env.sigint
            (thread_cells_after env (run env o tokens outputurl).trace)).1).getD
            (Outcome.returned 0))
    ∨ ((run env o tokens outputurl).reason = Reason.pause_returned
      ∧ (env.sigint = true →
        (run env o tokens outputurl).outcome
          = ((join_loop true
              (thread_cells_after env (run env o tokens outputurl).trace)).1).getD
              (Outcome.returned 0))
      ∧ (env.sigint = false → (run env o tokens outputurl).outcome = Outcome.blocked)) := by
  have hs := shutdown_fst o
  have hshut : ∀ r, (main_input_loop env o 0 tokens (init_state outputurl)).1
        = Flow.shutdown r → r = Reason.dup_stream_id ∨ r = Reason.peer_setup_failed →
      ((run env o tokens outputurl).reason = Reason.dup_stream_id
        ∨ (run env o tokens outputurl).reason = Reason.peer_setup_failed
        ∨ (run env o tokens outputurl).reason = Reason.no_socket_opened)
      ∧ (run env o tokens outputurl).outcome
        = ((join_loop env.sigint (thread_cells_skipped env)).1).getD (Outcome.returned 0) := by
    intro r h hr
    obtain ⟨h1, _, _, h4⟩ := run_of_shutdown env o tokens outputurl r h
    rw [h1, h4, hs]
    refine ⟨?_, rfl⟩
    rcases hr with hr | hr
    · exact Or.inl hr
    · exact Or.inr (Or.inl hr)
  rcases input_loop_flow env o tokens 0 (init_state outputurl) with h | h | h | h
  rotate_left 2
  · exact Or.inl (hshut _ h (Or.inl rfl))
  · exact Or.inl (hshut _ h (Or.inr rfl))
  all_goals
    unfold run
    simp only [h]
    split
    · exact Or.inl ⟨Or.inr (Or.inr rfl), hs _ _ _⟩
    · split
      · exact Or.inr (Or.inl ⟨Or.inl rfl, hs _ _ _⟩)
      · split
        · rename_i r hr
          refine Or.inr (Or.inl ⟨?_, hs _ _ _⟩)
          rcases start_loop_reason env _ _ r hr with h1 | h1 | h1
          · exact Or.inr (Or.inl h1)
          · exact Or.inr (Or.inr (Or.inl h1))
          · exact Or.inr (Or.inr (Or.inr h1))
        · refine Or.inr (Or.inr ?_)
          split
          · rename_i hsig
            exact ⟨rfl, fun _ => hs _ _ _, fun hh => by rw [hsig] at hh; cases hh⟩
          · rename_i hsig
            exact ⟨rfl, fun hh => absurd hh hsig, fun _ => rfl⟩

/-- A run of `main` past option handling does not end in `exit`; it returns
0, waits without end, or calls `pthread_join` on a value that is not a
handle. -/
theorem run_outcome (env : Env) (o : Options) (tokens : List (List Char))
    (outputurl : List Char) :
    (run env o tokens outputurl).reason ≠ Reason.exit_called
    ∧ ((run env o tokens outputurl).outcome = Outcome.returned 0
      ∨ (run env o tokens outputurl).outcome = Outcome.blocked
      ∨ (run env o tokens outputurl).outcome = Outcome.join_invalid) := by
  have hj : ∀ sig cells, ((join_loop sig cells).1).getD (Outcome.returned 0) = Outcome.returned 0
      ∨ ((join_loop sig cells).1).getD (Outcome.returned 0) = Outcome.blocked
      ∨ ((join_loop sig cells).1).getD (Outcome.returned 0) = Outcome.join_invalid := by
    intro sig cells
    rcases join_loop_cases sig cells with h | h | h <;> rw [h]
    · exact Or.inl rfl
    · exact Or.inr (Or.inl rfl)
    · exact Or.inr (Or.inr rfl)
  rcases run_cases env o tokens outputurl with ⟨hr, ho⟩ | ⟨hr, ho⟩ | ⟨hr, ho1, ho2⟩
  · refine ⟨?_, by rw [ho]; exact hj _ _⟩
    intro h
    rw [h] at hr
    rcases hr with hr | hr | hr <;> cases hr
  · refine ⟨?_, by rw [ho]; exact hj _ _⟩
    intro h
    rw [h] at hr
    rcases hr with hr | hr | hr | hr <;> cases hr
  · refine ⟨?_, ?_⟩
    · intro h
      rw [h] at hr
      cases hr
    · cases hsig : env.sigint with
      | true =>
        rw [ho1 hsig]
        exact hj _ _
      | false => exact Or.inr (Or.inl (ho2 hsig))

/-- The errors that `main` finds before the input loop: logging cannot be set
up, option parsing ends in `exit(1)` or `usage`, an input or output URL is
missing, or `argc < 2`. Then `main` ends in `exit(1)`; otherwise it goes on
to the input loop. -/
theorem main_cases (env : Env) (argc : Int) (args : List (Char × List Char)) :
    ((env.rist_logging_set RIST_LOG_INFO ≠ 0
        ∨ (∃ code, parse_options env args {} = Except.error code)
        ∨ ∃ o, parse_options env args {} = Except.ok o
            ∧ (o.inputurl = none ∨ o.outputurl = none ∨ argc < 2)) →
      main env argc args = exit_result 1)
    ∧ (¬ (env.rist_logging_set RIST_LOG_INFO ≠ 0
        ∨ (∃ code, parse_options env args {} = Except.error code)
        ∨ ∃ o, parse_options env args {} = Except.ok o
            ∧ (o.inputurl = none ∨ o.outputurl = none ∨ argc < 2)) →
      ∃ o tokens outputurl, main env argc args = run env o tokens outputurl) := by
  unfold main
  by_cases hl : env.rist_logging_set RIST_LOG_INFO ≠ 0
  · rw [if_pos hl]
    exact ⟨fun _ => rfl, fun h => absurd (Or.inl hl) h⟩
  rw [if_neg hl]
  cases hp : parse_options env args {} with
  | error code =>
    have hc := parse_options_error env args {} code hp
    subst hc
    exact ⟨fun _ => rfl, fun h => absurd (Or.inr (Or.inl ⟨1, rfl⟩)) h⟩
  | ok o =>
    dsimp only
    cases hi : o.inputurl with
    | none =>
      exact ⟨fun _ => rfl, fun h => absurd (Or.inr (Or.inr ⟨o, rfl, Or.inl hi⟩)) h⟩
    | some inputurl =>
      cases ho : o.outputurl with
      | none =>
        exact ⟨fun _ => rfl,
          fun h => absurd (Or.inr (Or.inr ⟨o, rfl, Or.inr (Or.inl ho)⟩)) h⟩
      | some outputurl =>
        dsimp only
        by_cases ha : argc < 2
        · rw [if_pos ha]
          exact ⟨fun _ => rfl,
            fun h => absurd (Or.inr (Or.inr ⟨o, rfl, Or.inr (Or.inr ha)⟩)) h⟩
        · rw [if_neg ha]
          refine ⟨?_, fun _ => ⟨_, _, _, rfl⟩⟩
          intro h
          rcases h with h | h | h
          · exact absurd h hl
          · obtain ⟨code, hc⟩ := h
            cases hc
          · obtain ⟨o2, h1, h2⟩ := h
            cases h1
            rcases h2 with h2 | h2 | h2
            · rw [hi] at h2
              cases h2
            · rw [ho] at h2
              cases h2
            · exact absurd h2 ha

/-! ## Exit status -/

/-- C4 as stated fails: in the sample environment, a command line with two
inputs of stream-id 0, one with an input of odd stream-id 3, and one whose
second output URL does not parse are each rejected inside the input loop;
control goes to label `shutdown` and `main` ends in `return 0`, not with
status 1. When the stack cells of the array `thread_main_loop`, whose
initialiser the `goto` jumps over, hold non-zero values, the run with the two
inputs of stream-id 0 ends in a `pthread_join` on such a value instead. -/
theorem exit_status_config_error_counterexample :
    ((main sample_env 5 (sample_command_line
        "udp://127.0.0.1:5000,udp://127.0.0.1:5001".toList
        "rist://192.168.1.2:1968".toList)).reason = Reason.dup_stream_id
      ∧ (main sample_env 5 (sample_command_line
        "udp://127.0.0.1:5000,udp://127.0.0.1:5001".toList
        "rist://192.168.1.2:1968".toList)).outcome = Outcome.returned 0)
    ∧ ((main sample_env 5 (sample_command_line
        "udp://127.0.0.1:5003?stream-id=3".toList
        "rist://192.168.1.2:1968".toList)).reason = Reason.peer_setup_failed
      ∧ (main sample_env 5 (sample_command_line
        "udp://127.0.0.1:5003?stream-id=3".toList
        "rist://192.168.1.2:1968".toList)).outcome = Outcome.returned 0)
    ∧ ((main sample_env 5 (sample_command_line
        "udp://127.0.0.1:5002?stream-id=2".toList
        "rist://192.168.1.2:1968,rist:/bogus".toList)).reason = Reason.peer_setup_failed
      ∧ (main sample_env 5 (sample_command_line
        "udp://127.0.0.1:5002?stream-id=2".toList
        "rist://192.168.1.2:1968,rist:/bogus".toList)).outcome = Outcome.returned 0)
    ∧ ((main sample_env_garbage 5 (sample_command_line
        "udp://127.0.0.1:5000,udp://127.0.0.1:5001".toList
        "rist://192.168.1.2:1968".toList)).reason = Reason.dup_stream_id
      ∧ (main sample_env_garbage 5 (sample_command_line
        "udp://127.0.0.1:5000,udp://127.0.0.1:5001".toList
        "rist://192.168.1.2:1968".toList)).outcome = Outcome.join_invalid) := by
  refine ⟨⟨?_, ?_⟩, ⟨?_, ?_⟩, ⟨?_, ?_⟩, ⟨?_, ?_⟩⟩ <;> decide

/-- C4 amended: ristsender ends in `exit(1)` exactly for the errors found
before the input loop (logging cannot be set up, an option ends in `exit(1)`
or `usage`, an input or output URL is missing, `argc < 2`); `exit` is never
called with another status, and a `return` from `main` returns 0. A
configuration rejected for a duplicate stream-id or for a failed peer set-up
does not end with status 1: control goes to label `shutdown`, past the
initialiser of `thread_main_loop`, and `main` returns 0 if the cells of that
array happen to hold 0, and otherwise calls `pthread_join` on a value that is
not a thread handle. An odd stream-id and a first output URL that
`rist_parse_address` cannot parse are such failed peer set-ups (unless the
duplicate check rejects the input first). -/
theorem exit_status_of_config_errors (env : Env) (argc : Int)
    (args : List (Char × List Char)) :
    ((main env argc args).outcome = Outcome.exited 1 ↔
      (env.rist_logging_set RIST_LOG_INFO ≠ 0
        ∨ (∃ code, parse_options env args {} = Except.error code)
        ∨ ∃ o, parse_options env args {} = Except.ok o
            ∧ (o.inputurl = none ∨ o.outputurl = none ∨ argc < 2)))
    ∧ (∀ code, (main env argc args).outcome = Outcome.exited code → code = 1)
    ∧ (∀ code, (main env argc args).outcome = Outcome.returned code → code = 0)
    ∧ ((main env argc args).reason = Reason.dup_stream_id
        ∨ (main env argc args).reason = Reason.peer_setup_failed →
      (main env argc args).outcome ≠ Outcome.exited 1
      ∧ (main env argc args).outcome ≠ Outcome.returned 1
      ∧ ((∀ i, i ≤ MAX_INPUT_COUNT → env.thread_garbage i = 0) →
        (main env argc args).outcome = Outcome.returned 0)
      ∧ ((∃ i, i ≤ MAX_INPUT_COUNT ∧ env.thread_garbage i ≠ 0) →
        (main env argc args).outcome = Outcome.join_invalid))
    ∧ (∀ (o : Options) (i : Nat) (t : List Char) (st : MainState) (cfg : rist_udp_config),
        env.rist_parse_udp_address t = some cfg → env.rist_sender_create i = 0 →
        (cfg.stream_id.val % 2 = 1
          ∨ env.rist_parse_address ((strtok_r st.outputurl (some 0) [','] 0).token.map
              (c_str (strtok_r st.outputurl (some 0) [','] 0).buf)) = none) →
        (input_body env o i t st).1 = Flow.shutdown Reason.dup_stream_id
        ∨ (input_body env o i t st).1 = Flow.shutdown Reason.peer_setup_failed) := by
  obtain ⟨h1, h2⟩ := main_cases env argc args
  have hbody : ∀ (o : Options) (i : Nat) (t : List Char) (st : MainState)
      (cfg : rist_udp_config),
      env.rist_parse_udp_address t = some cfg → env.rist_sender_create i = 0 →
      (cfg.stream_id.val % 2 = 1
        ∨ env.rist_parse_address ((strtok_r st.outputurl (some 0) [','] 0).token.map
            (c_str (strtok_r st.outputurl (some 0) [','] 0).buf)) = none) →
      (input_body env o i t st).1 = Flow.shutdown Reason.dup_stream_id
      ∨ (input_body env o i t st).1 = Flow.shutdown Reason.peer_setup_failed :=
    fun o i t st cfg hp hcr h => input_body_peer_fail env o i t st cfg hp hcr h
  by_cases hc : (env.rist_logging_set RIST_LOG_INFO ≠ 0
      ∨ (∃ code, parse_options env args {} = Except.error code)
      ∨ ∃ o, parse_options env args {} = Except.ok o
          ∧ (o.inputurl = none ∨ o.outputurl = none ∨ argc < 2))
  · rw [h1 hc]
    refine ⟨⟨fun _ => hc, fun _ => rfl⟩, ?_, ?_, ?_, hbody⟩
    · intro code h
      cases h
      rfl
    · intro code h
      cases h
    · intro h
      rcases h with h | h <;> cases h
  · obtain ⟨o, tokens, outputurl, hm⟩ := h2 hc
    rw [hm]
    obtain ⟨hne, hout⟩ := run_outcome env o tokens outputurl
    have hex : ∀ code, (run env o tokens outputurl).outcome ≠ Outcome.exited code := by
      intro code h
      rw [h] at hout
      rcases hout with h | h | h <;> cases h
    refine ⟨⟨fun h => absurd h (hex 1), fun h => absurd h hc⟩,
      fun code h => absurd h (hex code), ?_, ?_, hbody⟩
    · intro code h
      rw [h] at hout
      rcases hout with h | h | h <;> cases h
      rfl
    · intro hr
      refine ⟨hex 1, ?_, ?_, ?_⟩
      · intro h
        rw [h] at hout
        rcases hout with h | h | h <;> cases h
      all_goals
        rcases run_cases env o tokens outputurl with ⟨_, ho⟩ | ⟨hr2, _⟩ | ⟨hr2, _⟩
        · intro hg
          first
            | rw [ho, (join_loop_skipped env env.sigint).1 hg]
              rfl
            | rw [ho, (join_loop_skipped env env.sigint).2 hg]
              rfl
        · rcases hr with hr | hr <;> rw [hr] at hr2 <;>
            rcases hr2 with hr2 | hr2 | hr2 | hr2 <;> cases hr2
        · rcases hr with hr | hr <;> rw [hr] at hr2 <;> cases hr2

/-- C5 as stated fails: ristsender does not end with status 2 when
`rist_start` fails or a thread cannot be created. With a failing `rist_start`
and no signal, `main` goes to label `shutdown` and waits in `pthread_join` for
the thread of the UDP inputs, which it created before; the same run returns 0
once a signal has arrived. Where no thread can be created, `main` goes to
label `shutdown` and returns 0. -/
theorem exit_status_runtime_error_counterexample :
    ((main sample_env_start_fails_quiet 5 (sample_command_line
        "udp://127.0.0.1:5002?stream-id=2".toList
        "rist://192.168.1.2:1968".toList)).reason = Reason.sender_start_failed
      ∧ (main sample_env_start_fails_quiet 5 (sample_command_line
        "udp://127.0.0.1:5002?stream-id=2".toList
        "rist://192.168.1.2:1968".toList)).outcome = Outcome.blocked
      ∧ (main sample_env_start_fails_quiet 5 (sample_command_line
        "udp://127.0.0.1:5002?stream-id=2".toList
        "rist://192.168.1.2:1968".toList)).cleanup
        = [CleanupCall.evsocket_delevent 0, CleanupCall.free_udp_config 0,
           CleanupCall.rist_destroy (rist_ctx.sender 0),
           CleanupCall.pthread_join (thread_cell.handle 0)])
    ∧ ((main sample_env_start_fails 5 (sample_command_line
        "udp://127.0.0.1:5002?stream-id=2".toList
        "rist://192.168.1.2:1968".toList)).reason = Reason.sender_start_failed
      ∧ (main sample_env_start_fails 5 (sample_command_line
        "udp://127.0.0.1:5002?stream-id=2".toList
        "rist://192.168.1.2:1968".toList)).outcome = Outcome.returned 0)
    ∧ ((main sample_env_thread_fails 5 (sample_command_line
        "udp://127.0.0.1:5002?stream-id=2".toList
        "rist://192.168.1.2:1968".toList)).reason = Reason.udp_thread_failed
      ∧ (main sample_env_thread_fails 5 (sample_command_line
        "udp://127.0.0.1:5002?stream-id=2".toList
        "rist://192.168.1.2:1968".toList)).outcome = Outcome.returned 0) := by
  refine ⟨⟨?_, ?_, ?_⟩, ⟨?_, ?_⟩, ⟨?_, ?_⟩⟩ <;> decide

/-- C5 amended: ristsender never ends with status 2, neither through `exit`
nor through `return`. When `rist_start` fails for a sender or a receiver
context, or a worker thread cannot be created, `main` goes to label
`shutdown`, where it returns 0, waits without end, or calls `pthread_join` on
a value that is not a thread handle. If no signal arrives and a thread was
created before the failure, `main` does not return: the join loop waits for
that thread. If a signal arrives and every cell a failed `pthread_create`
left behind holds 0, `main` returns 0. The loop that starts the contexts
stops at the first failure: a failing `rist_start` on the sender context of a
slot, then on its receiver context, then a failing `pthread_create` for a
slot that has a receiver context. -/
theorem exit_status_of_start_failures (env : Env) (argc : Int)
    (args : List (Char × List Char)) :
    (main env argc args).outcome ≠ Outcome.exited 2
    ∧ (main env argc args).outcome ≠ Outcome.returned 2
    ∧ ((main env argc args).reason = Reason.sender_start_failed
        ∨ (main env argc args).reason = Reason.receiver_start_failed
        ∨ (main env argc args).reason = Reason.receiver_thread_failed
        ∨ (main env argc args).reason = Reason.udp_thread_failed →
      ((main env argc args).outcome = Outcome.returned 0
        ∨ (main env argc args).outcome = Outcome.blocked
        ∨ (main env argc args).outcome = Outcome.join_invalid)
      ∧ (env.sigint = false →
        (∃ slot start arg, slot ≤ MAX_INPUT_COUNT
          ∧ Event.pthread_create slot start arg ∈ (main env argc args).trace
          ∧ env.pthread_create slot = 0) →
        (main env argc args).outcome = Outcome.blocked
        ∨ (main env argc args).outcome = Outcome.join_invalid)
      ∧ (env.sigint = true → (∀ i, i ≤ MAX_INPUT_COUNT → env.thread_garbage i = 0) →
        (main env argc args).outcome = Outcome.returned 0))
    ∧ (∀ (i : Nat) (cb : rist_callback_object) (rest : List rist_callback_object)
        (c : rist_ctx), cb.sender_ctx = some c → env.rist_start c = -1 →
        (start_loop env i (cb :: rest)).1 = some Reason.sender_start_failed)
    ∧ (∀ (i : Nat) (cb : rist_callback_object) (rest : List rist_callback_object)
        (c : rist_ctx), (∀ s, cb.sender_ctx = some s → env.rist_start s ≠ -1) →
        cb.receiver_ctx = some c → env.rist_start c = -1 →
        (start_loop env i (cb :: rest)).1 = some Reason.receiver_start_failed)
    ∧ (∀ (i : Nat) (cb : rist_callback_object) (rest : List rist_callback_object)
        (c : rist_ctx), (∀ s, cb.sender_ctx = some s → env.rist_start s ≠ -1) →
        cb.receiver_ctx = some c → env.rist_start c ≠ -1 → env.pthread_create (i + 1) ≠ 0 →
        (start_loop env i (cb :: rest)).1 = some Reason.receiver_thread_failed) := by
  obtain ⟨h1, h2⟩ := main_cases env argc args
  have hsender : ∀ (cb : rist_callback_object),
      (∀ s, cb.sender_ctx = some s → env.rist_start s ≠ -1) →
      cb.sender_ctx.any (fun c => decide (env.rist_start c = -1)) = false := by
    intro cb hs
    cases hsc : cb.sender_ctx with
    | none => rfl
    | some s => simp [hs s hsc]
  refine ⟨?_, ?_, ?_, ?_, ?_, ?_⟩
  rotate_left 3
  · intro i cb rest c hs hf
    rw [start_loop]
    simp [hs, hf]
  · intro i cb rest c hs hr hf
    rw [start_loop]
    simp [hsender cb hs, hr, hf]
  · intro i cb rest c hs hr hok hth
    rw [start_loop]
    simp [hsender cb hs, hr, hok, hth]
  all_goals
    by_cases hc : (env.rist_logging_set RIST_LOG_INFO ≠ 0
        ∨ (∃ code, parse_options env args {} = Except.error code)
        ∨ ∃ o, parse_options env args {} = Except.ok o
            ∧ (o.inputurl = none ∨ o.outputurl = none ∨ argc < 2))
  · rw [h1 hc]
    intro h
    cases h
  · obtain ⟨o, tokens, outputurl, hm⟩ := h2 hc
    rw [hm]
    intro h
    have hout := (run_outcome env o tokens outputurl).2
    rw [h] at hout
    rcases hout with h | h | h <;> cases h
  · rw [h1 hc]
    intro h
    cases h
  · obtain ⟨o, tokens, outputurl, hm⟩ := h2 hc
    rw [hm]
    intro h
    have hout := (run_outcome env o tokens outputurl).2
    rw [h] at hout
    rcases hout with h | h | h <;> cases h
  · rw [h1 hc]
    intro h
    rcases h with h | h | h | h <;> cases h
  · obtain ⟨o, tokens, outputurl, hm⟩ := h2 hc
    rw [hm]
    intro hr
    have hout := (run_outcome env o tokens outputurl).2
    refine ⟨hout, ?_, ?_⟩
    · intro hsig hth
      obtain ⟨slot, start, arg, hslot, hev, hok⟩ := hth
      rcases run_cases env o tokens outputurl with ⟨hr2, _⟩ | ⟨_, ho⟩ | ⟨hr2, _⟩
      · rcases hr with hr | hr | hr | hr <;> rw [hr] at hr2 <;>
          rcases hr2 with hr2 | hr2 | hr2 <;> cases hr2
      · rw [hsig] at ho
        have hj := join_loop_handle _
          ⟨slot, handle_mem_thread_cells_after env _ slot start arg hslot hev hok⟩
        rcases join_loop_cases false
            (thread_cells_after env (run env o tokens outputurl).trace) with h | h | h
        · exact absurd h hj
        · rw [ho, h]
          exact Or.inl rfl
        · rw [ho, h]
          exact Or.inr rfl
      · rcases hr with hr | hr | hr | hr <;> rw [hr] at hr2 <;> cases hr2
    · intro hsig hg
      rcases run_cases env o tokens outputurl with ⟨hr2, _⟩ | ⟨_, ho⟩ | ⟨hr2, _⟩
      · rcases hr with hr | hr | hr | hr <;> rw [hr] at hr2 <;>
          rcases hr2 with hr2 | hr2 | hr2 <;> cases hr2
      · rw [ho, join_loop_none env.sigint _ (Or.inl hsig)
          (fun v hm => indeterminate_mem_thread_cells_after env _ v hg hm)]
        rfl
      · rcases hr with hr | hr | hr | hr <;> rw [hr] at hr2 <;> cases hr2

/-! ## Output peers and worker threads per input -/

/-- C15 at a failing input: the command line with the two inputs of
stream-ids 2 and 4 and the output list of the two sample URLs runs to `pause`
with both sender contexts started, but `setup_rist_peer` is called on the
sender context of the first input with both output URLs in list order, and on
the sender context of the second input with the first output URL only: the
second `strtok_r` over `outputurl` finds the buffer already cut at the
comma. -/
theorem output_peers_second_input :
    (main sample_env 5 (sample_command_line
        "udp://127.0.0.1:5002?stream-id=2,udp://127.0.0.1:5004?stream-id=4".toList
        "rist://192.168.1.2:1968,rist://192.168.1.3:1968?secret=urlpass&aes-type=256".toList)).reason
      = Reason.pause_returned
    ∧ started (main sample_env 5 (sample_command_line
        "udp://127.0.0.1:5002?stream-id=2,udp://127.0.0.1:5004?stream-id=4".toList
        "rist://192.168.1.2:1968,rist://192.168.1.3:1968?secret=urlpass&aes-type=256".toList)).trace
      = [rist_ctx.sender 0, rist_ctx.sender 1]
    ∧ peer_tokens (main sample_env 5 (sample_command_line
        "udp://127.0.0.1:5002?stream-id=2,udp://127.0.0.1:5004?stream-id=4".toList
        "rist://192.168.1.2:1968,rist://192.168.1.3:1968?secret=urlpass&aes-type=256".toList)).trace
        (rist_ctx.sender 0)
      = [some "rist://192.168.1.2:1968".toList,
         some "rist://192.168.1.3:1968?secret=urlpass&aes-type=256".toList]
    ∧ peer_tokens (main sample_env 5 (sample_command_line
        "udp://127.0.0.1:5002?stream-id=2,udp://127.0.0.1:5004?stream-id=4".toList
        "rist://192.168.1.2:1968,rist://192.168.1.3:1968?secret=urlpass&aes-type=256".toList)).trace
        (rist_ctx.sender 1)
      = [some "rist://192.168.1.2:1968".toList] := by
  refine ⟨?_, ?_, ?_, ?_⟩ <;> decide

/-- C16 at a failing input: with a udp input in slot 0 and a rist input in
slot 1, slot 1 is the only one with a receiver context, and in the run of
`main` on that command line the thread created for it (slot 2 of
`thread_main_loop`) is given callback object 0, as is the udp thread. Run on callback object 0, `input_loop` only calls
`evsocket_loop_single`; it neither reads from the receiver context of input 1
nor writes to its sender context, which it would do on callback object 1. In
every run the loop that starts the contexts passes callback object 0 to each
thread it creates. -/
theorem worker_thread_callback_object :
    (final_callback_objects sample_env_rist {}
        ["udp://127.0.0.1:5002?stream-id=2".toList, "rist://@127.0.0.1:6000?stream-id=6".toList]
        sample_outputurl).map (fun c => c.receiver_ctx)
      = [none, some (rist_ctx.receiver 1), none, none, none, none, none, none, none, none]
    ∧ created_threads (main sample_env_rist 5 (sample_command_line
        "udp://127.0.0.1:5002?stream-id=2,rist://@127.0.0.1:6000?stream-id=6".toList
        "rist://192.168.1.2:1968".toList)).trace
      = [(0, Callback.input_loop, 0), (2, Callback.input_loop, 0)]
    ∧ input_loop ((final_callback_objects sample_env_rist {}
        ["udp://127.0.0.1:5002?stream-id=2".toList, "rist://@127.0.0.1:6000?stream-id=6".toList]
        sample_outputurl).getD 0 rist_callback_object.zero) [sample_read, sample_read]
      = [LoopCall.evsocket_loop_single, LoopCall.evsocket_loop_single]
    ∧ input_loop ((final_callback_objects sample_env_rist {}
        ["udp://127.0.0.1:5002?stream-id=2".toList, "rist://@127.0.0.1:6000?stream-id=6".toList]
        sample_outputurl).getD 1 rist_callback_object.zero) [sample_read]
      = [LoopCall.receiver_data_read (rist_ctx.receiver 1),
         LoopCall.sender_data_write (some (rist_ctx.sender 1)) [71, 0]]
    ∧ (∀ (env : Env) (cbs : List rist_callback_object) (i : Nat),
        ∀ t ∈ created_threads (start_loop env i cbs).2, t.2.2 = 0) := by
  refine ⟨by decide, by decide, by decide, by decide, ?_⟩
  intro env cbs
  induction cbs with
  | nil =>
    intro i t ht
    rw [start_loop] at ht
    simp [created_threads] at ht
  | cons cb rest ih =>
    intro i t ht
    rw [start_loop] at ht
    dsimp only at ht
    have hsplit : ∀ (a b : List Event), created_threads (a ++ b)
        = created_threads a ++ created_threads b := by
      intro a b
      simp [created_threads, List.filterMap_append]
    cases hs : cb.sender_ctx <;> cases hr : cb.receiver_ctx <;>
      simp only [hs, hr, Option.any_none, Option.any_some, Option.isSome_none,
        Option.isSome_some] at ht <;>
      (repeat' split at ht) <;>
      simp [created_threads, hsplit] at ht <;>
      first
        | (rcases ht with ht | ht
           · rw [ht]
           · exact ih (i + 1) t (by simpa [created_threads] using ht))
        | (rw [ht])
        | (exact ih (i + 1) t (by simpa [created_threads] using ht))

end Ristsender

namespace Rist2mpeg

/-! ## Option parsing of rist2mpeg -/

theorem mpeg_option_step_error (env : Env) (o : Options) (c : Char) (optarg : List Char)
    (code : Int) (h : option_step env o c optarg = Except.error code) : code = 1 := by
  unfold option_step at h
  split at h
  all_goals first
    | (cases h; done)
    | (cases h; rfl)
    | (split at h
       · cases h
       · split at h
         · cases h
         · split at h
           · cases h
           · cases h
             rfl)

theorem option_step_fields (env : Env) (o o1 : Options) (c : Char) (optarg : List Char)
    (h : option_step env o c optarg = Except.ok o1) :
    o1.recovery_mode = o.recovery_mode
    ∧ (c ≠ 'B' → o1.buffer_bloat_mode = o.buffer_bloat_mode)
    ∧ (c ≠ 't' → o1.encryption_type = o.encryption_type)
    ∧ o1.shared_secret = (if c = 'e' then some optarg else o.shared_secret)
    ∧ o1.url 0 = (if c = 'u' then some optarg else o.url 0)
    ∧ o1.url 1 = (if c = 'x' then some optarg else o.url 1)
    ∧ o1.addr 0 = (if c = 's' then some optarg else o.addr 0) := by
  unfold option_step at h
  split at h
  all_goals first
    | (cases h; done)
    | (cases h; simp [Function.update])
    | (split at h
       · cases h
         simp
       · split at h
         · cases h
           simp
         · split at h
           · cases h
             simp
           · cases h)

theorem mpeg_parse_options_error (env : Env) :
    ∀ (args : List (Char × List Char)) (o : Options) (code : Int),
      parse_options env args o = Except.error code → code = 1 := by
  intro args
  induction args with
  | nil =>
    intro o code h
    rw [parse_options] at h
    cases h
  | cons a rest ih =>
    intro o code h
    obtain ⟨c, optarg⟩ := a
    rw [parse_options] at h
    cases hs : option_step env o c optarg with
    | error e =>
      rw [hs] at h
      cases h
      exact mpeg_option_step_error env o c optarg _ hs
    | ok o1 =>
      rw [hs] at h
      exact ih o1 code h

theorem parse_options_fields (env : Env) :
    ∀ (args : List (Char × List Char)) (o o2 : Options),
      parse_options env args o = Except.ok o2 →
      o2.recovery_mode = o.recovery_mode
      ∧ ((∀ s, ('B', s) ∉ args) → o2.buffer_bloat_mode = o.buffer_bloat_mode)
      ∧ ((∀ s, ('t', s) ∉ args) → o2.encryption_type = o.encryption_type)
      ∧ (o2.shared_secret.isSome ↔ (o.shared_secret.isSome ∨ ∃ s, ('e', s) ∈ args))
      ∧ ((o2.url 0).isSome ↔ ((o.url 0).isSome ∨ ∃ s, ('u', s) ∈ args))
      ∧ ((o2.url 1).isSome ↔ ((o.url 1).isSome ∨ ∃ s, ('x', s) ∈ args))
      ∧ ((o2.addr 0).isSome ↔ ((o.addr 0).isSome ∨ ∃ s, ('s', s) ∈ args)) := by
  intro args
  induction args with
  | nil =>
    intro o o2 h
    rw [parse_options] at h
    cases h
    simp
  | cons a rest ih =>
    intro o o2 h
    obtain ⟨c, optarg⟩ := a
    rw [parse_options] at h
    cases hs : option_step env o c optarg with
    | error e =>
      rw [hs] at h
      cases h
    | ok o1 =>
      rw [hs] at h
      obtain ⟨a1, a2, a3, a4, a5, a6, a7⟩ := ih o1 o2 h
      obtain ⟨b1, b2, b3, b4, b5, b6, b7⟩ := option_step_fields env o o1 c optarg hs
      have hmem : ∀ (d : Char), (∃ s, (d, s) ∈ (c, optarg) :: rest)
          ↔ (c = d ∨ ∃ s, (d, s) ∈ rest) := by
        intro d
        constructor
        · rintro ⟨s, hs1⟩
          rcases List.mem_cons.mp hs1 with h1 | h1
          · left
            cases h1
            rfl
          · exact Or.inr ⟨s, h1⟩
        · rintro (h1 | ⟨s, h1⟩)
          · exact ⟨optarg, by rw [h1]; exact List.mem_cons_self _ _⟩
          · exact ⟨s, List.mem_cons_of_mem _ h1⟩
      refine ⟨a1.trans b1, ?_, ?_, ?_, ?_, ?_, ?_⟩
      · intro hB
        have hc : c ≠ 'B' := fun hc => hB optarg (by rw [hc]; exact List.mem_cons_self _ _)
        rw [a2 (fun s hs1 => hB s (List.mem_cons_of_mem _ hs1)), b2 hc]
      · intro ht
        have hc : c ≠ 't' := fun hc => ht optarg (by rw [hc]; exact List.mem_cons_self _ _)
        rw [a3 (fun s hs1 => ht s (List.mem_cons_of_mem _ hs1)), b3 hc]
      · rw [a4, hmem, b4]
        by_cases hc : c = 'e' <;> simp [hc]
      · rw [a5, hmem, b5]
        by_cases hc : c = 'u' <;> simp [hc]
      · rw [a6, hmem, b6]
        by_cases hc : c = 'x' <;> simp [hc]
      · rw [a7, hmem, b7]
        by_cases hc : c = 's' <;> simp [hc]

theorem rist_side_trace (env : Env) (o : Options) :
    ∃ rest, (rist_side env o).trace = Event.server_create o.profile :: rest := by
  unfold rist_side
  dsimp only
  repeat' split
  all_goals exact ⟨_, rfl⟩

theorem encrypt_enables_append (a b : List Event) :
    encrypt_enables (a ++ b) = encrypt_enables a ++ encrypt_enables b := by
  simp [encrypt_enables, List.filterMap_append]

theorem encrypt_enables_add_peer_loop (env : Env) (addr : Nat → Option (List Char)) :
    ∀ l : List Nat, encrypt_enables (add_peer_loop env addr l).2 = [] := by
  intro l
  induction l with
  | nil => rfl
  | cons i rest ih =>
    rw [add_peer_loop]
    split
    · exact ih
    · split
      · rfl
      · simpa [encrypt_enables] using ih

theorem encrypt_enables_mpeg_loop (env : Env) (o : Options) :
    ∀ l : List Nat, encrypt_enables (mpeg_loop env o l).2 = [] := by
  intro l
  induction l with
  | nil => rfl
  | cons i rest ih =>
    rw [mpeg_loop]
    split
    · exact ih
    · split
      · simpa [encrypt_enables] using ih
      · simpa [encrypt_enables] using ih

theorem encrypt_enables_rist_side (env : Env) (o : Options) :
    encrypt_enables (rist_side env o).trace =
      if env.rist_server_create = 0 ∧ env.rist_server_init ≠ -1 then
        match o.shared_secret with
        | some secret => [(secret, keysize o.encryption_type)]
        | none => []
      else [] := by
  unfold rist_side
  dsimp only
  by_cases h1 : env.rist_server_create = 0
  · by_cases h2 : env.rist_server_init = -1
    · simp [h1, h2, encrypt_enables]
    · simp only [h1, h2, ne_eq, not_true_eq_false, not_false_eq_true, if_false, and_self,
        if_true]
      cases hsec : o.shared_secret with
      | none =>
        simp only [Option.isSome_none, Bool.false_eq_true, false_and, if_false]
        repeat' split
        all_goals
          simp only [encrypt_enables_append, encrypt_enables_add_peer_loop,
            encrypt_enables_mpeg_loop, List.append_nil]
          rfl
      | some secret =>
        simp only [Option.isSome_some, true_and]
        repeat' split
        all_goals
          simp only [encrypt_enables_append, encrypt_enables_add_peer_loop,
            encrypt_enables_mpeg_loop, List.append_nil]
          rfl
  · simp [h1, encrypt_enables]

theorem main_of_parsed (env : Env) (argc : Int) (args : List (Char × List Char))
    (o : Options) (h : parse_options env args {} = Except.ok o) :
    main env argc args =
      if all_url_null o.url then { exit_code := 1, trace := [] }
      else if (o.addr 0).isNone then { exit_code := 1, trace := [] }
      else if argc < 3 then { exit_code := 1, trace := [] }
      else rist_side env o := by
  unfold main
  rw [h]

theorem main_of_usage (env : Env) (argc : Int) (args : List (Char × List Char))
    (code : Int) (h : parse_options env args {} = Except.error code) :
    main env argc args = { exit_code := 1, trace := [] } := by
  unfold main
  rw [h, mpeg_parse_options_error env args {} code h]

theorem all_url_null_iff (url : Nat → Option (List Char)) :
    all_url_null url = false ↔ ((url 0).isSome ∨ (url 1).isSome) := by
  unfold all_url_null INPUT_COUNT
  cases h0 : url 0 <;> cases h1 : url 1 <;> simp [List.range_succ, h0, h1]

/-! ## Claims on rist2mpeg -/

/-- C12: in rist2mpeg, `rist_server_encrypt_enable` is called only if an
encryption password option was given, and then with the password and the key
size computed from the encryption type; a run that passes argument validation
and creates and initialises the server context calls it exactly once when a
password was given and not at all otherwise. The key size is 128 for
encryption type 1 and 256 for type 2, and without an encryption type option
the type is 1, hence the key size 128. -/
theorem encryption_enable (env : Env) (argc : Int) (args : List (Char × List Char)) :
    (∀ secret k, (secret, k) ∈ encrypt_enables (main env argc args).trace →
      (∃ s, ('e', s) ∈ args)
      ∧ ∃ o, parse_options env args {} = Except.ok o ∧ o.shared_secret = some secret
          ∧ k = keysize o.encryption_type)
    ∧ (∀ o, parse_options env args {} = Except.ok o →
        ((o.url 0).isSome ∨ (o.url 1).isSome) → (o.addr 0).isSome → ¬ argc < 3 →
        env.rist_server_create = 0 → env.rist_server_init ≠ -1 →
        ((∃ s, ('e', s) ∈ args) →
          ∃ secret, encrypt_enables (main env argc args).trace
            = [(secret, keysize o.encryption_type)])
        ∧ (¬ (∃ s, ('e', s) ∈ args) → encrypt_enables (main env argc args).trace = []))
    ∧ keysize 1 = 128 ∧ keysize 2 = 256
    ∧ ((∀ s, ('t', s) ∉ args) → ∀ o, parse_options env args {} = Except.ok o →
        o.encryption_type = 1 ∧ keysize o.encryption_type = 128) := by
  refine ⟨?_, ?_, by decide, by decide, ?_⟩
  · intro secret k hmem
    cases hp : parse_options env args {} with
    | error code =>
      rw [main_of_usage env argc args code hp] at hmem
      simp [encrypt_enables] at hmem
    | ok o =>
      have hsecret := (parse_options_fields env args {} o hp).2.2.2.1
      rw [main_of_parsed env argc args o hp] at hmem
      have hside : (secret, k) ∈ encrypt_enables (rist_side env o).trace →
          o.shared_secret = some secret ∧ k = keysize o.encryption_type := by
        intro h
        rw [encrypt_enables_rist_side] at h
        split at h
        · cases hs : o.shared_secret with
          | none =>
            rw [hs] at h
            cases h
          | some s1 =>
            rw [hs] at h
            have := List.mem_singleton.mp h
            cases this
            exact ⟨rfl, rfl⟩
        · cases h
      have hall : o.shared_secret = some secret ∧ k = keysize o.encryption_type := by
        split at hmem
        · simp [encrypt_enables] at hmem
        · split at hmem
          · simp [encrypt_enables] at hmem
          · split at hmem
            · simp [encrypt_enables] at hmem
            · exact hside hmem
      refine ⟨?_, o, rfl, hall.1, hall.2⟩
      have h1 : o.shared_secret.isSome = true := by
        rw [hall.1]
        rfl
      rcases hsecret.mp h1 with h2 | h2
      · cases h2
      · exact h2
  · intro o hp hurl haddr hargc hcreate hinit
    have hsecret := (parse_options_fields env args {} o hp).2.2.2.1
    have hnull : all_url_null o.url = false := (all_url_null_iff o.url).mpr hurl
    have haddr1 : (o.addr 0).isNone = false := by
      cases h : o.addr 0 with
      | none =>
        rw [h] at haddr
        cases haddr
      | some a => rfl
    have hmain : main env argc args = rist_side env o := by
      rw [main_of_parsed env argc args o hp, hnull, haddr1]
      simp only [Bool.false_eq_true, if_false, if_neg hargc]
    rw [hmain, encrypt_enables_rist_side, if_pos ⟨hcreate, hinit⟩]
    constructor
    · intro he
      have h1 := hsecret.mpr (Or.inr he)
      cases hs : o.shared_secret with
      | none =>
        rw [hs] at h1
        cases h1
      | some secret => exact ⟨secret, rfl⟩
    · intro he
      cases hs : o.shared_secret with
      | none => rfl
      | some secret =>
        have h1 : o.shared_secret.isSome = true := by
          rw [hs]
          rfl
        rcases hsecret.mp h1 with h2 | h2
        · cases h2
        · exact absurd h2 he
  · intro ht o hp
    have h1 : o.encryption_type = 1 := (parse_options_fields env args {} o hp).2.2.1 ht
    rw [h1]
    exact ⟨rfl, by decide⟩

/-- C13 at a failing input: the table `long_options` maps `--recovery-type`
to the value T, the short option string does not list T (so `-T` is reported
as the question mark), and the `switch` has no case for either: both take the
default branch, which calls `usage`. The command line with `--url`,
`--server` and `--recovery-type bytes` therefore ends with exit status 1
before any call. No option changes the recovery mode, which stays `time`, as
in the default peer configuration of the command line without the option. -/
theorem recovery_type_option :
    long_option_val "recovery-type" = some 'T'
    ∧ short_option_known 'T' = false
    ∧ (∀ (env : Env) (o : Options) (optarg : List Char),
        option_step env o 'T' optarg = Except.error 1
        ∧ option_step env o '?' optarg = Except.error 1)
    ∧ (main sample_env 7 (sample_args ++ [('T', "bytes".toList)])).exit_code = 1
    ∧ (main sample_env 7 (sample_args ++ [('T', "bytes".toList)])).trace = []
    ∧ (∀ (env : Env) (args : List (Char × List Char)) (o : Options),
        parse_options env args {} = Except.ok o →
        o.recovery_mode = rist_recovery_mode.TIME)
    ∧ (server_inits (main sample_env 5 sample_args).trace).map (fun c => c.recovery_mode)
      = [rist_recovery_mode.TIME] := by
  refine ⟨by decide, by decide, fun env o optarg => ⟨rfl, rfl⟩, by decide, by decide, ?_,
    by decide⟩
  intro env args o hp
  exact (parse_options_fields env args {} o hp).1

/-- C14: in rist2mpeg, `main` gets past argument validation to
`rist_server_create` if and only if the option loop ends without `usage`, at
least one of `url[0]` (`--url`) and `url[1]` (`--url2`) is set, `addr[0]`
(`--server`) is set, and `argc >= 3`; in every other case the process exits
with status 1 and no call has been made. After the option loop `url[0]`,
`url[1]` and `addr[0]` are set exactly when the option was given. -/
theorem argument_validation (env : Env) (argc : Int) (args : List (Char × List Char)) :
    (server_creates (main env argc args).trace ≠ [] ↔
      ∃ o, parse_options env args {} = Except.ok o
        ∧ ((o.url 0).isSome ∨ (o.url 1).isSome) ∧ (o.addr 0).isSome ∧ argc ≥ 3)
    ∧ (server_creates (main env argc args).trace = [] →
      (main env argc args).exit_code = 1 ∧ (main env argc args).trace = [])
    ∧ (∀ o, parse_options env args {} = Except.ok o →
      ((o.url 0).isSome ↔ ∃ s, ('u', s) ∈ args)
      ∧ ((o.url 1).isSome ↔ ∃ s, ('x', s) ∈ args)
      ∧ ((o.addr 0).isSome ↔ ∃ s, ('s', s) ∈ args))
    ∧ long_option_val "url" = some 'u' ∧ long_option_val "url2" = some 'x'
    ∧ long_option_val "server" = some 's' := by
  have hside : ∀ o, server_creates (rist_side env o).trace ≠ [] := by
    intro o
    obtain ⟨rest, hr⟩ := rist_side_trace env o
    rw [hr]
    simp [server_creates]
  have hcases : (∃ o, parse_options env args {} = Except.ok o
        ∧ ((o.url 0).isSome ∨ (o.url 1).isSome) ∧ (o.addr 0).isSome ∧ argc ≥ 3
        ∧ main env argc args = rist_side env o)
      ∨ (main env argc args = { exit_code := 1, trace := [] }
        ∧ ¬ ∃ o, parse_options env args {} = Except.ok o
          ∧ ((o.url 0).isSome ∨ (o.url 1).isSome) ∧ (o.addr 0).isSome ∧ argc ≥ 3) := by
    cases hp : parse_options env args {} with
    | error code =>
      right
      refine ⟨main_of_usage env argc args code hp, ?_⟩
      rintro ⟨o, ho, _⟩
      cases ho
    | ok o =>
      rw [main_of_parsed env argc args o hp]
      by_cases hnull : all_url_null o.url = true
      · right
        rw [if_pos hnull]
        refine ⟨rfl, ?_⟩
        rintro ⟨o1, ho1, hurl, _⟩
        cases ho1
        rw [(all_url_null_iff o.url).mpr hurl] at hnull
        cases hnull
      · rw [if_neg hnull]
        by_cases haddr : (o.addr 0).isNone = true
        · right
          rw [if_pos haddr]
          refine ⟨rfl, ?_⟩
          rintro ⟨o1, ho1, _, ha, _⟩
          cases ho1
          cases h : o.addr 0 with
          | none =>
            rw [h] at ha
            cases ha
          | some a =>
            rw [h] at haddr
            cases haddr
        · rw [if_neg haddr]
          by_cases hargc : argc < 3
          · right
            rw [if_pos hargc]
            refine ⟨rfl, ?_⟩
            rintro ⟨o1, ho1, _, _, hge⟩
            omega
          · left
            rw [if_neg hargc]
            refine ⟨o, rfl, ?_, ?_, by omega, rfl⟩
            · apply (all_url_null_iff o.url).mp
              cases h : all_url_null o.url with
              | true => exact absurd h hnull
              | false => rfl
            · cases h : o.addr 0 with
              | none =>
                rw [h] at haddr
                exact absurd rfl haddr
              | some a => rfl
  refine ⟨?_, ?_, ?_, by decide, by decide, by decide⟩
  · rcases hcases with ⟨o, hp, hurl, haddr, hargc, hmain⟩ | ⟨hmain, hno⟩
    · rw [hmain]
      exact ⟨fun _ => ⟨o, hp, hurl, haddr, hargc⟩, fun _ => hside o⟩
    · rw [hmain]
      exact ⟨fun h => absurd rfl h, fun h => absurd h hno⟩
  · intro hnone
    rcases hcases with ⟨o, hp, hurl, haddr, hargc, hmain⟩ | ⟨hmain, hno⟩
    · rw [hmain] at hnone
      exact absurd hnone (hside o)
    · rw [hmain]
      exact ⟨rfl, rfl⟩
  · intro o hp
    obtain ⟨-, -, -, -, h5, h6, h7⟩ := parse_options_fields env args {} o hp
    refine ⟨?_, ?_, ?_⟩
    · rw [h5]
      simp
    · rw [h6]
      simp
    · rw [h7]
      simp

/-- Witness for C12: with `--encryption-password` and the default encryption
type the server is set up with key size 128, with type 2 with key size 256,
and without a password encryption is not enabled. -/
theorem encryption_enable_witness :
    (∃ s, ('e', s) ∈ sample_args ++ [('e', "secret".toList)])
    ∧ encrypt_enables (main sample_env 7 (sample_args ++ [('e', "secret".toList)])).trace
      = [("secret".toList, 128)]
    ∧ encrypt_enables (main sample_env 9
        (sample_args ++ [('e', "secret".toList), ('t', "2".toList)])).trace
      = [("secret".toList, 256)]
    ∧ encrypt_enables (main sample_env 5 sample_args).trace = [] :=
  ⟨((encryption_enable sample_env 7 (sample_args ++ [('e', "secret".toList)])).1
      "secret".toList 128 (by decide)).1,
    by decide, by decide, by decide⟩

/-- Witness for C14: the command line with `--url` and `--server` reaches
`rist_server_create`; the one with `--url` alone exits with status 1 without
any call. -/
theorem argument_validation_witness :
    server_creates (main sample_env 3 [('u', "127.0.0.1:5000".toList)]).trace = []
    ∧ (main sample_env 3 [('u', "127.0.0.1:5000".toList)]).exit_code = 1
    ∧ (main sample_env 3 [('u', "127.0.0.1:5000".toList)]).trace = []
    ∧ server_creates (main sample_env 5 sample_args).trace = [1] :=
  ⟨by decide,
    ((argument_validation sample_env 3 [('u', "127.0.0.1:5000".toList)]).2.1 (by decide)).1,
    ((argument_validation sample_env 3 [('u', "127.0.0.1:5000".toList)]).2.1 (by decide)).2,
    by decide⟩

end Rist2mpeg
